import Mathlib

/-!
# SuperTux player controller and igel

A shallow embedding of `src/object/player.cpp` and `src/badguy/igel.cpp`.
C++ `float` values are embedded as exact rationals (no rounding), C++ `int`
values as `Int`.  Member functions become functions on an explicit `Player`
(or `Igel`) record; calls into collaborators (sector geometry, controller,
clock) are read from an `Env` (or `IgelEnv`) record, and effects on
collaborators (sounds, objects added to the sector, the session reset
point) are recorded in fields of the `Player` record.
-/

namespace SuperTux

/-! ## Collaborator types -/

/-- Modelled from the spec: the `Vector` type (math/vector.hpp is not part of the
sources); a pair of coordinates, as used by `Vector(x, y)`, `.x` and `.y`. -/
structure Vector where
  x : ℚ
  y : ℚ
  deriving DecidableEq

/-- Modelled from the spec: component-wise sum, the `operator+` of `Vector`. -/
def Vector.add (a b : Vector) : Vector := ⟨a.x + b.x, a.y + b.y⟩

/-- Modelled from the spec: component-wise difference, the `operator-` of `Vector`. -/
def Vector.sub (a b : Vector) : Vector := ⟨a.x - b.x, a.y - b.y⟩

/-- Modelled from the spec: the axis-aligned bounding box `Rect` (math/rect.hpp is
not part of the sources).  The player code reads its corners `p1` (left, top)
and `p2` (right, bottom) directly. -/
structure Rect where
  p1 : Vector
  p2 : Vector
  deriving DecidableEq

namespace Rect

/-- Modelled from the spec: the left edge of the box. -/
def get_left (r : Rect) : ℚ := r.p1.x

/-- Modelled from the spec: the right edge of the box. -/
def get_right (r : Rect) : ℚ := r.p2.x

/-- Modelled from the spec: the top edge of the box (y grows downwards). -/
def get_top (r : Rect) : ℚ := r.p1.y

/-- Modelled from the spec: the bottom edge of the box. -/
def get_bottom (r : Rect) : ℚ := r.p2.y

/-- Modelled from the spec: the width of the box. -/
def get_width (r : Rect) : ℚ := r.p2.x - r.p1.x

/-- Modelled from the spec: the height of the box. -/
def get_height (r : Rect) : ℚ := r.p2.y - r.p1.y

/-- Modelled from the spec: translate both corners by `v`. -/
def move (r : Rect) (v : Vector) : Rect := ⟨r.p1.add v, r.p2.add v⟩

/-- Modelled from the spec: put the top-left corner at `v`, keeping the size. -/
def set_pos (r : Rect) (v : Vector) : Rect := r.move (v.sub r.p1)

/-- Modelled from the spec: keep the left edge, move the right edge. -/
def set_width (r : Rect) (w : ℚ) : Rect := { r with p2 := ⟨r.p1.x + w, r.p2.y⟩ }

/-- Modelled from the spec: keep the top edge, move the bottom edge. -/
def set_height (r : Rect) (h : ℚ) : Rect := { r with p2 := ⟨r.p2.x, r.p1.y + h⟩ }

/-- Modelled from the spec: set the width, then the height. -/
def set_size (r : Rect) (w h : ℚ) : Rect := (r.set_width w).set_height h

/-- Modelled from the spec: point containment, closed on the left/top and open on
the right/bottom. -/
def contains (r : Rect) (v : Vector) : Bool :=
  decide (v.x ≥ r.p1.x) && decide (v.y ≥ r.p1.y) && decide (v.x < r.p2.x) && decide (v.y < r.p2.y)

end Rect

/-- Modelled from the spec: the countdown `Timer` (supertux/timer.hpp is not part of
the sources): a period and the game time at which it was started; period 0
means "not started". -/
structure Timer where
  period : ℚ
  cycle_start : ℚ
  deriving DecidableEq

namespace Timer

/-- Modelled from the spec: the call `start(period)` at game time `now`. -/
def start (period now : ℚ) : Timer := ⟨period, now⟩

/-- Modelled from the spec: the call `stop()`, which is `start(0)`. -/
def stop (now : ℚ) : Timer := start 0 now

/-- Modelled from the spec: the period of the timer, 0 when it is not started. -/
def get_period (t : Timer) : ℚ := t.period

/-- Modelled from the spec: the time left of the period at game time `now`. -/
def get_timeleft (t : Timer) (now : ℚ) : ℚ := t.period - (now - t.cycle_start)

/-- Modelled from the spec: a timer is started while its period is non-zero and
time is left. -/
def started (t : Timer) (now : ℚ) : Bool :=
  decide (t.period ≠ 0) && decide (0 < t.get_timeleft now)

/-- Modelled from the spec: the call `check()`, true once a period has passed since the start, and then the
(non-cyclic) timer is cleared. -/
def check (t : Timer) (now : ℚ) : Bool × Timer :=
  if t.period = 0 then (false, t)
  else if now - t.cycle_start ≥ t.period then (true, { t with period := 0 })
  else (false, t)

end Timer

/-- Modelled from the spec: the `Physic` integrator state (supertux/physic.hpp is not
part of the sources): velocity, acceleration, a gravity scalar and the
gravity-enabled flag, with plain setters (no clamping). -/
structure Physic where
  vx : ℚ
  vy : ℚ
  ax : ℚ
  ay : ℚ
  gravity_enabled : Bool
  gravity : ℚ
  deriving DecidableEq

namespace Physic

/-- Modelled from the spec: plain setter of the horizontal velocity. -/
def set_velocity_x (ph : Physic) (v : ℚ) : Physic := { ph with vx := v }

/-- Modelled from the spec: plain setter of the vertical velocity. -/
def set_velocity_y (ph : Physic) (v : ℚ) : Physic := { ph with vy := v }

/-- Modelled from the spec: plain setter of both velocity components. -/
def set_velocity (ph : Physic) (x y : ℚ) : Physic := { ph with vx := x, vy := y }

/-- Modelled from the spec: plain setter of the horizontal acceleration. -/
def set_acceleration_x (ph : Physic) (a : ℚ) : Physic := { ph with ax := a }

/-- Modelled from the spec: plain setter of the vertical acceleration. -/
def set_acceleration_y (ph : Physic) (a : ℚ) : Physic := { ph with ay := a }

/-- Modelled from the spec: plain setter of both acceleration components. -/
def set_acceleration (ph : Physic) (x y : ℚ) : Physic := { ph with ax := x, ay := y }

/-- Modelled from the spec: set the gravity-enabled flag. -/
def enable_gravity (ph : Physic) (b : Bool) : Physic := { ph with gravity_enabled := b }

/-- Modelled from the spec: plain setter of the gravity scalar. -/
def set_gravity (ph : Physic) (g : ℚ) : Physic := { ph with gravity := g }

/-- Modelled from the spec: `reset()` zeroes velocity and acceleration and does not
keep the gravity flag set by the caller: gravity is enabled again. -/
def reset (ph : Physic) : Physic :=
  { ph with vx := 0, vy := 0, ax := 0, ay := 0, gravity_enabled := true }

/-- Modelled from the spec: `get_movement(dt)`, semi-implicit Euler: the velocity is
advanced by `(a + (gravity_enabled ? gravity : 0)) * dt` and the returned
delta is the new velocity times `dt`.  The result is the delta and the
integrator after the call. -/
def get_movement (ph : Physic) (dt : ℚ) : Vector × Physic :=
  let vx := ph.vx + ph.ax * dt
  let vy := ph.vy + (ph.ay + (if ph.gravity_enabled then ph.gravity else 0)) * dt
  (⟨vx * dt, vy * dt⟩, { ph with vx := vx, vy := vy })

end Physic

inductive Direction where
  | AUTO | LEFT | RIGHT | UP | DOWN
  deriving DecidableEq, Repr

inductive BonusType where
  | NO_BONUS | GROWUP_BONUS | FIRE_BONUS | ICE_BONUS
  deriving DecidableEq, Repr

inductive CollisionGroup where
  | COLGROUP_DISABLED | COLGROUP_MOVING | COLGROUP_TOUCHABLE
  deriving DecidableEq, Repr

inductive FallMode where
  | ON_GROUND | JUMPING | FALLING
  deriving DecidableEq, Repr

/-- The controls queried by the player code. -/
inductive Control where
  | LEFT | RIGHT | UP | DOWN | JUMP | ACTION
  | PEEK_LEFT | PEEK_RIGHT | PEEK_UP | PEEK_DOWN
  deriving DecidableEq, Repr

/-- Modelled from the spec: the shared `PlayerStatus` record (supertux/player_status.hpp
is not part of the sources) that outlives a single player instance; the
fields are those the player code reads and writes. -/
structure PlayerStatus where
  coins : Int
  bonus : BonusType
  max_fire_bullets : Int
  max_ice_bullets : Int
  deriving DecidableEq

/-- Objects handed to `Sector::add_object` by the player code.  Constructor
arguments (positions, speeds, values drawn from `systemRandom`) are not
recorded, only which object is created. -/
inductive GameObject where
  | FallingCoin
  | SpriteParticle (sprite : String)
  | Particles
  | Bullet
  deriving DecidableEq, Repr

/-- Modelled from the spec: what the player code reads of another `MovingObject`,
its bounding box and its collision group. -/
structure MovingObject where
  bbox : Rect
  group : CollisionGroup
  deriving DecidableEq

/-- Modelled from the spec: a carryable entity of the sector (object/portable.hpp is
not part of the sources): an identity, its portability flag and, when the
`dynamic_cast` to `MovingObject` succeeds, its moving-object part. -/
structure Portable where
  id : Nat
  is_portable : Bool
  moving_object : Option MovingObject
  deriving DecidableEq

/-- Modelled from the spec: the collision hit report, per-side flags, the crush flag
and the slope normal. -/
structure CollisionHit where
  top : Bool
  bottom : Bool
  left : Bool
  right : Bool
  crush : Bool
  slope_normal : Vector
  deriving DecidableEq

/-- Modelled from the spec: the answers a collision callback may give. -/
inductive HitResponse where
  | FORCE_MOVE | CONTINUE
  deriving DecidableEq, Repr

/-- Modelled from the spec: what `Player::collision` finds out about the other object
through its dynamic casts: whether it is a bullet, its collision group, the
trigger it is (if any) and whether it is a badguy. -/
structure OtherObject where
  is_bullet : Bool
  group : CollisionGroup
  trigger : Option Nat
  is_badguy : Bool
  deriving DecidableEq

/-- Modelled from the spec: the terrain attribute bits tested by `collision_tile`
(the masks `Tile::HURTS`, `Tile::ICE` and `Tile::WATER` of supertux/tile.hpp
are not part of the sources); each field says whether the bit is set. -/
structure TileAttributes where
  hurts : Bool
  ice : Bool
  water : Bool
  deriving DecidableEq

/-- What one call of a player member function reads from its collaborators:
the controller, the global `game_time`, the sector's free-space queries and
the constants of player.hpp that player.cpp uses without defining them, the
sector's list of portables, the answer of `Sector::add_bullet`, the sprite's
`animation_done()` and the value drawn by `systemRandom.rand(0, 2)`. -/
structure Env where
  hold : Control → Bool
  pressed : Control → Bool
  released : Control → Bool
  game_time : ℚ
  is_free_of_statics : Rect → Bool
  is_free_of_movingstatics : Rect → Bool
  TUX_SAFE_TIME : ℚ
  TUX_INVINCIBLE_TIME : ℚ
  portables : List Portable
  add_bullet : Vector → ℚ → Direction → Bool
  animation_done : Bool
  rand_0_2 : Int

/-! ## Constants of player.cpp -/

/-- Downward speed at which an armed butt jump starts. -/
def BUTTJUMP_MIN_VELOCITY_Y : ℚ := 400

/-- Time the shooting timer runs after a bullet was added. -/
def SHOOTING_TIME : ℚ := 0.150

/-- Acceleration in horizontal direction when walking. -/
def WALK_ACCELERATION_X : ℚ := 300

/-- Acceleration in horizontal direction when running. -/
def RUN_ACCELERATION_X : ℚ := 400

/-- Speed above which a change of direction skids. -/
def SKID_XM : ℚ := 200

/-- Time of skidding in seconds. -/
def SKID_TIME : ℚ := 0.3

/-- Maximum walk velocity. -/
def MAX_WALK_XM : ℚ := 230

/-- Maximum run velocity. -/
def MAX_RUN_XM : ℚ := 320

/-- Maximum horizontal climb velocity. -/
def MAX_CLIMB_XM : ℚ := 48

/-- Maximum vertical climb velocity. -/
def MAX_CLIMB_YM : ℚ := 128

/-- Instant velocity when Tux starts to walk. -/
def WALK_SPEED : ℚ := 100

/-- Multiplied by the walk acceleration to give the friction on normal ground. -/
def NORMAL_FRICTION_MULTIPLIER : ℚ := 1.5

/-- Multiplied by the walk acceleration to give the friction on ice. -/
def ICE_FRICTION_MULTIPLIER : ℚ := 0.1

/-- Factor applied to the acceleration on ice. -/
def ICE_ACCELERATION_MULTIPLIER : ℚ := 0.25

/-- If Tux cannot unduck for this long, he gets hurt. -/
def UNDUCK_HURT_TIME : ℚ := 0.25

/-- Factor by which gravity is raised after the jump key is released early. -/
def JUMP_EARLY_APEX_FACTOR : ℚ := 3

/-- Time before hitting the ground that the jump button may be pressed. -/
def JUMP_GRACE_TIME : ℚ := 0.25

/-- The constant `IDLE_STAGE_COUNT` of player.cpp: the number of idle stages,
including standing. -/
def IDLE_STAGE_COUNT : Nat := 5

/-- The array `IDLE_TIME` of player.cpp: how long each idle animation is played, in
milliseconds. -/
def IDLE_TIME : List Int := [5000, 0, 2500, 0, 2500]

/-- The array `IDLE_STAGES` of player.cpp. -/
def IDLE_STAGES : List String := ["stand", "idle", "stand", "idle", "stand"]

/-! ## The player -/

/-- The `Player` object together with the `PlayerStatus` it points to.  The last
block of fields records effects on collaborators: sounds played, objects
added to the sector, portables released, the session's reset point, the
fade-out and music-stop requests and text written to the log; then the
file-level flag `no_water`, the `grab` and `set_pos` calls made on portables
and the triggers sent an activation event. -/
structure Player where
  bbox : Rect
  group : CollisionGroup
  movement : Vector
  physic : Physic
  player_status : PlayerStatus
  dir : Direction
  old_dir : Direction
  duck : Bool
  dead : Bool
  dying : Bool
  peekingX : Direction
  peekingY : Direction
  last_ground_y : ℚ
  fall_mode : FallMode
  jumping : Bool
  jump_early_apex : Bool
  can_jump : Bool
  wants_buttjump : Bool
  does_buttjump : Bool
  growing : Bool
  deactivated : Bool
  backflipping : Bool
  backflip_direction : Int
  visible : Bool
  swimming : Bool
  on_ice : Bool
  ice_this_frame : Bool
  speedlimit : ℚ
  on_ground_flag : Bool
  grabbed_object : Option Nat
  climbing : Option Nat
  ghost_mode : Bool
  edit_mode : Bool
  idle_stage : Nat
  floor_normal : Vector
  invincible_timer : Timer
  skidding_timer : Timer
  safe_timer : Timer
  kick_timer : Timer
  shooting_timer : Timer
  dying_timer : Timer
  backflip_timer : Timer
  jump_button_timer : Timer
  unduck_hurt_timer : Timer
  idle_timer : Timer
  sprite_action : String
  sounds : List String
  sector_objects : List GameObject
  ungrabbed : List (Nat × Direction)
  reset_point_sectorname : String
  reset_point_pos : Vector
  fade_out : Option ℚ
  stop_music : Option ℚ
  log : List String
  no_water : Bool
  grabs : List (Nat × Vector × Direction)
  portable_moved : List (Nat × Vector)
  activated_triggers : List Nat
  deriving DecidableEq

namespace Player

/-- Modelled from the spec: the call `MovingObject::set_pos` (object/moving_object.hpp
is not part of the sources), moving the box to `pos`. -/
def set_pos (s : Player) (pos : Vector) : Player := { s with bbox := s.bbox.set_pos pos }

/-- Modelled from the spec: the call `MovingObject::set_size`, resizing the box from
its top-left corner. -/
def set_size (s : Player) (w h : ℚ) : Player := { s with bbox := s.bbox.set_size w h }

/-- Modelled from the spec: the call `MovingObject::set_width`, keeping the left edge. -/
def set_width (s : Player) (w : ℚ) : Player := { s with bbox := s.bbox.set_width w }

/-- Modelled from the spec: the call `MovingObject::set_group`. -/
def set_group (s : Player) (g : CollisionGroup) : Player := { s with group := g }

/-- Modelled from the spec: the call `sound_manager->play`, recorded in `sounds`. -/
def play_sound (s : Player) (name : String) : Player := { s with sounds := s.sounds ++ [name] }

/-- Modelled from the spec: the call `Sector::current()->add_object`, recorded in
`sector_objects`. -/
def add_object (s : Player) (o : GameObject) : Player :=
  { s with sector_objects := s.sector_objects ++ [o] }

/-- The member `Player::on_ground`. -/
def on_ground (s : Player) : Bool := s.on_ground_flag

/-- The member `Player::is_big`. -/
def is_big (s : Player) : Bool :=
  if s.player_status.bonus = BonusType.NO_BONUS then false else true

/-- The local `bbox2` of `adjust_height`: the box moved down by the height
difference and given the new height. -/
def adjust_height_bbox2 (bbox : Rect) (new_height : ℚ) : Rect :=
  (bbox.move ⟨0, bbox.get_height - new_height⟩).set_height new_height

/-- The local `additional_space` of `adjust_height`: `bbox2` cut down to the
height that is added. -/
def adjust_height_additional_space (bbox : Rect) (new_height : ℚ) : Rect :=
  (adjust_height_bbox2 bbox new_height).set_height (new_height - bbox.get_height)

/-- The member `Player::adjust_height`: the returned flag and the state after the call. -/
def adjust_height (env : Env) (s : Player) (new_height : ℚ) : Bool × Player :=
  let bbox2 := adjust_height_bbox2 s.bbox new_height
  let committed := (s.set_pos bbox2.p1).set_size bbox2.get_width bbox2.get_height
  if new_height > s.bbox.get_height then
    if !env.is_free_of_statics (adjust_height_additional_space s.bbox new_height) then
      (false, s)
    else
      (true, committed)
  else
    (true, committed)

/-- The member `Player::do_jump`. -/
def do_jump (s : Player) (yspeed : ℚ) : Player :=
  if !s.on_ground then s
  else
    let s := { s with physic := s.physic.set_velocity_y yspeed, jumping := true,
                      on_ground_flag := false, can_jump := false }
    if s.is_big then s.play_sound "sounds/bigjump.wav" else s.play_sound "sounds/jump.wav"

/-- The member `Player::stop_climbing` (its argument is unused in the source). -/
def stop_climbing (env : Env) (s : Player) : Player :=
  if s.climbing.isNone then s
  else
    let s := { s with climbing := none }
    let s := match s.grabbed_object with
      | some g => { s with ungrabbed := s.ungrabbed ++ [(g, s.dir)], grabbed_object := none }
      | none => s
    let s := { s with physic := ((s.physic.enable_gravity true).set_velocity 0 0).set_acceleration 0 0 }
    if env.hold Control.JUMP || env.hold Control.UP then
      do_jump { s with on_ground_flag := true } (-300)
    else s

/-- The statement `if (climbing) stop_climbing(*climbing);` used throughout. -/
def stop_climbing_if_climbing (env : Env) (s : Player) : Player :=
  if s.climbing.isSome then stop_climbing env s else s

/-- The member `Player::set_ghost_mode`. -/
def set_ghost_mode (env : Env) (s : Player) (enable : Bool) : Player :=
  if s.ghost_mode = enable then s
  else
    let s := stop_climbing_if_climbing env s
    if enable then
      let s := ({ s with ghost_mode := true }).set_group CollisionGroup.COLGROUP_DISABLED
      { s with physic := s.physic.enable_gravity false,
               log := s.log ++ ["You feel lightheaded. Use movement controls to float around, press ACTION to scare badguys."] }
    else
      let s := ({ s with ghost_mode := false }).set_group CollisionGroup.COLGROUP_MOVING
      { s with physic := s.physic.enable_gravity true,
               log := s.log ++ ["You feel solid again."] }

/-- The part of `Player::set_bonus` after the growth guard, from
`if (type == NO_BONUS)` to `return true`. -/
def set_bonus_commit (env : Env) (s : Player) (type : BonusType) (animate : Bool) : Player :=
  let s := if type = BonusType.NO_BONUS then
      (if s.does_buttjump then { s with does_buttjump := false } else s)
    else s
  let s := if type = BonusType.NO_BONUS ∨ type = BonusType.GROWUP_BONUS then
      let s := if s.player_status.bonus = BonusType.FIRE_BONUS ∧ animate = true then
          stop_climbing_if_climbing env
            (s.add_object (GameObject.SpriteParticle "images/objects/particles/firetux-helmet.sprite"))
        else s
      let s := if s.player_status.bonus = BonusType.ICE_BONUS ∧ animate = true then
          stop_climbing_if_climbing env
            (s.add_object (GameObject.SpriteParticle "images/objects/particles/icetux-cap.sprite"))
        else s
      { s with player_status := { s.player_status with max_fire_bullets := 0, max_ice_bullets := 0 } }
    else s
  let s := if type = BonusType.FIRE_BONUS then
      { s with player_status :=
          { s.player_status with max_fire_bullets := s.player_status.max_fire_bullets + 1 } }
    else s
  let s := if type = BonusType.ICE_BONUS then
      { s with player_status :=
          { s.player_status with max_ice_bullets := s.player_status.max_ice_bullets + 1 } }
    else s
  { s with player_status := { s.player_status with bonus := type } }

/-- The member `Player::set_bonus`: the returned flag and the state after the call. -/
def set_bonus (env : Env) (s : Player) (type : BonusType) (animate : Bool) : Bool × Player :=
  if s.player_status.bonus = BonusType.NO_BONUS then
    let r := adjust_height env s 62.8
    if !r.1 then
      (false, { r.2 with log := r.2.log ++ ["can\x27t adjust\n"] })
    else
      let s := r.2
      let s := if animate then
          { s with growing := true,
                   sprite_action := if s.dir = Direction.LEFT then "grow-left" else "grow-right" }
        else s
      let s := stop_climbing_if_climbing env s
      (true, set_bonus_commit env s type animate)
  else
    (true, set_bonus_commit env s type animate)

/-- The loop of `Player::kill` that adds `n` falling coins to the sector. -/
def add_falling_coins : Nat → Player → Player
  | 0, s => s
  | n + 1, s => add_falling_coins n (s.add_object GameObject.FallingCoin)

/-- The statements of `Player::kill` between its two guards and the branch on
`!completely && is_big()`: clear `growing`, play the hurt sound, leave a
climbable and stop the horizontal motion. -/
def kill_begin (env : Env) (s : Player) : Player :=
  let s := { s with growing := false }
  let s := s.play_sound "sounds/hurt.wav"
  let s := stop_climbing_if_climbing env s
  { s with physic := s.physic.set_velocity_x 0 }

/-- The branch of `Player::kill` taken when `!completely && is_big()`: lose one
bonus tier and start the safe timer. -/
def kill_demote (env : Env) (s : Player) : Player :=
  if s.player_status.bonus = BonusType.FIRE_BONUS ∨ s.player_status.bonus = BonusType.ICE_BONUS then
    let s := { s with safe_timer := Timer.start env.TUX_SAFE_TIME env.game_time }
    (set_bonus env s BonusType.GROWUP_BONUS true).2
  else if s.player_status.bonus = BonusType.GROWUP_BONUS then
    let s := { s with safe_timer := Timer.start env.TUX_SAFE_TIME env.game_time }
    let s := (adjust_height env s 30.8).2
    let s := { s with duck := false, backflipping := false }
    (set_bonus env s BonusType.NO_BONUS true).2
  else if s.player_status.bonus = BonusType.NO_BONUS then
    let s := { s with safe_timer := Timer.start env.TUX_SAFE_TIME env.game_time }
    let s := (adjust_height env s 30.8).2
    { s with duck := false }
  else s

/-- The other branch of `Player::kill`: ghost mode when in edit mode, else the
coin penalty and the dying sequence. -/
def kill_die (env : Env) (s : Player) : Player :=
  if s.edit_mode then set_ghost_mode env s true
  else
    let s := if s.player_status.coins ≥ 25 ∧ s.reset_point_sectorname ≠ "" then
        let s := add_falling_coins 5 s
        { s with player_status :=
            { s.player_status with
              coins := s.player_status.coins - max (Int.tdiv s.player_status.coins 10) 25 } }
      else
        { s with reset_point_sectorname := "", reset_point_pos := ⟨0, 0⟩ }
    let s := { s with physic := s.physic.enable_gravity true }
    let s := { s with physic := s.physic.set_acceleration 0 0 }
    let s := { s with physic := s.physic.set_velocity 0 (-700) }
    let s := (set_bonus env s BonusType.NO_BONUS true).2
    let s := { s with dying := true }
    let s := { s with dying_timer := Timer.start 3 env.game_time }
    let s := s.set_group CollisionGroup.COLGROUP_DISABLED
    { s with fade_out := some 3, stop_music := some 3 }

/-- The member `Player::kill`. -/
def kill (env : Env) (s : Player) (completely : Bool) : Player :=
  if s.dying || s.deactivated then s
  else if !completely
      && (s.safe_timer.started env.game_time || s.invincible_timer.started env.game_time) then s
  else
    let s := kill_begin env s
    if !completely && s.is_big then kill_demote env s else kill_die env s

/-- The member `Player::apply_friction`. -/
def apply_friction (s : Player) : Player :=
  if s.on_ground = true ∧ |s.physic.vx| < WALK_SPEED then
    let s := { s with physic := s.physic.set_velocity_x 0 }
    { s with physic := s.physic.set_acceleration_x 0 }
  else
    let friction := WALK_ACCELERATION_X
      * (if s.on_ice then ICE_FRICTION_MULTIPLIER else NORMAL_FRICTION_MULTIPLIER)
    if s.physic.vx < 0 then
      { s with physic := s.physic.set_acceleration_x friction }
    else if s.physic.vx > 0 then
      { s with physic := s.physic.set_acceleration_x (-friction) }
    else s

/-- The local `dirsign` of `Player::handle_horizontal_input` after the direction
keys have been read: -1 for LEFT alone, +1 for RIGHT alone, else 0; the keys
are read only when not ducking or when the vertical velocity is not zero. -/
def horizontal_dirsign (env : Env) (s : Player) : ℚ :=
  if s.duck = false ∨ s.physic.vy ≠ 0 then
    if env.hold Control.LEFT = true ∧ env.hold Control.RIGHT = false then -1
    else if env.hold Control.LEFT = false ∧ env.hold Control.RIGHT = true then 1
    else 0
  else 0

/-- The assignments to `old_dir` and `dir` made while `dirsign` is set. -/
def horizontal_turn (env : Env) (s : Player) : Player :=
  if s.duck = false ∨ s.physic.vy ≠ 0 then
    if env.hold Control.LEFT = true ∧ env.hold Control.RIGHT = false then
      { s with old_dir := s.dir, dir := Direction.LEFT }
    else if env.hold Control.LEFT = false ∧ env.hold Control.RIGHT = true then
      { s with old_dir := s.dir, dir := Direction.RIGHT }
    else s
  else s

/-- The locals `(vx, ax)` of `Player::handle_horizontal_input` after the branch on
the action key or a grabbed object, which caps the speed at the walk or the
run maximum. -/
def horizontal_limit (walk_only : Bool) (vx dirsign : ℚ) : ℚ × ℚ :=
  if walk_only then
    if vx ≥ MAX_WALK_XM ∧ dirsign > 0 then (MAX_WALK_XM, 0)
    else if vx ≤ -MAX_WALK_XM ∧ dirsign < 0 then (-MAX_WALK_XM, 0)
    else (vx, dirsign * WALK_ACCELERATION_X)
  else
    let ax := if vx * dirsign < MAX_WALK_XM then dirsign * WALK_ACCELERATION_X
      else dirsign * RUN_ACCELERATION_X
    if vx ≥ MAX_RUN_XM ∧ dirsign > 0 then (MAX_RUN_XM, 0)
    else if vx ≤ -MAX_RUN_XM ∧ dirsign < 0 then (-MAX_RUN_XM, 0)
    else (vx, ax)

/-- The locals `(vx, ax)` after the snap to `WALK_SPEED` and the speed limit. -/
def horizontal_snap (speedlimit dirsign : ℚ) (va : ℚ × ℚ) : ℚ × ℚ :=
  let vx := if dirsign ≠ 0 ∧ |va.1| < WALK_SPEED then dirsign * WALK_SPEED else va.1
  if speedlimit > 0 ∧ vx * dirsign ≥ speedlimit then (dirsign * speedlimit, 0)
  else (vx, va.2)

/-- The condition `changing directions?` of `Player::handle_horizontal_input`. -/
def horizontal_reverses (s : Player) (vx dirsign : ℚ) : Bool :=
  s.on_ground && ((decide (vx < 0) && decide (dirsign > 0))
    || (decide (vx > 0) && decide (dirsign < 0)))

/-- The condition under which a change of direction starts a skid. -/
def horizontal_skids (env : Env) (s : Player) (vx dirsign : ℚ) : Bool :=
  horizontal_reverses s vx dirsign && decide (|vx| > SKID_XM)
    && !s.skidding_timer.started env.game_time

/-- The member `Player::handle_horizontal_input`. -/
def handle_horizontal_input (env : Env) (s : Player) : Player :=
  let vy := s.physic.vy
  let ay := s.physic.ay
  let dirsign := horizontal_dirsign env s
  let va := horizontal_snap s.speedlimit dirsign
    (horizontal_limit (env.hold Control.ACTION || s.grabbed_object.isSome) s.physic.vx dirsign)
  let vx := va.1
  let s := horizontal_turn env s
  let ax := if horizontal_reverses s vx dirsign then
      (if horizontal_skids env s vx dirsign then va.2 * 2.5 else va.2 * 2)
    else va.2
  let s := if horizontal_skids env s vx dirsign then
      (({ s with skidding_timer := Timer.start SKID_TIME env.game_time }).play_sound
        "sounds/skid.wav").add_object GameObject.Particles
    else s
  let ax := if s.on_ice then ax * ICE_ACCELERATION_MULTIPLIER else ax
  let s := { s with physic := s.physic.set_velocity vx vy }
  let s := { s with physic := s.physic.set_acceleration ax ay }
  if dirsign = 0 then apply_friction s else s

/-- The member `Player::do_duck`. -/
def do_duck (env : Env) (s : Player) : Player :=
  if s.duck then s
  else if !s.is_big then s
  else if s.physic.vy ≠ 0 then s
  else if !s.on_ground then s
  else if s.does_buttjump then s
  else if (s.adjust_height env 31.8).1 then
    let s := (s.adjust_height env 31.8).2
    { s with duck := true, growing := false, unduck_hurt_timer := Timer.stop env.game_time }
  else (s.adjust_height env 31.8).2

/-- The member `Player::do_standup`. -/
def do_standup (env : Env) (s : Player) : Player :=
  if !s.duck then s
  else if !s.is_big then s
  else if s.backflipping then s
  else if (s.adjust_height env 63.8).1 then
    let s := (s.adjust_height env 63.8).2
    { s with duck := false, unduck_hurt_timer := Timer.stop env.game_time }
  else
    let s := (s.adjust_height env 63.8).2
    if s.unduck_hurt_timer.get_period = 0 then
      { s with unduck_hurt_timer := Timer.start UNDUCK_HURT_TIME env.game_time }
    else if (s.unduck_hurt_timer.check env.game_time).1 then
      kill env { s with unduck_hurt_timer := (s.unduck_hurt_timer.check env.game_time).2 } false
    else { s with unduck_hurt_timer := (s.unduck_hurt_timer.check env.game_time).2 }

/-- The member `Player::do_backflip`. -/
def do_backflip (env : Env) (s : Player) : Player :=
  if !s.duck then s
  else if !s.on_ground then s
  else
    let s := { s with backflip_direction := if s.dir = Direction.LEFT then 1 else -1 }
    let s := { s with backflipping := true }
    let s := do_jump s (-580)
    let s := s.play_sound "sounds/flip.wav"
    { s with backflip_timer := Timer.start 0.15 env.game_time }

/-- The member `Player::early_jump_apex`. -/
def early_jump_apex (s : Player) : Player :=
  if s.jump_early_apex then s
  else
    let s := { s with jump_early_apex := true }
    { s with physic := s.physic.set_gravity (s.physic.gravity * JUMP_EARLY_APEX_FACTOR) }

/-- The member `Player::do_jump_apex`. -/
def do_jump_apex (s : Player) : Player :=
  if !s.jump_early_apex then s
  else
    let s := { s with jump_early_apex := false }
    { s with physic := s.physic.set_gravity (s.physic.gravity / JUMP_EARLY_APEX_FACTOR) }

/-- The first statements of `Player::handle_vertical_input`: the jump key. -/
def handle_jump_key (env : Env) (s : Player) : Player :=
  let s := if env.pressed Control.JUMP then
      { s with jump_button_timer := Timer.start JUMP_GRACE_TIME env.game_time }
    else s
  if env.hold Control.JUMP = true ∧ s.jump_button_timer.started env.game_time = true
      ∧ s.can_jump = true then
    let s := { s with jump_button_timer := Timer.stop env.game_time }
    if s.duck then
      if s.physic.vx ≠ 0 ∨ env.hold Control.LEFT = true ∨ env.hold Control.RIGHT = true then
        do_jump s (-300)
      else do_backflip env s
    else
      if |s.physic.vx| > MAX_WALK_XM then do_jump s (-580) else do_jump s (-520)
  else if !env.hold Control.JUMP then
    if s.backflipping = false ∧ s.jumping = true ∧ s.physic.vy < 0 then
      early_jump_apex { s with jumping := false }
    else s
  else s

/-- The member `Player::handle_vertical_input` (the `SWIMMING` block is compiled out). -/
def handle_vertical_input (env : Env) (s : Player) : Player :=
  let s := handle_jump_key env s
  let s := if s.jump_early_apex = true ∧ s.physic.vy ≥ 0 then do_jump_apex s else s
  let s := if env.hold Control.DOWN = true ∧ s.duck = false ∧ s.is_big = true
      ∧ s.on_ground = false then
      let s := { s with wants_buttjump := true }
      if s.physic.vy ≥ BUTTJUMP_MIN_VELOCITY_Y then { s with does_buttjump := true } else s
    else s
  let s := if !env.hold Control.DOWN then
      { s with wants_buttjump := false, does_buttjump := false }
    else s
  { s with physic := s.physic.set_acceleration_y 0 }

/-- The reach point of `Player::try_grab`: 5 beyond the facing side of the box,
16 above its bottom. -/
def try_grab_reach (s : Player) : Vector :=
  if s.dir = Direction.LEFT then ⟨s.bbox.get_left - 5, s.bbox.get_bottom - 16⟩
  else ⟨s.bbox.get_right + 5, s.bbox.get_bottom - 16⟩

/-- The loop of `Player::try_grab` over the portables of the sector.  A portable
that is not a `MovingObject` is skipped, as the statement after the
`assert` does. -/
def try_grab_loop (env : Env) (pos : Vector) : List Portable → Player → Player
  | [], s => s
  | p :: ps, s =>
    if !p.is_portable then try_grab_loop env pos ps s
    else match p.moving_object with
      | none => try_grab_loop env pos ps s
      | some mo =>
        if mo.group = CollisionGroup.COLGROUP_DISABLED then try_grab_loop env pos ps s
        else if mo.bbox.contains pos then
          let s := stop_climbing_if_climbing env s
          let s := { s with grabbed_object := some p.id }
          { s with grabs := s.grabs ++ [(p.id, s.bbox.p1, s.dir)] }
        else try_grab_loop env pos ps s

/-- The member `Player::try_grab`. -/
def try_grab (env : Env) (s : Player) : Player :=
  if env.hold Control.ACTION = true ∧ s.grabbed_object = none ∧ s.duck = false then
    try_grab_loop env (try_grab_reach s) env.portables s
  else s

/-- The member `Player::handle_input_ghost`. -/
def handle_input_ghost (env : Env) (s : Player) : Player :=
  let s := if env.hold Control.LEFT then { s with dir := Direction.LEFT } else s
  let vx : ℚ := if env.hold Control.LEFT then 0 - MAX_RUN_XM * 2 else 0
  let s := if env.hold Control.RIGHT then { s with dir := Direction.RIGHT } else s
  let vx : ℚ := if env.hold Control.RIGHT then vx + MAX_RUN_XM * 2 else vx
  let vy : ℚ := if env.hold Control.UP || env.hold Control.JUMP then 0 - MAX_RUN_XM * 2 else 0
  let vy : ℚ := if env.hold Control.DOWN then vy + MAX_RUN_XM * 2 else vy
  let s := if env.hold Control.ACTION then set_ghost_mode env s false else s
  let s := { s with physic := s.physic.set_velocity vx vy }
  { s with physic := s.physic.set_acceleration 0 0 }

/-- The member `Player::start_climbing`; climbables are told apart by a number. -/
def start_climbing (s : Player) (climbable : Nat) : Player :=
  if s.climbing = some climbable then s
  else
    let s := { s with climbing := some climbable }
    let s := { s with physic := s.physic.enable_gravity false }
    let s := { s with physic := s.physic.set_velocity 0 0 }
    { s with physic := s.physic.set_acceleration 0 0 }

/-- The member `Player::handle_input_climbing`. -/
def handle_input_climbing (env : Env) (s : Player) : Player :=
  if s.climbing.isNone then
    { s with log := s.log
        ++ ["handle_input_climbing called with climbing set to 0. Input handling skipped"] }
  else
    let s := if env.hold Control.LEFT then { s with dir := Direction.LEFT } else s
    let vx : ℚ := if env.hold Control.LEFT then 0 - MAX_CLIMB_XM else 0
    let s := if env.hold Control.RIGHT then { s with dir := Direction.RIGHT } else s
    let vx : ℚ := if env.hold Control.RIGHT then vx + MAX_CLIMB_XM else vx
    let vy : ℚ := if env.hold Control.UP then 0 - MAX_CLIMB_YM else 0
    let vy : ℚ := if env.hold Control.DOWN then vy + MAX_CLIMB_YM else vy
    if env.hold Control.JUMP = true ∧ s.can_jump = true then stop_climbing env s
    else
      let s := if env.hold Control.JUMP then s else { s with can_jump := true }
      if env.hold Control.ACTION then stop_climbing env s
      else
        let s := { s with physic := s.physic.set_velocity vx vy }
        { s with physic := s.physic.set_acceleration 0 0 }

/-- The peeking statements at the start of `Player::handle_input`. -/
def handle_peeking (env : Env) (s : Player) : Player :=
  let s := if env.released Control.PEEK_LEFT || env.released Control.PEEK_RIGHT then
      { s with peekingX := Direction.AUTO } else s
  let s := if env.released Control.PEEK_UP || env.released Control.PEEK_DOWN then
      { s with peekingY := Direction.AUTO } else s
  let s := if env.pressed Control.PEEK_LEFT then { s with peekingX := Direction.LEFT } else s
  let s := if env.pressed Control.PEEK_RIGHT then { s with peekingX := Direction.RIGHT } else s
  if s.backflipping = false ∧ s.jumping = false ∧ s.on_ground = true then
    if env.pressed Control.PEEK_UP then { s with peekingY := Direction.UP }
    else if env.pressed Control.PEEK_DOWN then { s with peekingY := Direction.DOWN }
    else s
  else s

/-- The `Shoot!` statement of `Player::handle_input`. -/
def handle_shooting (env : Env) (s : Player) : Player :=
  if env.pressed Control.ACTION = true
      ∧ (s.player_status.bonus = BonusType.FIRE_BONUS
        ∨ s.player_status.bonus = BonusType.ICE_BONUS) then
    if env.add_bullet
        (s.bbox.p1.add (if s.dir = Direction.LEFT then ⟨0, s.bbox.get_height / 2⟩
          else ⟨32, s.bbox.get_height / 2⟩))
        s.physic.vx s.dir then
      let s := s.add_object GameObject.Bullet
      { s with shooting_timer := Timer.start SHOOTING_TIME env.game_time }
    else s
  else s

/-- The last statement of `Player::handle_input`: put down the grabbed object
when the action key is no longer held and the place next to Tux is free. -/
def handle_release (env : Env) (s : Player) : Player :=
  match s.grabbed_object with
  | none => s
  | some g =>
    if env.hold Control.ACTION then s
    else
      let pos := s.bbox.p1.add
        ⟨if s.dir = Direction.LEFT then -s.bbox.get_width - 1 else s.bbox.get_width + 1,
         s.bbox.get_height * 0.66666 - 32⟩
      if env.is_free_of_movingstatics ⟨pos, pos.add ⟨32, 32⟩⟩ then
        let s := if (env.portables.find? fun p => p.id = g ∧ p.moving_object.isSome).isSome then
            { s with portable_moved := s.portable_moved ++ [(g, pos)] }
          else { s with log := s.log ++ ["Non MovingObject grabbed?!?"] }
        let s := if env.hold Control.UP then
            { s with ungrabbed := s.ungrabbed ++ [(g, Direction.UP)] }
          else { s with ungrabbed := s.ungrabbed ++ [(g, s.dir)] }
        { s with grabbed_object := none }
      else s

/-- The member `Player::handle_input`. -/
def handle_input (env : Env) (s : Player) : Player :=
  if s.ghost_mode then handle_input_ghost env s
  else if s.climbing.isSome then handle_input_climbing env s
  else
    let s := handle_peeking env s
    let s := if !s.backflipping then handle_horizontal_input env s else s
    let s := if s.on_ground then { s with can_jump := true } else s
    let s := handle_vertical_input env s
    let s := handle_shooting env s
    let s := if env.hold Control.DOWN then do_duck env s else do_standup env s
    let s := try_grab env s
    handle_release env s

/-- The member `Player::add_bonus(BonusType, bool)`. -/
def add_bonus (env : Env) (s : Player) (type : BonusType) (animate : Bool) : Bool × Player :=
  if type = BonusType.NO_BONUS then (true, s)
  else if type = BonusType.GROWUP_BONUS
      ∧ (s.player_status.bonus = BonusType.GROWUP_BONUS
        ∨ s.player_status.bonus = BonusType.FIRE_BONUS
        ∨ s.player_status.bonus = BonusType.ICE_BONUS) then (true, s)
  else set_bonus env s type animate

/-- The member `Player::add_bonus(const std::string&)`: the returned flag, or the
message of the `std::runtime_error` it throws, and the state after the call.
`animate` is the default argument of the other overload, declared in
player.hpp, which is not part of the sources. -/
def add_bonus_by_name (env : Env) (s : Player) (bonustype : String) (animate : Bool) :
    Except String Bool × Player :=
  if bonustype = "grow" then
    (.ok (add_bonus env s BonusType.GROWUP_BONUS animate).1,
      (add_bonus env s BonusType.GROWUP_BONUS animate).2)
  else if bonustype = "fireflower" then
    (.ok (add_bonus env s BonusType.FIRE_BONUS animate).1,
      (add_bonus env s BonusType.FIRE_BONUS animate).2)
  else if bonustype = "iceflower" then
    (.ok (add_bonus env s BonusType.ICE_BONUS animate).1,
      (add_bonus env s BonusType.ICE_BONUS animate).2)
  else if bonustype = "none" then
    (.ok (add_bonus env s BonusType.NO_BONUS animate).1,
      (add_bonus env s BonusType.NO_BONUS animate).2)
  else (.error ("Unknown bonus type " ++ bonustype), s)

/-- The member `Player::init`. -/
def init (s : Player) : Player :=
  let s := if s.is_big then s.set_size 31.8 62.8 else s.set_size 31.8 30.8
  { s with
    dir := Direction.RIGHT
    old_dir := Direction.RIGHT
    duck := false
    dead := false
    dying := false
    peekingX := Direction.AUTO
    peekingY := Direction.AUTO
    last_ground_y := 0
    fall_mode := FallMode.ON_GROUND
    jumping := false
    jump_early_apex := false
    can_jump := true
    wants_buttjump := false
    does_buttjump := false
    growing := false
    deactivated := false
    backflipping := false
    backflip_direction := 0
    visible := true
    swimming := false
    on_ice := false
    ice_this_frame := false
    speedlimit := 0
    on_ground_flag := false
    grabbed_object := none
    climbing := none
    physic := s.physic.reset }

/-- The member `Player::move`. -/
def move (env : Env) (s : Player) (vector : Vector) : Player :=
  let s := s.set_pos vector
  let s := if s.is_big then s.set_size 31.8 63.8 else s.set_size 31.8 31.8
  let s := { s with duck := false }
  let s := { s with last_ground_y := vector.y }
  let s := stop_climbing_if_climbing env s
  { s with physic := s.physic.reset }

/-- The member `Player::collision_tile` (the `SWIMMING` block is compiled out). -/
def collision_tile (env : Env) (s : Player) (tile_attributes : TileAttributes) : Player :=
  let s := if tile_attributes.hurts then kill env s false else s
  if tile_attributes.ice then { s with ice_this_frame := true, on_ice := true } else s

/-- The member `Player::collision_solid`. -/
def collision_solid (env : Env) (s : Player) (hit : CollisionHit) : Player :=
  let s := if hit.bottom then
      let s := if s.physic.vy > 0 then { s with physic := s.physic.set_velocity_y 0 } else s
      let s := { s with on_ground_flag := true }
      let s := { s with floor_normal := hit.slope_normal }
      if s.does_buttjump then
        let s := { s with does_buttjump := false }
        let s := { s with physic := s.physic.set_velocity_y (-300) }
        let s := { s with on_ground_flag := false }
        (s.add_object GameObject.Particles).add_object GameObject.Particles
      else s
    else if hit.top then
      (if s.physic.vy < 0 then { s with physic := s.physic.set_velocity_y 0.2 } else s)
    else s
  let s := if hit.left || hit.right then { s with physic := s.physic.set_velocity_x 0 } else s
  if hit.crush then
    if hit.left || hit.right then kill env s true
    else if hit.top || hit.bottom then kill env s false
    else s
  else s

/-- The member `Player::collision`: the answer and the state after the call.  The
reaction of an activated trigger is the collaborator's. -/
def collision (env : Env) (s : Player) (other : OtherObject) (hit : CollisionHit) :
    HitResponse × Player :=
  if other.is_bullet then (HitResponse.FORCE_MOVE, s)
  else
    let s := if hit.left || hit.right then try_grab env s else s
    if other.group = CollisionGroup.COLGROUP_TOUCHABLE then
      match other.trigger with
      | some tr =>
        if env.pressed Control.UP then
          (HitResponse.FORCE_MOVE, { s with activated_triggers := s.activated_triggers ++ [tr] })
        else (HitResponse.FORCE_MOVE, s)
      | none => (HitResponse.FORCE_MOVE, s)
    else if other.is_badguy then
      if s.safe_timer.started env.game_time || s.invincible_timer.started env.game_time then
        (HitResponse.FORCE_MOVE, s)
      else (HitResponse.CONTINUE, s)
    else (HitResponse.CONTINUE, s)

/-- The input statements of `Player::update`: `handle_input` when the player is
neither dying nor deactivated, and friction when the controls are
deactivated. -/
def update_input (env : Env) (s : Player) : Player :=
  let s := if s.dying = false ∧ s.deactivated = false then handle_input env s else s
  if s.deactivated then apply_friction s else s

/-- The width statement of `Player::update`: the box is widened above walking speed. -/
def update_width (s : Player) : Player :=
  if |s.physic.vx| > MAX_WALK_XM then s.set_width 34 else s.set_width 31.8

/-- The slope statement of `Player::update`: the vertical velocity on downward slopes. -/
def update_slope (s : Player) : Player :=
  if s.on_ground = true ∧ s.floor_normal.y ≠ 0
      ∧ s.floor_normal.x * s.physic.vx ≥ 0 then
    { s with physic := s.physic.set_velocity_y 250 }
  else s

/-- The backflip statement of `Player::update`: direction and horizontal velocity
are pinned. -/
def update_backflip (env : Env) (s : Player) : Player :=
  if s.backflipping then
    let s := { s with dir := if s.backflip_direction = 1 then Direction.LEFT
      else Direction.RIGHT }
    if s.backflip_timer.started env.game_time then
      { s with physic := s.physic.set_velocity_x (100 * (s.backflip_direction : ℚ)) }
    else s
  else s

/-- The fall-mode statement of `Player::update`. -/
def update_fall_mode (s : Player) : Player :=
  if s.on_ground then
    { s with fall_mode := FallMode.ON_GROUND, last_ground_y := s.bbox.p1.y }
  else if s.bbox.p1.y > s.last_ground_y then { s with fall_mode := FallMode.FALLING }
  else if s.fall_mode = FallMode.ON_GROUND then { s with fall_mode := FallMode.JUMPING }
  else s

/-- The landing statement of `Player::update`. -/
def update_landed (env : Env) (s : Player) : Player :=
  if s.on_ground then
    let s := { s with jumping := false }
    if s.backflipping = true ∧ s.backflip_timer.started env.game_time = false then
      let s := { s with backflipping := false, backflip_direction := 0 }
      if s.deactivated then do_standup env s else s
    else s
  else s

/-- The state of `Player::update` at its fall-mode statement: after the input, width,
slope and backflip statements. -/
def update_before_fall_mode (env : Env) (s : Player) : Player :=
  update_backflip env (update_slope (update_width (update_input env s)))

/-- The statements of `Player::update` from the input handling to the landing check. -/
def update_motion (env : Env) (s : Player) : Player :=
  update_landed env (update_fall_mode (update_before_fall_mode env s))

/-- The statements of `Player::update` from the movement of the frame to its end:
integration, the carried object, ice, the ground flags, the invincibility
sparkle and the end of the grow animation. -/
def update_finish (env : Env) (s : Player) (elapsed_time : ℚ) : Player :=
  let s := { s with movement := (s.physic.get_movement elapsed_time).1,
                    physic := (s.physic.get_movement elapsed_time).2 }
  let s := match s.grabbed_object with
    | some g =>
      if s.dying then
        { s with ungrabbed := s.ungrabbed ++ [(g, s.dir)], grabbed_object := none }
      else
        { s with grabs := s.grabs ++
            [(g, s.bbox.p1.add ⟨if s.dir = Direction.LEFT then -16 else 16,
                s.bbox.get_height * 0.66666 - 32⟩, s.dir)] }
    | none => s
  let s := if s.ice_this_frame = false ∧ s.on_ground = true then { s with on_ice := false }
    else s
  let s := { s with on_ground_flag := false, ice_this_frame := false }
  let s := if s.invincible_timer.started env.game_time = true ∧ s.dying = false then
      (if env.rand_0_2 = 0 then
        s.add_object (GameObject.SpriteParticle "images/objects/particles/sparkle.sprite")
      else s)
    else s
  if s.growing then (if env.animation_done then { s with growing := false } else s) else s

/-- The first statements of `Player::update`: the swimming flag and the file-level
flag `no_water`. -/
def update_no_water (s : Player) : Player :=
  let s := if s.no_water then { s with swimming := false } else s
  { s with no_water := true }

/-- The member `Player::update`. -/
def update (env : Env) (s : Player) (elapsed_time : ℚ) : Player :=
  let s := update_no_water s
  if s.dying = true ∧ (s.dying_timer.check env.game_time).1 = true then
    { s with dying_timer := (s.dying_timer.check env.game_time).2, dead := true }
  else
    update_finish env (update_motion env s) elapsed_time

/-- Modelled from the spec: `Sprite::set_action` and `Sprite::set_action_continued`
(sprite/sprite.hpp is not part of the sources): the sprite's action becomes
`name`; the loop count and the animation frame are not recorded. -/
def set_action (s : Player) (name : String) : Player := { s with sprite_action := name }

/-- The test `sprite->get_action().find(needle) != std::string::npos`. -/
def action_contains (s : Player) (needle : String) : Bool :=
  decide (needle.toList <:+: s.sprite_action.toList)

/-- The local of `Player::draw` that names the bonus: "big", "fire", "ice" or
"small". -/
def draw_bonus_name (s : Player) : String :=
  if s.player_status.bonus = BonusType.GROWUP_BONUS then "big"
  else if s.player_status.bonus = BonusType.FIRE_BONUS then "fire"
  else if s.player_status.bonus = BonusType.ICE_BONUS then "ice"
  else "small"

/-- The local of `Player::draw` that names the direction: "-left" or "-right". -/
def draw_dir_name (s : Player) : String :=
  if s.dir = Direction.LEFT then "-left" else "-right"

/-- The action name that `Player::draw` builds for the idle stage named `stage`. -/
def draw_idle_action (s : Player) (stage : String) : String :=
  draw_bonus_name s ++ ("-" ++ stage) ++ draw_dir_name s

/-- The branch of `Player::draw` that enters idle stage 0.  An index outside
`IDLE_TIME` or `IDLE_STAGES` gives `none`. -/
def draw_idle_enter (env : Env) (s : Player) : Option Player :=
  let s := { s with idle_stage := 0 }
  match IDLE_TIME[s.idle_stage]?, IDLE_STAGES[s.idle_stage]? with
  | some t, some stage =>
    let s := { s with idle_timer := Timer.start ((t : ℚ) / 1000) env.game_time }
    some (s.set_action (draw_idle_action s stage))
  | _, _ => none

/-- The branch of `Player::draw` that advances the idle stage; both calls of
`set_action` in it set the same name.  An index outside `IDLE_TIME` or
`IDLE_STAGES` gives `none`. -/
def draw_idle_advance (env : Env) (s : Player) : Option Player :=
  let s := { s with idle_stage := s.idle_stage + 1 }
  let s := if s.idle_stage ≥ IDLE_STAGE_COUNT then { s with idle_stage := 1 } else s
  match IDLE_TIME[s.idle_stage]?, IDLE_STAGES[s.idle_stage]? with
  | some t, some stage =>
    let s := { s with idle_timer := Timer.start ((t : ℚ) / 1000) env.game_time }
    some (s.set_action (draw_idle_action s stage))
  | _, _ => none

/-- The statements of `Player::draw` for a player standing still on the ground: the
idle stages.  An index outside `IDLE_TIME` or `IDLE_STAGES` gives `none`. -/
def draw_idle (env : Env) (s : Player) : Option Player :=
  if s.action_contains "-stand-" = false ∧ s.action_contains "-idle-" = false then
    draw_idle_enter env s
  else
    let c := s.idle_timer.check env.game_time
    let s := { s with idle_timer := c.2 }
    if c.1 then draw_idle_advance env s
    else match IDLE_TIME[s.idle_stage]? with
      | none => none
      | some t =>
        if t = 0 ∧ env.animation_done = true then draw_idle_advance env s
        else match IDLE_STAGES[s.idle_stage]? with
          | none => none
          | some stage => some (s.set_action (draw_idle_action s stage))

/-- The statements of `Player::draw` from the skidding test on; a started timer is
checked, as the `&&` of the source does. -/
def draw_moving (env : Env) (s : Player) : Option Player :=
  let skid := s.skidding_timer.started env.game_time
  let skid_check := s.skidding_timer.check env.game_time
  let s := if skid then { s with skidding_timer := skid_check.2 } else s
  if skid && !skid_check.1 then
    some (s.set_action (draw_bonus_name s ++ "-skid" ++ draw_dir_name s))
  else
    let kick := s.kick_timer.started env.game_time
    let kick_check := s.kick_timer.check env.game_time
    let s := if kick then { s with kick_timer := kick_check.2 } else s
    if kick && !kick_check.1 then
      some (s.set_action (draw_bonus_name s ++ "-kick" ++ draw_dir_name s))
    else if (s.wants_buttjump || s.does_buttjump) && s.is_big then
      some (s.set_action (draw_bonus_name s ++ "-buttjump" ++ draw_dir_name s))
    else if !s.on_ground then
      some (s.set_action (draw_bonus_name s ++ "-jump" ++ draw_dir_name s))
    else if |s.physic.vx| < 1 then draw_idle env s
    else some (s.set_action (draw_bonus_name s ++ "-walk" ++ draw_dir_name s))

/-- The member `Player::draw`: the state after the call, or `none` when an index into
`IDLE_TIME` or `IDLE_STAGES` is out of bounds.  The two requests to the
drawing context (the air arrow and the sprite itself) change no member and
are not recorded. -/
def draw (env : Env) (s : Player) : Option Player :=
  if !s.visible then some s
  else if s.dying then some (s.set_action "gameover")
  else if s.growing then some (s.set_action ("grow" ++ draw_dir_name s))
  else if s.climbing.isSome then
    some (s.set_action (draw_bonus_name s ++ "-skid" ++ draw_dir_name s))
  else if s.backflipping then
    some (s.set_action (draw_bonus_name s ++ "-backflip" ++ draw_dir_name s))
  else if s.duck && s.is_big then
    some (s.set_action (draw_bonus_name s ++ "-duck" ++ draw_dir_name s))
  else draw_moving env s

/-- The constructor `Player::Player` with its call of `init()`: the members named in
its initialiser list and the idle timer, over the storage `raw` that stands
for the members left to their own constructors. -/
def construct (env : Env) (player_status : PlayerStatus) (raw : Player) : Player :=
  init { raw with
    player_status := player_status
    grabbed_object := none
    ghost_mode := false
    edit_mode := false
    idle_stage := 0
    climbing := none
    idle_timer := Timer.start (((IDLE_TIME.getD 0 0 : Int) : ℚ) / 1000) env.game_time }

end Player

/-! ## The igel (badguy/igel.cpp) -/

/-- Modelled from the spec: what `Igel::active_update` reads of a `Bullet` of the sector
(object/bullet.hpp is not part of the sources): its type and, as a
`MovingObject`, its bounding box. -/
structure Bullet where
  type : BonusType
  moving_object : MovingObject
  deriving DecidableEq

/-- The igel: the members of `Igel` and of its base classes that igel.cpp reads
or writes. -/
structure Igel where
  bbox : Rect
  dir : Direction
  turn_recover_timer : Timer
  deriving DecidableEq

/-- What one call of an igel member function reads from its collaborators: the
global `game_time`, the sector's game objects in list order (`none` for an
object that the `dynamic_cast` to `Bullet` rejects) and the two base-class
updates `BadGuy::active_update` and `WalkingBadguy::active_update`, which
are not part of the sources and are left uninterpreted. -/
structure IgelEnv where
  game_time : ℚ
  gameobjects : List (Option Bullet)
  BadGuy_active_update : Igel → ℚ → Igel
  WalkingBadguy_active_update : Igel → ℚ → Igel

namespace Igel

/-- The constant `WALKSPEED` of igel.cpp. -/
def WALKSPEED : ℚ := 80

/-- The constant `TURN_RECOVER_TIME` of igel.cpp. -/
def TURN_RECOVER_TIME : ℚ := 0.5

/-- The constant `RANGE_OF_VISION` of igel.cpp. -/
def RANGE_OF_VISION : ℚ := 256

/-- Modelled from the spec: `WalkingBadguy::turn_around` (badguy/walking_badguy.cpp is
not part of the sources) reverses the walking direction. -/
def WalkingBadguy_turn_around (s : Igel) : Igel :=
  { s with dir := if s.dir = Direction.LEFT then Direction.RIGHT else Direction.LEFT }

/-- The member `Igel::turn_around`. -/
def turn_around (env : IgelEnv) (s : Igel) : Igel :=
  let s := WalkingBadguy_turn_around s
  { s with turn_recover_timer := Timer.start TURN_RECOVER_TIME env.game_time }

/-- The member `Igel::can_see`. -/
def can_see (s : Igel) (o : MovingObject) : Bool :=
  let mb := s.bbox
  let ob := o.bbox
  let inReach_left := decide (ob.p2.x < mb.p1.x)
    && decide (ob.p2.x ≥ mb.p1.x - (if s.dir = Direction.LEFT then RANGE_OF_VISION else 0))
  let inReach_right := decide (ob.p1.x > mb.p2.x)
    && decide (ob.p1.x ≤ mb.p2.x + (if s.dir = Direction.RIGHT then RANGE_OF_VISION else 0))
  let inReach_top := decide (ob.p2.y ≥ mb.p1.y)
  let inReach_bottom := decide (ob.p1.y ≤ mb.p2.y)
  (inReach_left || inReach_right) && inReach_top && inReach_bottom

/-- The loop of `Igel::active_update` over the sector's game objects: the value of
`wants_to_flee` after the loop, given its value before. -/
def active_update_scan (s : Igel) : List (Option Bullet) → Bool → Bool
  | [], wants_to_flee => wants_to_flee
  | none :: rest, wants_to_flee => active_update_scan s rest wants_to_flee
  | some bullet :: rest, wants_to_flee =>
    if bullet.type ≠ BonusType.FIRE_BONUS then active_update_scan s rest wants_to_flee
    else if s.can_see bullet.moving_object then active_update_scan s rest true
    else active_update_scan s rest wants_to_flee

/-- The member `Igel::active_update`. -/
def active_update (env : IgelEnv) (s : Igel) (elapsed_time : ℚ) : Igel :=
  let wants_to_flee := active_update_scan s env.gameobjects false
  if wants_to_flee = true ∧ s.turn_recover_timer.started env.game_time = false then
    env.BadGuy_active_update (turn_around env s) elapsed_time
  else
    env.WalkingBadguy_active_update s elapsed_time

end Igel

/-! ## Fixtures: concrete environments and states -/

/-- An environment with no key held, game time 0, the given answer to every
free-space query, a safe time of 1 and no portables. -/
def sample_env (free : Bool) : Env where
  hold := fun _ => false
  pressed := fun _ => false
  released := fun _ => false
  game_time := 0
  is_free_of_statics := fun _ => free
  is_free_of_movingstatics := fun _ => free
  TUX_SAFE_TIME := 1
  TUX_INVINCIBLE_TIME := 10
  portables := []
  add_bullet := fun _ _ _ => true
  animation_done := false
  rand_0_2 := 1

/-- A small Tux (no bonus, box 31.8 x 30.8 with its top-left corner at the
origin) standing still, facing right, with 30 coins and a reset point. -/
def sample_player : Player where
  bbox := ⟨⟨0, 0⟩, ⟨31.8, 30.8⟩⟩
  group := CollisionGroup.COLGROUP_MOVING
  movement := ⟨0, 0⟩
  physic := ⟨0, 0, 0, 0, true, 1000⟩
  player_status := ⟨30, BonusType.NO_BONUS, 0, 0⟩
  dir := Direction.RIGHT
  old_dir := Direction.RIGHT
  duck := false
  dead := false
  dying := false
  peekingX := Direction.AUTO
  peekingY := Direction.AUTO
  last_ground_y := 0
  fall_mode := FallMode.ON_GROUND
  jumping := false
  jump_early_apex := false
  can_jump := true
  wants_buttjump := false
  does_buttjump := false
  growing := false
  deactivated := false
  backflipping := false
  backflip_direction := 0
  visible := true
  swimming := false
  on_ice := false
  ice_this_frame := false
  speedlimit := 0
  on_ground_flag := true
  grabbed_object := none
  climbing := none
  ghost_mode := false
  edit_mode := false
  idle_stage := 0
  floor_normal := ⟨0, 0⟩
  invincible_timer := ⟨0, 0⟩
  skidding_timer := ⟨0, 0⟩
  safe_timer := ⟨0, 0⟩
  kick_timer := ⟨0, 0⟩
  shooting_timer := ⟨0, 0⟩
  dying_timer := ⟨0, 0⟩
  backflip_timer := ⟨0, 0⟩
  jump_button_timer := ⟨0, 0⟩
  unduck_hurt_timer := ⟨0, 0⟩
  idle_timer := ⟨5, 0⟩
  sprite_action := "small-stand-right"
  sounds := []
  sector_objects := []
  ungrabbed := []
  reset_point_sectorname := "main"
  reset_point_pos := ⟨0, 0⟩
  fade_out := none
  stop_music := none
  log := []
  no_water := true
  grabs := []
  portable_moved := []
  activated_triggers := []

/-- The sample player with the given bonus and box height (bottom edge kept at 30.8). -/
def sample_player_with (bonus : BonusType) (height : ℚ) : Player :=
  { sample_player with
    bbox := ⟨⟨0, 30.8 - height⟩, ⟨31.8, 30.8⟩⟩
    player_status := { sample_player.player_status with bonus := bonus } }

/-- The sample player in the air, drifting right at speed 50. -/
def airborne_drifting_player : Player :=
  { sample_player with on_ground_flag := false, physic := ⟨50, 0, 0, 0, true, 1000⟩ }

/-- The sample environment with the JUMP key held. -/
def jump_held_env : Env := { sample_env true with hold := fun c => decide (c = Control.JUMP) }

/-- The sample player in the air with the jump still available and the grace
timer of the jump button running. -/
def airborne_can_jump_player : Player :=
  { sample_player with on_ground_flag := false, can_jump := true,
                       jump_button_timer := Timer.start JUMP_GRACE_TIME 0 }

/-- A portable being within reach in `try_grab`: portable, a moving object, not in
the disabled collision group, and its box contains the reach point. -/
def within_reach (pos : Vector) (p : Portable) : Bool :=
  p.is_portable && match p.moving_object with
    | some mo => !decide (mo.group = CollisionGroup.COLGROUP_DISABLED) && mo.bbox.contains pos
    | none => false

/-- The statements of `try_grab` that grab portable `p`. -/
def grab_portable (env : Env) (s : Player) (p : Portable) : Player :=
  let s := Player.stop_climbing_if_climbing env s
  let s := { s with grabbed_object := some p.id }
  { s with grabs := s.grabs ++ [(p.id, s.bbox.p1, s.dir)] }

/-- The mutual exclusion of carrying and climbing. -/
def carrying_excludes_climbing (s : Player) : Prop :=
  s.grabbed_object ≠ none → s.climbing = none

/-- The sample player carrying portable 0. -/
def carrying_player : Player := { sample_player with grabbed_object := some 0 }

/-- A portable rock, number 3, lying just right of the sample player. -/
def sample_rock : Portable :=
  { id := 3, is_portable := true,
    moving_object := some ⟨⟨⟨32, 0⟩, ⟨64, 32⟩⟩, CollisionGroup.COLGROUP_MOVING⟩ }

/-- The sample environment with the ACTION key held and the sample rock in the sector. -/
def grabbing_env : Env :=
  { sample_env true with
    hold := fun c => decide (c = Control.ACTION)
    portables := [sample_rock] }

/-- The predicate of the specification: in ghost mode gravity is disabled. -/
def ghost_gravity_off (s : Player) : Prop :=
  s.ghost_mode = true → s.physic.gravity_enabled = false

/-- The sample player in ghost mode, as set_ghost_mode(true) leaves it. -/
def ghost_player : Player :=
  { sample_player with ghost_mode := true, group := CollisionGroup.COLGROUP_DISABLED,
                       physic := ⟨0, 0, 0, 0, false, 1000⟩ }

/-- The sample player in the air after a jump: the jump is not available. -/
def airborne_jumped_player : Player :=
  { sample_player with on_ground_flag := false, can_jump := false, jumping := true }

/-- A dead player is a dying player. -/
def dead_implies_dying (s : Player) : Prop := s.dead = true → s.dying = true

/-- The states reachable from `init()` through `update`, `kill`, the input
handling and the collision callbacks, and also through the bonus setters,
`move`, the climbing calls and `set_ghost_mode`. -/
inductive Reachable : Player → Prop where
  | init (s : Player) : Reachable (Player.init s)
  | update (env : Env) (s : Player) (elapsed_time : ℚ) :
      Reachable s → Reachable (Player.update env s elapsed_time)
  | kill (env : Env) (s : Player) (completely : Bool) :
      Reachable s → Reachable (Player.kill env s completely)
  | handle_input (env : Env) (s : Player) :
      Reachable s → Reachable (Player.handle_input env s)
  | collision_solid (env : Env) (s : Player) (hit : CollisionHit) :
      Reachable s → Reachable (Player.collision_solid env s hit)
  | collision_tile (env : Env) (s : Player) (tile_attributes : TileAttributes) :
      Reachable s → Reachable (Player.collision_tile env s tile_attributes)
  | collision (env : Env) (s : Player) (other : OtherObject) (hit : CollisionHit) :
      Reachable s → Reachable (Player.collision env s other hit).2
  | set_bonus (env : Env) (s : Player) (type : BonusType) (animate : Bool) :
      Reachable s → Reachable (Player.set_bonus env s type animate).2
  | add_bonus (env : Env) (s : Player) (type : BonusType) (animate : Bool) :
      Reachable s → Reachable (Player.add_bonus env s type animate).2
  | set_ghost_mode (env : Env) (s : Player) (enable : Bool) :
      Reachable s → Reachable (Player.set_ghost_mode env s enable)
  | stop_climbing (env : Env) (s : Player) :
      Reachable s → Reachable (Player.stop_climbing env s)

/-- The sample environment three seconds later. -/
def late_env : Env := { sample_env true with game_time := 3 }

/-- The sample player after `init()`, a fatal kill at time 0 and an update at time 3. -/
def dead_sample_player : Player :=
  Player.update late_env (Player.kill (sample_env true) (Player.init sample_player) true) 0

/-- A collision hit on the bottom edge only, on level ground. -/
def bottom_hit : CollisionHit := ⟨false, true, false, false, false, ⟨0, 0⟩⟩

/-- The sample player as a big Tux of standing height 62.8. -/
def big_player : Player := sample_player_with BonusType.GROWUP_BONUS 62.8

/-- Big Tux after `init()` and a landing. -/
def landed_player : Player :=
  Player.collision_solid (sample_env true) (Player.init big_player) bottom_hit

/-- Big Tux after `init()`, a landing, `do_duck()` and `do_backflip()`. -/
def backflipping_player : Player :=
  Player.do_backflip (sample_env true) (Player.do_duck (sample_env true) landed_player)

/-- Big Tux after `init()`, a landing, `do_duck()`, `set_bonus(NO_BONUS)` and
`set_bonus(GROWUP_BONUS)`. -/
def regrown_ducked_player : Player :=
  (Player.set_bonus (sample_env true)
    (Player.set_bonus (sample_env true) (Player.do_duck (sample_env true) landed_player)
      BonusType.NO_BONUS false).2
    BonusType.GROWUP_BONUS false).2

/-- An igel facing left with the box from (300, 100) to (332, 132) and its recovery
timer not started. -/
def sample_igel : Igel := ⟨⟨⟨300, 100⟩, ⟨332, 132⟩⟩, Direction.LEFT, Timer.stop 0⟩

/-- A fire bullet 100 units to the left of the sample igel, at its height. -/
def fire_bullet_left : Bullet :=
  ⟨BonusType.FIRE_BONUS, ⟨⟨⟨196, 110⟩, ⟨200, 114⟩⟩, CollisionGroup.COLGROUP_MOVING⟩⟩

/-- A fire bullet 100 units to the right of the sample igel, at its height. -/
def fire_bullet_right : Bullet :=
  ⟨BonusType.FIRE_BONUS, ⟨⟨⟨432, 110⟩, ⟨436, 114⟩⟩, CollisionGroup.COLGROUP_MOVING⟩⟩

/-- An ice bullet at the place of `fire_bullet_left`. -/
def ice_bullet_left : Bullet := { fire_bullet_left with type := BonusType.ICE_BONUS }

/-- A sector at time 0 with the given game objects, whose base-class updates do nothing. -/
def sample_igel_env (objects : List (Option Bullet)) : IgelEnv :=
  ⟨0, objects, fun s _ => s, fun s _ => s⟩

/-- The sample player rising in a jump: in the air, jumping, vertical velocity -100. -/
def rising_player : Player :=
  { sample_player with
    on_ground_flag := false, can_jump := false, jumping := true,
    physic := ⟨0, -100, 0, 0, true, 1000⟩ }

/-- The sample player hanging on climbable 7, gravity off, with both velocities non-zero. -/
def climbing_player : Player :=
  { sample_player with
    climbing := some 7, on_ground_flag := false,
    physic := ⟨48, -128, 5, 5, false, 1000⟩ }

/-- The sample environment with UP held. -/
def up_held_env : Env := { sample_env true with hold := fun c => decide (c = Control.UP) }

/-- The sample player moving right at speed 500, above the run maximum. -/
def speeding_player : Player := { sample_player with physic := ⟨500, 0, 0, 0, true, 1000⟩ }

/-- The sample environment with RIGHT held. -/
def right_held_env : Env := { sample_env true with hold := fun c => decide (c = Control.RIGHT) }

/-- The sample environment with RIGHT and ACTION held. -/
def right_action_held_env : Env :=
  { sample_env true with hold := fun c => decide (c = Control.RIGHT ∨ c = Control.ACTION) }

/-- The sample player in its dying sequence, started at time 0. -/
def dying_player : Player :=
  { sample_player with dying := true, dying_timer := Timer.start 3 0 }

/-- The sample player with its controls deactivated, in the air at height 0 above the
last ground height 100, after a fall: its fall mode is FALLING. -/
def rebounding_player : Player :=
  { sample_player with
    deactivated := true, on_ground_flag := false, fall_mode := FallMode.FALLING,
    last_ground_y := 100, physic := ⟨0, -300, 0, 0, true, 1000⟩ }

/-- The sample player standing on level ground whose normal (0, -1) is exactly
vertical. -/
def flat_floor_player : Player := { sample_player with floor_normal := ⟨0, -1⟩ }

/-- The sample player moving right on a floor whose stored normal is (1, 0). -/
def side_normal_player : Player :=
  { sample_player with floor_normal := ⟨1, 0⟩, physic := ⟨50, 0, 0, 0, true, 1000⟩ }

/-- The sample player walking left down a slope that leans left. -/
def slope_player : Player :=
  { sample_player with floor_normal := ⟨-1, -1⟩, physic := ⟨-50, 0, 0, 0, true, 1000⟩ }

/-- The big sample player ducked on the ground, facing right. -/
def ducked_player : Player :=
  { sample_player_with BonusType.GROWUP_BONUS 31.8 with duck := true }

/-- The sample environment at time 0.1, within the backflip timer of 0.15. -/
def flip_env : Env := { sample_env true with game_time := 0.1 }

/-- The states reachable from construction through any sequence of draw calls. -/
inductive Drawn : Player → Prop where
  | construct (env : Env) (player_status : PlayerStatus) (raw : Player) :
      Drawn (Player.construct env player_status raw)
  | draw (env : Env) (s t : Player) : Drawn s → Player.draw env s = some t → Drawn t

/-- One draw call on the idle cursor: it stays, or returns to stage 0 when the sprite's
action is neither a stand nor an idle action, or advances, wrapping from
the last stage to stage 1. -/
def idle_stage_step (s t : Player) : Prop :=
  t.idle_stage = s.idle_stage
    ∨ (t.idle_stage = 0 ∧ s.action_contains "-stand-" = false
        ∧ s.action_contains "-idle-" = false)
    ∨ t.idle_stage = (if s.idle_stage + 1 ≥ IDLE_STAGE_COUNT then 1 else s.idle_stage + 1)

/-- The sample player in idle stage 4 whose idle timer of 2.5 has elapsed at time 3. -/
def last_idle_stage_player : Player :=
  { sample_player with idle_stage := 4, idle_timer := Timer.start 2.5 0 }

/-- The four box heights that player.cpp sets: 30.8 and 62.8 (`init`, `set_bonus`,
`kill`), 31.8 and 63.8 (`do_duck`, `do_standup`, `move`). -/
def standard_height (h : ℚ) : Prop := h = 30.8 ∨ h = 31.8 ∨ h = 62.8 ∨ h = 63.8

/-- The height `h` is the earlier height `h0` or one of the four standard heights. -/
def height_step (h0 h : ℚ) : Prop := h = h0 ∨ standard_height h

/-! ## Lemmas on `adjust_height` -/

namespace Player

/-- The strip checked by `adjust_height`, corner by corner: as wide as the box,
from the new top edge down to the old top edge. -/
theorem adjust_height_additional_space_eq (bbox : Rect) (new_height : ℚ) :
    adjust_height_additional_space bbox new_height
      = ⟨⟨bbox.p1.x, bbox.p1.y - (new_height - bbox.get_height)⟩, ⟨bbox.p2.x, bbox.p1.y⟩⟩ := by
  simp only [adjust_height_additional_space, adjust_height_bbox2, Rect.set_height, Rect.move,
    Vector.add, Rect.get_height, Rect.mk.injEq, Vector.mk.injEq]
  refine ⟨⟨?_, ?_⟩, ?_, ?_⟩ <;> ring

/-- The box committed by a successful `adjust_height`, corner by corner. -/
theorem adjust_height_committed_bbox (s : Player) (new_height : ℚ) :
    ((s.set_pos (adjust_height_bbox2 s.bbox new_height).p1).set_size
        (adjust_height_bbox2 s.bbox new_height).get_width
        (adjust_height_bbox2 s.bbox new_height).get_height).bbox
      = ⟨⟨s.bbox.p1.x, s.bbox.p2.y - new_height⟩, ⟨s.bbox.p2.x, s.bbox.p2.y⟩⟩ := by
  simp only [set_pos, set_size, adjust_height_bbox2, Rect.set_pos, Rect.set_size, Rect.set_width,
    Rect.set_height, Rect.move, Vector.add, Vector.sub, Rect.get_height, Rect.get_width,
    Rect.mk.injEq, Vector.mk.injEq]
  refine ⟨⟨?_, ?_⟩, ?_, ?_⟩ <;> ring

/-- When `adjust_height` fails the state is returned as it was. -/
theorem adjust_height_false_state (env : Env) (s : Player) (new_height : ℚ)
    (h : (s.adjust_height env new_height).1 = false) : (s.adjust_height env new_height).2 = s := by
  unfold adjust_height at h ⊢
  split_ifs at h ⊢
  all_goals simp_all

/-- When `adjust_height` succeeds the new box is the old one with its top edge moved. -/
theorem adjust_height_true_bbox (env : Env) (s : Player) (new_height : ℚ)
    (h : (s.adjust_height env new_height).1 = true) :
    (s.adjust_height env new_height).2.bbox
      = ⟨⟨s.bbox.p1.x, s.bbox.p2.y - new_height⟩, ⟨s.bbox.p2.x, s.bbox.p2.y⟩⟩ := by
  unfold adjust_height at h ⊢
  split_ifs at h ⊢
  · exact adjust_height_committed_bbox s new_height
  · exact adjust_height_committed_bbox s new_height

/-- The result flag of `adjust_height` as a proposition. -/
theorem adjust_height_true_iff (env : Env) (s : Player) (new_height : ℚ) :
    (s.adjust_height env new_height).1 = true ↔
      (new_height ≤ s.bbox.get_height ∨
        env.is_free_of_statics (adjust_height_additional_space s.bbox new_height) = true) := by
  unfold adjust_height
  split_ifs with h1 h2
  · simp at h2
    simp [h2, h1]
  · simp at h2
    simp [h2]
  · simp only [true_iff]
    exact Or.inl (not_lt.mp h1)

/-- Apart from the box, `adjust_height` changes no field. -/
theorem adjust_height_eq_with_bbox (env : Env) (s : Player) (new_height : ℚ) :
    (s.adjust_height env new_height).2
      = { s with bbox := (s.adjust_height env new_height).2.bbox } := by
  unfold adjust_height
  split_ifs <;> rfl

/-! ## Lemmas on leaving a climbable, `set_bonus` and `kill` -/

/-- A player that is not climbing is not changed by leaving the climbable. -/
theorem stop_climbing_if_climbing_of_none (env : Env) (s : Player) (h : s.climbing = none) :
    stop_climbing_if_climbing env s = s := by
  simp [stop_climbing_if_climbing, h]

/-- Fields that leaving a climbable may change; all others are kept. -/
theorem stop_climbing_if_climbing_shape (env : Env) (s : Player) :
    ∃ g u ph j og cj snd, stop_climbing_if_climbing env s =
      { s with climbing := none, grabbed_object := g, ungrabbed := u, physic := ph,
               jumping := j, on_ground_flag := og, can_jump := cj, sounds := snd } := by
  refine ⟨(stop_climbing_if_climbing env s).grabbed_object,
    (stop_climbing_if_climbing env s).ungrabbed, (stop_climbing_if_climbing env s).physic,
    (stop_climbing_if_climbing env s).jumping, (stop_climbing_if_climbing env s).on_ground_flag,
    (stop_climbing_if_climbing env s).can_jump, (stop_climbing_if_climbing env s).sounds, ?_⟩
  cases hc : s.climbing with
  | none =>
    rw [stop_climbing_if_climbing_of_none env s hc]
    cases s
    simp_all
  | some c =>
    cases hg : s.grabbed_object <;>
    simp only [stop_climbing_if_climbing, stop_climbing, do_jump, play_sound, on_ground, is_big, hc, hg,
      Option.isSome_some, Option.isNone_some, if_true, Bool.false_eq_true, if_false] <;>
    split_ifs <;> rfl

/-- Fields that the first statements of `kill` may change; all others are kept. -/
theorem kill_begin_shape (env : Env) (s : Player) :
    ∃ (g : Option Nat) (u : List (Nat × Direction)) (ph : Physic) (j og cj : Bool)
      (snd : List String), kill_begin env s =
      { s with growing := false, climbing := none, grabbed_object := g, ungrabbed := u,
               physic := { ph with vx := 0 }, jumping := j, on_ground_flag := og, can_jump := cj,
               sounds := snd } := by
  obtain ⟨g, u, ph, j, og, cj, snd, h⟩ := stop_climbing_if_climbing_shape env
    (({ s with growing := false } : Player).play_sound "sounds/hurt.wav")
  refine ⟨g, u, ph, j, og, cj, snd, ?_⟩
  unfold kill_begin
  simp only [h]
  rfl

/-- Fields that `set_ghost_mode` may change; all others are kept. -/
theorem set_ghost_mode_shape (env : Env) (s : Player) (enable : Bool) :
    ∃ gm gr c g u ph j og cj snd lg, set_ghost_mode env s enable =
      { s with ghost_mode := gm, group := gr, climbing := c, grabbed_object := g, ungrabbed := u,
               physic := ph, jumping := j, on_ground_flag := og, can_jump := cj, sounds := snd,
               log := lg } ∧ (enable = true → gm = true) := by
  by_cases hg : s.ghost_mode = enable
  · refine ⟨s.ghost_mode, s.group, s.climbing, s.grabbed_object, s.ungrabbed, s.physic, s.jumping,
      s.on_ground_flag, s.can_jump, s.sounds, s.log, ?_, ?_⟩
    · subst hg
      simp only [set_ghost_mode, if_true]
    · intro h; rw [hg, h]
  · obtain ⟨g, u, ph, j, og, cj, snd, h⟩ := stop_climbing_if_climbing_shape env s
    cases enable
    · refine ⟨false, CollisionGroup.COLGROUP_MOVING, none, g, u, ph.enable_gravity true, j, og, cj, snd,
        s.log ++ ["You feel solid again."], ?_, by simp⟩
      simp only [set_ghost_mode, hg, if_false, h, set_group]
      rfl
    · refine ⟨true, CollisionGroup.COLGROUP_DISABLED, none, g, u, ph.enable_gravity false, j, og, cj, snd,
        s.log ++ ["You feel lightheaded. Use movement controls to float around, press ACTION to scare badguys."], ?_, by simp⟩
      simp only [set_ghost_mode, hg, if_false, h, set_group]
      rfl

/-- Adding `n` falling coins appends them to the objects of the sector. -/
theorem add_falling_coins_shape (n : Nat) (s : Player) :
    add_falling_coins n s
      = { s with sector_objects := s.sector_objects ++ List.replicate n GameObject.FallingCoin } := by
  induction n generalizing s with
  | zero => simp [add_falling_coins]
  | succ n ih =>
    rw [add_falling_coins, ih]
    simp [add_object, List.replicate_succ]

/-- Effect of the second part of `set_bonus` on a player that is not climbing. -/
theorem set_bonus_commit_shape (env : Env) (s : Player) (type : BonusType) (animate : Bool)
    (h : s.climbing = none) :
    ∃ (dbj : Bool) (objs : List GameObject) (st : PlayerStatus),
      set_bonus_commit env s type animate
          = { s with does_buttjump := dbj, sector_objects := objs, player_status := st }
        ∧ st.bonus = type
        ∧ st.coins = s.player_status.coins
        ∧ objs.count GameObject.FallingCoin = s.sector_objects.count GameObject.FallingCoin
        ∧ ((type = BonusType.NO_BONUS ∨ type = BonusType.GROWUP_BONUS) →
            st.max_fire_bullets = 0 ∧ st.max_ice_bullets = 0) := by
  refine ⟨(set_bonus_commit env s type animate).does_buttjump,
    (set_bonus_commit env s type animate).sector_objects,
    (set_bonus_commit env s type animate).player_status, ?_⟩
  cases type <;> cases animate <;> cases hb : s.player_status.bonus <;>
    cases hd : s.does_buttjump <;>
    simp [set_bonus_commit, hb, hd, h, stop_climbing_if_climbing_of_none, add_object]

/-- Effect of `set_bonus` on a player that is not climbing. -/
theorem set_bonus_shape (env : Env) (s : Player) (type : BonusType) (animate : Bool)
    (h : s.climbing = none) :
    ∃ (bb : Rect) (gr : Bool) (sa : String) (lg : List String) (dbj : Bool)
      (objs : List GameObject) (st : PlayerStatus),
      (set_bonus env s type animate).2
          = { s with bbox := bb, growing := gr, sprite_action := sa, log := lg,
                     does_buttjump := dbj, sector_objects := objs, player_status := st }
        ∧ st.coins = s.player_status.coins
        ∧ objs.count GameObject.FallingCoin = s.sector_objects.count GameObject.FallingCoin
        ∧ (type = BonusType.NO_BONUS → st.bonus = BonusType.NO_BONUS)
        ∧ (s.player_status.bonus ≠ BonusType.NO_BONUS →
            bb = s.bbox ∧ st.bonus = type
              ∧ ((type = BonusType.NO_BONUS ∨ type = BonusType.GROWUP_BONUS) →
                  st.max_fire_bullets = 0 ∧ st.max_ice_bullets = 0)) := by
  by_cases hb : s.player_status.bonus = BonusType.NO_BONUS
  · cases hr : (s.adjust_height env 62.8).1
    · have hst := adjust_height_false_state env s 62.8 hr
      refine ⟨s.bbox, s.growing, s.sprite_action, s.log ++ ["can\x27t adjust\n"], s.does_buttjump,
        s.sector_objects, s.player_status, ?_, rfl, rfl, fun _ => hb, fun hne => absurd hb hne⟩
      simp only [set_bonus, hb, if_true, hr, hst, Bool.not_false]
    · have hfr := adjust_height_eq_with_bbox env s 62.8
      generalize (s.adjust_height env 62.8).2.bbox = bb at hfr
      cases animate
      · obtain ⟨dbj, objs, st, heq, hbonus, hcoins, hcount, -⟩ :=
          set_bonus_commit_shape env { s with bbox := bb } type false h
        refine ⟨bb, s.growing, s.sprite_action, s.log, dbj, objs, st, ?_, hcoins, hcount,
          fun ht => by rw [hbonus, ht], fun hne => absurd hb hne⟩
        simp only [set_bonus, hb, if_true, hr, hfr, Bool.not_true, Bool.false_eq_true, if_false]
        rw [stop_climbing_if_climbing_of_none]
        · exact heq
        · exact h
      · obtain ⟨dbj, objs, st, heq, hbonus, hcoins, hcount, -⟩ :=
          set_bonus_commit_shape env
            { s with bbox := bb, growing := true,
                     sprite_action := if s.dir = Direction.LEFT then "grow-left" else "grow-right" }
            type true h
        refine ⟨bb, true, if s.dir = Direction.LEFT then "grow-left" else "grow-right", s.log, dbj,
          objs, st, ?_, hcoins, hcount, fun ht => by rw [hbonus, ht], fun hne => absurd hb hne⟩
        simp only [set_bonus, hb, if_true, hr, hfr, Bool.not_true, Bool.false_eq_true, if_false]
        rw [stop_climbing_if_climbing_of_none]
        · exact heq
        · exact h
  · obtain ⟨dbj, objs, st, heq, hbonus, hcoins, hcount, hbul⟩ :=
      set_bonus_commit_shape env s type animate h
    refine ⟨s.bbox, s.growing, s.sprite_action, s.log, dbj, objs, st, ?_, hcoins, hcount,
      fun ht => by rw [hbonus, ht], fun _ => ⟨rfl, hbonus, hbul⟩⟩
    simp only [set_bonus, hb, if_false, heq]

/-- Fields kept by `set_bonus` on a player that is not climbing. -/
theorem set_bonus_frame (env : Env) (s : Player) (type : BonusType) (animate : Bool)
    (h : s.climbing = none) :
    (set_bonus env s type animate).2.physic = s.physic
      ∧ (set_bonus env s type animate).2.climbing = none
      ∧ (set_bonus env s type animate).2.dying = s.dying
      ∧ (set_bonus env s type animate).2.duck = s.duck
      ∧ (set_bonus env s type animate).2.group = s.group
      ∧ (set_bonus env s type animate).2.safe_timer = s.safe_timer
      ∧ (set_bonus env s type animate).2.dying_timer = s.dying_timer
      ∧ (set_bonus env s type animate).2.reset_point_sectorname = s.reset_point_sectorname
      ∧ (set_bonus env s type animate).2.player_status.coins = s.player_status.coins
      ∧ (set_bonus env s type animate).2.sector_objects.count GameObject.FallingCoin
          = s.sector_objects.count GameObject.FallingCoin := by
  obtain ⟨bb, gr, sa, lg, dbj, objs, st, heq, hcoins, hcount, -, -⟩ :=
    set_bonus_shape env s type animate h
  rw [heq]
  exact ⟨rfl, h, rfl, rfl, rfl, rfl, rfl, rfl, hcoins, hcount⟩

/-- After `set_bonus(NO_BONUS, _)` the bonus is NO_BONUS, also when the call fails. -/
theorem set_bonus_NO_BONUS_bonus (env : Env) (s : Player) (animate : Bool) (h : s.climbing = none) :
    (set_bonus env s BonusType.NO_BONUS animate).2.player_status.bonus = BonusType.NO_BONUS := by
  obtain ⟨bb, gr, sa, lg, dbj, objs, st, heq, -, -, hno, -⟩ :=
    set_bonus_shape env s BonusType.NO_BONUS animate h
  rw [heq]
  exact hno rfl

/-- Effect of the dying branch of `kill` outside edit mode. -/
theorem kill_die_spec (env : Env) (s : Player) (hc : s.climbing = none)
    (he : s.edit_mode = false) :
    (kill_die env s).dying = true
      ∧ (kill_die env s).physic.vx = 0
      ∧ (kill_die env s).physic.vy = -700
      ∧ (kill_die env s).physic.ax = 0
      ∧ (kill_die env s).physic.ay = 0
      ∧ (kill_die env s).physic.gravity_enabled = true
      ∧ (kill_die env s).player_status.bonus = BonusType.NO_BONUS
      ∧ (kill_die env s).climbing = none
      ∧ (kill_die env s).group = CollisionGroup.COLGROUP_DISABLED
      ∧ (kill_die env s).dying_timer = Timer.start 3 env.game_time
      ∧ ((s.player_status.coins ≥ 25 ∧ s.reset_point_sectorname ≠ "") →
          (kill_die env s).sector_objects.count GameObject.FallingCoin
              = s.sector_objects.count GameObject.FallingCoin + 5
            ∧ (kill_die env s).player_status.coins
                = s.player_status.coins - max (Int.tdiv s.player_status.coins 10) 25)
      ∧ (¬ (s.player_status.coins ≥ 25 ∧ s.reset_point_sectorname ≠ "") →
          (kill_die env s).sector_objects.count GameObject.FallingCoin
              = s.sector_objects.count GameObject.FallingCoin
            ∧ (kill_die env s).player_status.coins = s.player_status.coins
            ∧ (kill_die env s).reset_point_sectorname = "") := by
  by_cases hcoin : s.player_status.coins ≥ 25 ∧ s.reset_point_sectorname ≠ ""
  · simp only [kill_die, he, hcoin, Bool.false_eq_true, if_false, and_self, if_true,
      add_falling_coins_shape, set_group]
    simp [set_bonus_frame, set_bonus_NO_BONUS_bonus, hc, Physic.set_velocity,
      Physic.set_acceleration, Physic.enable_gravity, hcoin]
  · simp only [kill_die, he, hcoin, Bool.false_eq_true, if_false, set_group]
    simp [set_bonus_frame, set_bonus_NO_BONUS_bonus, hc, Physic.set_velocity,
      Physic.set_acceleration, Physic.enable_gravity, hcoin]

/-- Fields kept by `adjust_height`. -/
theorem adjust_height_frame (env : Env) (s : Player) (new_height : ℚ) :
    (s.adjust_height env new_height).2.climbing = s.climbing
      ∧ (s.adjust_height env new_height).2.player_status = s.player_status
      ∧ (s.adjust_height env new_height).2.dying = s.dying
      ∧ (s.adjust_height env new_height).2.safe_timer = s.safe_timer := by
  rw [adjust_height_eq_with_bbox]
  exact ⟨rfl, rfl, rfl, rfl⟩

/-- On a big player `set_bonus` keeps the box and always commits the new bonus. -/
theorem set_bonus_of_big (env : Env) (s : Player) (type : BonusType) (animate : Bool)
    (h : s.climbing = none) (hb : s.player_status.bonus ≠ BonusType.NO_BONUS) :
    (set_bonus env s type animate).2.bbox = s.bbox
      ∧ (set_bonus env s type animate).2.player_status.bonus = type
      ∧ ((type = BonusType.NO_BONUS ∨ type = BonusType.GROWUP_BONUS) →
          (set_bonus env s type animate).2.player_status.max_fire_bullets = 0
            ∧ (set_bonus env s type animate).2.player_status.max_ice_bullets = 0) := by
  obtain ⟨bb, gr, sa, lg, dbj, objs, st, heq, -, -, -, hbig⟩ :=
    set_bonus_shape env s type animate h
  rw [heq]
  obtain ⟨h1, h2, h3⟩ := hbig hb
  exact ⟨h1, h2, h3⟩

/-- Fields set and fields kept by the first statements of `kill`. -/
theorem kill_begin_frame (env : Env) (s : Player) :
    (kill_begin env s).climbing = none
      ∧ (kill_begin env s).growing = false
      ∧ (kill_begin env s).physic.vx = 0
      ∧ (kill_begin env s).bbox = s.bbox
      ∧ (kill_begin env s).group = s.group
      ∧ (kill_begin env s).player_status = s.player_status
      ∧ (kill_begin env s).dying = s.dying
      ∧ (kill_begin env s).deactivated = s.deactivated
      ∧ (kill_begin env s).edit_mode = s.edit_mode
      ∧ (kill_begin env s).ghost_mode = s.ghost_mode
      ∧ (kill_begin env s).duck = s.duck
      ∧ (kill_begin env s).safe_timer = s.safe_timer
      ∧ (kill_begin env s).invincible_timer = s.invincible_timer
      ∧ (kill_begin env s).sector_objects = s.sector_objects
      ∧ (kill_begin env s).reset_point_sectorname = s.reset_point_sectorname := by
  obtain ⟨g, u, ph, j, og, cj, snd, h⟩ := kill_begin_shape env s
  rw [h]
  exact ⟨rfl, rfl, rfl, rfl, rfl, rfl, rfl, rfl, rfl, rfl, rfl, rfl, rfl, rfl, rfl⟩

/-- Fields kept by `set_ghost_mode`, and its result flag. -/
theorem set_ghost_mode_frame (env : Env) (s : Player) (enable : Bool) :
    (set_ghost_mode env s enable).player_status = s.player_status
      ∧ (set_ghost_mode env s enable).dying = s.dying
      ∧ (set_ghost_mode env s enable).deactivated = s.deactivated
      ∧ (set_ghost_mode env s enable).edit_mode = s.edit_mode
      ∧ (enable = true → (set_ghost_mode env s enable).ghost_mode = true) := by
  obtain ⟨gm, gr, c, g, u, ph, j, og, cj, snd, lg, h, hgm⟩ := set_ghost_mode_shape env s enable
  rw [h]
  exact ⟨rfl, rfl, rfl, rfl, hgm⟩

/-- Effect of the demotion branch of `kill` on a big player. -/
theorem kill_demote_spec (env : Env) (s : Player) (hc : s.climbing = none)
    (hbig : s.player_status.bonus ≠ BonusType.NO_BONUS) :
    (kill_demote env s).dying = s.dying
      ∧ (kill_demote env s).safe_timer = Timer.start env.TUX_SAFE_TIME env.game_time
      ∧ (kill_demote env s).player_status.max_fire_bullets = 0
      ∧ (kill_demote env s).player_status.max_ice_bullets = 0
      ∧ ((s.player_status.bonus = BonusType.FIRE_BONUS ∨ s.player_status.bonus = BonusType.ICE_BONUS) →
          (kill_demote env s).player_status.bonus = BonusType.GROWUP_BONUS)
      ∧ (s.player_status.bonus = BonusType.GROWUP_BONUS →
          (kill_demote env s).player_status.bonus = BonusType.NO_BONUS
            ∧ (kill_demote env s).duck = false
            ∧ (30.8 ≤ s.bbox.get_height → (kill_demote env s).bbox.get_height = 30.8)) := by
  cases hb : s.player_status.bonus with
  | NO_BONUS => exact absurd hb hbig
  | GROWUP_BONUS =>
    have hc2 : ({ (adjust_height env { s with safe_timer := Timer.start env.TUX_SAFE_TIME env.game_time } 30.8).2
        with duck := false, backflipping := false } : Player).climbing = none := by
      simp [adjust_height_frame, hc]
    have hb2 : ({ (adjust_height env { s with safe_timer := Timer.start env.TUX_SAFE_TIME env.game_time } 30.8).2
        with duck := false, backflipping := false } : Player).player_status.bonus ≠ BonusType.NO_BONUS := by
      simp [adjust_height_frame, hb]
    have hf := set_bonus_frame env _ BonusType.NO_BONUS true hc2
    have hg := set_bonus_of_big env _ BonusType.NO_BONUS true hc2 hb2
    simp only [kill_demote, hb, reduceCtorEq, or_self, if_false, if_true]
    refine ⟨?_, ?_, ?_, ?_, ?_, ?_⟩
    · rw [hf.2.2.1]; simp [adjust_height_frame]
    · rw [hf.2.2.2.2.2.1]; simp [adjust_height_frame]
    · exact (hg.2.2 (Or.inl rfl)).1
    · exact (hg.2.2 (Or.inl rfl)).2
    · intro h; simp at h
    · intro _
      refine ⟨hg.2.1, ?_, ?_⟩
      · rw [hf.2.2.2.1]
      · intro hle
        rw [hg.1]
        have hret : (adjust_height env { s with safe_timer := Timer.start env.TUX_SAFE_TIME env.game_time } 30.8).1 = true :=
          (adjust_height_true_iff env _ 30.8).mpr (Or.inl hle)
        have hbox := adjust_height_true_bbox env _ 30.8 hret
        show (adjust_height env { s with safe_timer := Timer.start env.TUX_SAFE_TIME env.game_time } 30.8).2.bbox.get_height = 30.8
        rw [hbox]
        simp [Rect.get_height]
  | FIRE_BONUS =>
    have hc2 : ({ s with safe_timer := Timer.start env.TUX_SAFE_TIME env.game_time } : Player).climbing = none := hc
    have hb2 : ({ s with safe_timer := Timer.start env.TUX_SAFE_TIME env.game_time } : Player).player_status.bonus ≠ BonusType.NO_BONUS := hbig
    have hf := set_bonus_frame env _ BonusType.GROWUP_BONUS true hc2
    have hg := set_bonus_of_big env _ BonusType.GROWUP_BONUS true hc2 hb2
    simp only [kill_demote, hb, reduceCtorEq, or_false, or_true, true_or, if_true]
    refine ⟨hf.2.2.1, hf.2.2.2.2.2.1, (hg.2.2 (Or.inr rfl)).1, (hg.2.2 (Or.inr rfl)).2,
      fun _ => hg.2.1, fun h => by simp at h⟩
  | ICE_BONUS =>
    have hc2 : ({ s with safe_timer := Timer.start env.TUX_SAFE_TIME env.game_time } : Player).climbing = none := hc
    have hb2 : ({ s with safe_timer := Timer.start env.TUX_SAFE_TIME env.game_time } : Player).player_status.bonus ≠ BonusType.NO_BONUS := hbig
    have hf := set_bonus_frame env _ BonusType.GROWUP_BONUS true hc2
    have hg := set_bonus_of_big env _ BonusType.GROWUP_BONUS true hc2 hb2
    simp only [kill_demote, hb, reduceCtorEq, or_false, or_true, true_or, if_true]
    refine ⟨hf.2.2.1, hf.2.2.2.2.2.1, (hg.2.2 (Or.inr rfl)).1, (hg.2.2 (Or.inr rfl)).2,
      fun _ => hg.2.1, fun h => by simp at h⟩

/-- A kill that passes both guards runs one of the two branches on the prepared state. -/
theorem kill_of_passed (env : Env) (s : Player) (completely : Bool)
    (hdying : s.dying = false) (hdeact : s.deactivated = false)
    (hguard : (!completely && (s.safe_timer.started env.game_time
      || s.invincible_timer.started env.game_time)) = false) :
    s.kill env completely =
      if (!completely && s.is_big) = true then kill_demote env (kill_begin env s)
      else kill_die env (kill_begin env s) := by
  have hbig : (kill_begin env s).is_big = s.is_big := by
    simp only [is_big, (kill_begin_frame env s).2.2.2.2.2.1]
  unfold kill
  simp only [hdying, hdeact, hguard, Bool.or_self, Bool.false_eq_true, if_false, hbig]

/-- The flag returned by `adjust_height` depends on the box only. -/
theorem adjust_height_flag_congr (env : Env) (s t : Player) (new_height : ℚ)
    (h : s.bbox = t.bbox) :
    (s.adjust_height env new_height).1 = (t.adjust_height env new_height).1 := by
  unfold adjust_height
  rw [h]
  split_ifs <;> rfl

/-- When the shrink to 30.8 is rejected, the demotion from GROWUP_BONUS leaves the box as it was. -/
theorem kill_demote_growup_of_blocked (env : Env) (s : Player) (hc : s.climbing = none)
    (hb : s.player_status.bonus = BonusType.GROWUP_BONUS)
    (hfail : (s.adjust_height env 30.8).1 = false) :
    (kill_demote env s).bbox = s.bbox := by
  have hfail2 : (adjust_height env
      { s with safe_timer := Timer.start env.TUX_SAFE_TIME env.game_time } 30.8).1 = false :=
    (adjust_height_flag_congr env
      { s with safe_timer := Timer.start env.TUX_SAFE_TIME env.game_time } s 30.8 rfl).trans hfail
  have hst := adjust_height_false_state env _ 30.8 hfail2
  have hc2 : ({ (adjust_height env
      { s with safe_timer := Timer.start env.TUX_SAFE_TIME env.game_time } 30.8).2
        with duck := false, backflipping := false } : Player).climbing = none := by
    rw [hst]; exact hc
  have hb2 : ({ (adjust_height env
      { s with safe_timer := Timer.start env.TUX_SAFE_TIME env.game_time } 30.8).2
        with duck := false, backflipping := false } : Player).player_status.bonus
          ≠ BonusType.NO_BONUS := by
    rw [hst]
    show s.player_status.bonus ≠ BonusType.NO_BONUS
    rw [hb]; simp
  have hg := set_bonus_of_big env _ BonusType.NO_BONUS true hc2 hb2
  simp only [kill_demote, hb, reduceCtorEq, or_self, if_false, if_true]
  rw [hg.1, hst]

/-- A fatal kill that passes the first guard runs the dying branch on the prepared state. -/
theorem kill_fatal_of_passed (env : Env) (s : Player)
    (hdying : s.dying = false) (hdeact : s.deactivated = false) :
    s.kill env true = kill_die env (kill_begin env s) := by
  rw [kill_of_passed env s true hdying hdeact (by simp)]
  simp

/-- A kill stopped by the first guard returns the state as it was. -/
theorem kill_of_dying_or_deactivated (env : Env) (s : Player) (completely : Bool)
    (h : s.dying = true ∨ s.deactivated = true) : s.kill env completely = s := by
  unfold kill
  rcases h with h | h <;> simp [h]

/-- A fatal kill leaves a dying or deactivated player, or one in edit mode with
its coins untouched. -/
theorem kill_fatal_result (env : Env) (s : Player) :
    (s.kill env true).dying = true ∨ (s.kill env true).deactivated = true
      ∨ ((s.kill env true).edit_mode = true
          ∧ (s.kill env true).player_status = s.player_status) := by
  cases hd : s.dying with
  | true =>
    rw [kill_of_dying_or_deactivated env s true (Or.inl hd)]
    exact Or.inl hd
  | false =>
    cases hdeact : s.deactivated with
    | true =>
      rw [kill_of_dying_or_deactivated env s true (Or.inr hdeact)]
      exact Or.inr (Or.inl hdeact)
    | false =>
      obtain ⟨hc, -, -, -, -, hst, -, -, he, -⟩ := kill_begin_frame env s
      rw [kill_fatal_of_passed env s hd hdeact]
      cases hedit : s.edit_mode with
      | true =>
        have he2 : (kill_begin env s).edit_mode = true := by rw [he, hedit]
        obtain ⟨g1, -, -, g4, -⟩ := set_ghost_mode_frame env (kill_begin env s) true
        refine Or.inr (Or.inr ?_)
        simp only [kill_die, he2, if_true]
        exact ⟨by rw [g4, he2], by rw [g1, hst]⟩
      | false =>
        exact Or.inl (kill_die_spec env (kill_begin env s) hc (by rw [he, hedit])).1

/-- In edit mode a fatal kill leaves the player status as it was. -/
theorem kill_fatal_edit_mode_status (env : Env) (s : Player) (hedit : s.edit_mode = true) :
    (s.kill env true).player_status = s.player_status := by
  cases hd : s.dying with
  | true => rw [kill_of_dying_or_deactivated env s true (Or.inl hd)]
  | false =>
    cases hdeact : s.deactivated with
    | true => rw [kill_of_dying_or_deactivated env s true (Or.inr hdeact)]
    | false =>
      obtain ⟨-, -, -, -, -, hst, -, -, he, -⟩ := kill_begin_frame env s
      have he2 : (kill_begin env s).edit_mode = true := by rw [he, hedit]
      obtain ⟨g1, -⟩ := set_ghost_mode_frame env (kill_begin env s) true
      rw [kill_fatal_of_passed env s hd hdeact]
      simp only [kill_die, he2, if_true]
      rw [g1, hst]

/-- The horizontal velocity and acceleration that `handle_horizontal_input` stores
before friction is applied. -/
theorem handle_horizontal_input_of_dirsign_ne_zero (env : Env) (s : Player)
    (h : horizontal_dirsign env s ≠ 0) :
    (handle_horizontal_input env s).physic.vx
      = (horizontal_snap s.speedlimit (horizontal_dirsign env s)
          (horizontal_limit (env.hold Control.ACTION || s.grabbed_object.isSome) s.physic.vx
            (horizontal_dirsign env s))).1 := by
  simp only [handle_horizontal_input, h, if_false]
  split_ifs <;> rfl

/-- Without a direction `horizontal_turn` changes nothing. -/
theorem horizontal_turn_of_dirsign_zero (env : Env) (s : Player)
    (h : horizontal_dirsign env s = 0) : horizontal_turn env s = s := by
  unfold horizontal_dirsign at h
  unfold horizontal_turn
  split_ifs at h ⊢ <;> first | rfl | (norm_num at h)

/-- Without a direction the locals are the old velocity and no acceleration. -/
theorem horizontal_snap_limit_of_dirsign_zero (walk_only : Bool) (speedlimit vx : ℚ) :
    horizontal_snap speedlimit 0 (horizontal_limit walk_only vx 0) = (vx, 0) := by
  have hlim : horizontal_limit walk_only vx 0 = (vx, 0) := by
    unfold horizontal_limit
    cases walk_only <;> simp
  rw [hlim]
  unfold horizontal_snap
  simp only [ne_eq, not_true_eq_false, false_and, if_false, mul_zero]
  split_ifs with h
  · exfalso; linarith [h.1, h.2]
  · rfl

/-- Without a direction `handle_horizontal_input` clears the horizontal
acceleration and applies friction. -/
theorem handle_horizontal_input_of_dirsign_zero (env : Env) (s : Player)
    (h : horizontal_dirsign env s = 0) :
    handle_horizontal_input env s
      = apply_friction { s with physic := { s.physic with ax := 0 } } := by
  simp only [handle_horizontal_input, h, horizontal_turn_of_dirsign_zero env s h,
    horizontal_snap_limit_of_dirsign_zero, if_true]
  have hrev : horizontal_reverses s s.physic.vx 0 = false := by
    simp [horizontal_reverses]
  have hskid : horizontal_skids env s s.physic.vx 0 = false := by
    simp [horizontal_skids, hrev]
  simp only [hrev, hskid, Bool.false_eq_true, if_false, zero_mul, ite_self]
  rfl

/-- Fields kept by `do_jump_apex`. -/
theorem do_jump_apex_frame (s : Player) :
    (do_jump_apex s).physic.vy = s.physic.vy
      ∧ (do_jump_apex s).physic.vx = s.physic.vx
      ∧ (do_jump_apex s).jumping = s.jumping
      ∧ (do_jump_apex s).can_jump = s.can_jump
      ∧ (do_jump_apex s).jump_button_timer = s.jump_button_timer
      ∧ (do_jump_apex s).climbing = s.climbing
      ∧ (do_jump_apex s).dead = s.dead
      ∧ (do_jump_apex s).dying = s.dying := by
  unfold do_jump_apex
  split_ifs <;> exact ⟨rfl, rfl, rfl, rfl, rfl, rfl, rfl, rfl⟩

/-- Fields kept by `early_jump_apex`. -/
theorem early_jump_apex_frame (s : Player) :
    (early_jump_apex s).can_jump = s.can_jump
      ∧ (early_jump_apex s).climbing = s.climbing
      ∧ (early_jump_apex s).dead = s.dead
      ∧ (early_jump_apex s).dying = s.dying := by
  unfold early_jump_apex
  split_ifs <;> exact ⟨rfl, rfl, rfl, rfl⟩

/-- After the jump key has been handled, `handle_vertical_input` changes neither
the velocity nor the flags and the timer of the jump. -/
theorem handle_vertical_input_frame (env : Env) (s : Player) :
    (handle_vertical_input env s).physic.vy = (handle_jump_key env s).physic.vy
      ∧ (handle_vertical_input env s).physic.vx = (handle_jump_key env s).physic.vx
      ∧ (handle_vertical_input env s).jumping = (handle_jump_key env s).jumping
      ∧ (handle_vertical_input env s).can_jump = (handle_jump_key env s).can_jump
      ∧ (handle_vertical_input env s).jump_button_timer = (handle_jump_key env s).jump_button_timer
      ∧ (handle_vertical_input env s).climbing = (handle_jump_key env s).climbing
      ∧ (handle_vertical_input env s).dead = (handle_jump_key env s).dead
      ∧ (handle_vertical_input env s).dying = (handle_jump_key env s).dying := by
  simp only [handle_vertical_input, Physic.set_acceleration_y,
    apply_ite Player.physic, apply_ite Physic.vy, apply_ite Physic.vx, apply_ite Player.jumping,
    apply_ite Player.can_jump, apply_ite Player.jump_button_timer, apply_ite Player.climbing,
    apply_ite Player.dead, apply_ite Player.dying, do_jump_apex_frame, ite_self, and_self]

/-- Fields kept by `do_jump`. -/
theorem do_jump_frame (s : Player) (yspeed : ℚ) :
    (do_jump s yspeed).climbing = s.climbing
      ∧ (do_jump s yspeed).dead = s.dead
      ∧ (do_jump s yspeed).dying = s.dying
      ∧ (do_jump s yspeed).duck = s.duck
      ∧ (do_jump s yspeed).backflipping = s.backflipping
      ∧ (do_jump s yspeed).bbox = s.bbox
      ∧ (do_jump s yspeed).player_status = s.player_status := by
  simp only [do_jump, play_sound]
  split_ifs <;> exact ⟨rfl, rfl, rfl, rfl, rfl, rfl, rfl⟩

/-- Fields kept by `do_backflip`. -/
theorem do_backflip_frame (env : Env) (s : Player) :
    (do_backflip env s).climbing = s.climbing
      ∧ (do_backflip env s).dead = s.dead
      ∧ (do_backflip env s).dying = s.dying
      ∧ (do_backflip env s).bbox = s.bbox
      ∧ (do_backflip env s).player_status = s.player_status := by
  simp only [do_backflip, play_sound, apply_ite Player.climbing, apply_ite Player.dead,
    apply_ite Player.dying, apply_ite Player.bbox, apply_ite Player.player_status, do_jump_frame,
    ite_self, and_self]

/-- Fields kept by `handle_jump_key`; an unavailable jump stays unavailable. -/
theorem handle_jump_key_frame (env : Env) (s : Player) :
    (handle_jump_key env s).climbing = s.climbing
      ∧ (handle_jump_key env s).dead = s.dead
      ∧ (handle_jump_key env s).dying = s.dying
      ∧ (s.can_jump = false → (handle_jump_key env s).can_jump = false) := by
  refine ⟨?_, ?_, ?_, ?_⟩
  · simp only [handle_jump_key, apply_ite Player.climbing, do_jump_frame, do_backflip_frame,
      early_jump_apex_frame, ite_self]
  · simp only [handle_jump_key, apply_ite Player.dead, do_jump_frame, do_backflip_frame,
      early_jump_apex_frame, ite_self]
  · simp only [handle_jump_key, apply_ite Player.dying, do_jump_frame, do_backflip_frame,
      early_jump_apex_frame, ite_self]
  · intro h
    simp only [handle_jump_key, apply_ite Player.can_jump, h, Bool.false_eq_true, and_false,
      if_false, early_jump_apex_frame, ite_self]

/-- Fields kept by the peeking statements. -/
theorem handle_peeking_frame (env : Env) (s : Player) :
    (handle_peeking env s).can_jump = s.can_jump
      ∧ (handle_peeking env s).climbing = s.climbing
      ∧ (handle_peeking env s).on_ground_flag = s.on_ground_flag
      ∧ (handle_peeking env s).dead = s.dead
      ∧ (handle_peeking env s).dying = s.dying := by
  simp only [handle_peeking, apply_ite Player.can_jump, apply_ite Player.climbing,
    apply_ite Player.on_ground_flag, apply_ite Player.dead, apply_ite Player.dying, ite_self,
    and_self]

/-- Fields kept by `apply_friction`. -/
theorem apply_friction_frame (s : Player) :
    (apply_friction s).can_jump = s.can_jump
      ∧ (apply_friction s).climbing = s.climbing
      ∧ (apply_friction s).on_ground_flag = s.on_ground_flag
      ∧ (apply_friction s).dead = s.dead
      ∧ (apply_friction s).dying = s.dying := by
  simp only [apply_friction, apply_ite Player.can_jump, apply_ite Player.climbing,
    apply_ite Player.on_ground_flag, apply_ite Player.dead, apply_ite Player.dying, ite_self,
    and_self]

/-- Fields kept by `handle_horizontal_input`. -/
theorem handle_horizontal_input_frame (env : Env) (s : Player) :
    (handle_horizontal_input env s).can_jump = s.can_jump
      ∧ (handle_horizontal_input env s).climbing = s.climbing
      ∧ (handle_horizontal_input env s).on_ground_flag = s.on_ground_flag
      ∧ (handle_horizontal_input env s).dead = s.dead
      ∧ (handle_horizontal_input env s).dying = s.dying := by
  simp only [handle_horizontal_input, horizontal_turn, play_sound, add_object,
    apply_ite Player.can_jump, apply_ite Player.climbing,
    apply_ite Player.on_ground_flag, apply_ite Player.dead, apply_ite Player.dying,
    apply_friction_frame, ite_self, and_self]

/-- Fields kept by the shooting statement. -/
theorem handle_shooting_frame (env : Env) (s : Player) :
    (handle_shooting env s).can_jump = s.can_jump
      ∧ (handle_shooting env s).climbing = s.climbing
      ∧ (handle_shooting env s).dead = s.dead
      ∧ (handle_shooting env s).dying = s.dying := by
  simp only [handle_shooting, add_object, apply_ite Player.can_jump, apply_ite Player.climbing,
    apply_ite Player.dead, apply_ite Player.dying, ite_self, and_self]

/-- Fields kept by `do_duck`. -/
theorem do_duck_frame (env : Env) (s : Player) :
    (do_duck env s).can_jump = s.can_jump
      ∧ (do_duck env s).climbing = s.climbing
      ∧ (do_duck env s).dead = s.dead
      ∧ (do_duck env s).dying = s.dying := by
  have h := adjust_height_eq_with_bbox env s 31.8
  generalize (adjust_height env s 31.8).2.bbox = bb at h
  simp only [do_duck, h, apply_ite Player.can_jump, apply_ite Player.climbing,
    apply_ite Player.dead, apply_ite Player.dying, ite_self, and_self]

/-- Fields kept by the release of the grabbed object. -/
theorem handle_release_frame (env : Env) (s : Player) :
    (handle_release env s).can_jump = s.can_jump
      ∧ (handle_release env s).climbing = s.climbing
      ∧ (handle_release env s).dead = s.dead
      ∧ (handle_release env s).dying = s.dying := by
  unfold handle_release
  cases s.grabbed_object with
  | none => exact ⟨rfl, rfl, rfl, rfl⟩
  | some g =>
    simp only [apply_ite Player.can_jump, apply_ite Player.climbing,
      apply_ite Player.dead, apply_ite Player.dying, ite_self, and_self]

/-- A grounded `do_jump` sets the vertical velocity and the jump flags. -/
theorem do_jump_of_on_ground (s : Player) (yspeed : ℚ) (h : s.on_ground = true) :
    (do_jump s yspeed).physic.vy = yspeed
      ∧ (do_jump s yspeed).jumping = true
      ∧ (do_jump s yspeed).can_jump = false
      ∧ (do_jump s yspeed).on_ground_flag = false
      ∧ (do_jump s yspeed).jump_button_timer = s.jump_button_timer := by
  simp only [do_jump, h, Bool.not_true, Bool.false_eq_true, if_false, play_sound,
    Physic.set_velocity_y]
  split_ifs <;> exact ⟨rfl, rfl, rfl, rfl, rfl⟩

/-- An airborne `do_jump` does nothing. -/
theorem do_jump_of_not_on_ground (s : Player) (yspeed : ℚ) (h : s.on_ground = false) :
    do_jump s yspeed = s := by
  simp [do_jump, h]

/-- The jump branch of `handle_jump_key` for a standing player. -/
theorem handle_jump_key_of_jump (env : Env) (s : Player)
    (hduck : s.duck = false) (hhold : env.hold Control.JUMP = true)
    (htimer : s.jump_button_timer.started env.game_time = true) (hcan : s.can_jump = true) :
    handle_jump_key env s
      = do_jump { s with jump_button_timer := Timer.stop env.game_time }
          (if |s.physic.vx| > MAX_WALK_XM then -580 else -520) := by
  have hstarted : (Timer.start JUMP_GRACE_TIME env.game_time).started env.game_time = true := by
    simp [Timer.started, Timer.start, Timer.get_timeleft, JUMP_GRACE_TIME]
    norm_num
  unfold handle_jump_key
  cases hp : env.pressed Control.JUMP
  · simp only [Bool.false_eq_true, if_false, hhold, htimer, hcan, and_self, if_true, hduck]
    split_ifs <;> rfl
  · simp only [if_true, hhold, hstarted, hcan, and_self, hduck, Bool.false_eq_true, if_false]
    split_ifs <;> rfl

/-- The statement `if (climbing) stop_climbing(*climbing);` is `stop_climbing`. -/
theorem stop_climbing_if_climbing_eq (env : Env) (s : Player) :
    stop_climbing_if_climbing env s = stop_climbing env s := by
  unfold stop_climbing_if_climbing stop_climbing
  cases hc : s.climbing <;> simp

/-- A player leaving the climbable is not climbing afterwards. -/
theorem stop_climbing_climbing (env : Env) (s : Player) :
    (stop_climbing env s).climbing = none := by
  rw [← stop_climbing_if_climbing_eq]
  obtain ⟨g, u, ph, j, og, cj, snd, h⟩ := stop_climbing_if_climbing_shape env s
  rw [h]

/-- The loop of `try_grab` grabs the first portable within reach, if there is one. -/
theorem try_grab_loop_eq_find (env : Env) (pos : Vector) (ps : List Portable) (s : Player) :
    try_grab_loop env pos ps s
      = match ps.find? (within_reach pos) with
        | some p => grab_portable env s p
        | none => s := by
  induction ps with
  | nil => rfl
  | cons p ps ih =>
    unfold try_grab_loop
    cases hp : p.is_portable
    · simp [within_reach, hp, ih, List.find?_cons]
    · cases hm : p.moving_object with
      | none => simp [within_reach, hp, hm, ih, List.find?_cons]
      | some mo =>
        by_cases hg : mo.group = CollisionGroup.COLGROUP_DISABLED
        · simp [within_reach, hp, hm, hg, ih, List.find?_cons]
        · cases hcont : mo.bbox.contains pos
          · simp [within_reach, hp, hm, hg, hcont, ih, List.find?_cons]
          · simp [within_reach, hp, hm, hg, hcont, List.find?_cons, grab_portable]

/-- After grabbing a portable the player holds it and is not climbing. -/
theorem grab_portable_spec (env : Env) (s : Player) (p : Portable) :
    (grab_portable env s p).grabbed_object = some p.id
      ∧ (grab_portable env s p).climbing = none
      ∧ (grab_portable env s p).dead = s.dead
      ∧ (grab_portable env s p).dying = s.dying := by
  obtain ⟨g, u, ph, j, og, cj, snd, h⟩ := stop_climbing_if_climbing_shape env s
  simp [grab_portable, h]

/-- Grabbing a portable changes nothing else on a player that is not climbing. -/
theorem grab_portable_of_not_climbing (env : Env) (s : Player) (p : Portable)
    (h : s.climbing = none) :
    (grab_portable env s p).can_jump = s.can_jump := by
  simp only [grab_portable, stop_climbing_if_climbing_of_none env s h]

/-- Switching ghost mode on disables gravity; a call that finds it on changes nothing. -/
theorem set_ghost_mode_true_spec (env : Env) (s : Player) :
    (s.ghost_mode = false →
        (set_ghost_mode env s true).ghost_mode = true
          ∧ (set_ghost_mode env s true).physic.gravity_enabled = false)
      ∧ (s.ghost_mode = true → set_ghost_mode env s true = s) := by
  constructor
  · intro h
    obtain ⟨g, u, ph, j, og, cj, snd, hs⟩ := stop_climbing_if_climbing_shape env s
    simp [set_ghost_mode, h, hs, set_group, Physic.enable_gravity]
  · intro h
    simp [set_ghost_mode, h]

/-- After `set_ghost_mode(false)` ghost mode is off. -/
theorem set_ghost_mode_false_ghost_mode (env : Env) (s : Player) :
    (set_ghost_mode env s false).ghost_mode = false := by
  cases h : s.ghost_mode
  · simp [set_ghost_mode, h]
  · obtain ⟨g, u, ph, j, og, cj, snd, hs⟩ := stop_climbing_if_climbing_shape env s
    simp [set_ghost_mode, h, hs, set_group]

/-- Ghost-mode input handling either leaves ghost mode or keeps the gravity flag. -/
theorem handle_input_ghost_spec (env : Env) (s : Player) :
    (handle_input_ghost env s).ghost_mode = false
      ∨ ((handle_input_ghost env s).ghost_mode = s.ghost_mode
          ∧ (handle_input_ghost env s).physic.gravity_enabled = s.physic.gravity_enabled) := by
  cases ha : env.hold Control.ACTION
  · right
    simp only [handle_input_ghost, ha, Bool.false_eq_true, if_false, Physic.set_velocity,
      Physic.set_acceleration, apply_ite Player.ghost_mode, apply_ite Player.physic,
      apply_ite Physic.gravity_enabled, ite_self, and_self]
  · left
    simp only [handle_input_ghost, ha, if_true, Physic.set_velocity, Physic.set_acceleration]
    exact set_ghost_mode_false_ghost_mode env _

/-- More fields kept by `adjust_height`. -/
theorem adjust_height_frame_more (env : Env) (s : Player) (new_height : ℚ) :
    (s.adjust_height env new_height).2.ghost_mode = s.ghost_mode
      ∧ (s.adjust_height env new_height).2.physic = s.physic
      ∧ (s.adjust_height env new_height).2.can_jump = s.can_jump
      ∧ (s.adjust_height env new_height).2.dead = s.dead
      ∧ (s.adjust_height env new_height).2.duck = s.duck
      ∧ (s.adjust_height env new_height).2.backflipping = s.backflipping
      ∧ (s.adjust_height env new_height).2.on_ground_flag = s.on_ground_flag := by
  rw [adjust_height_eq_with_bbox]
  exact ⟨rfl, rfl, rfl, rfl, rfl, rfl, rfl⟩

/-- More fields kept by `set_bonus` on a player that is not climbing. -/
theorem set_bonus_frame_more (env : Env) (s : Player) (type : BonusType) (animate : Bool)
    (h : s.climbing = none) :
    (set_bonus env s type animate).2.ghost_mode = s.ghost_mode
      ∧ (set_bonus env s type animate).2.can_jump = s.can_jump
      ∧ (set_bonus env s type animate).2.dead = s.dead
      ∧ (set_bonus env s type animate).2.backflipping = s.backflipping := by
  obtain ⟨bb, gr, sa, lg, dbj, objs, st, heq, -⟩ := set_bonus_shape env s type animate h
  rw [heq]
  exact ⟨rfl, rfl, rfl, rfl⟩

/-- The demotion branch of `kill` on a player that is not climbing keeps the ghost
flag, the gravity flag and the jump flag. -/
theorem kill_demote_ghost (env : Env) (s : Player) (hc : s.climbing = none) :
    (kill_demote env s).ghost_mode = s.ghost_mode
      ∧ (kill_demote env s).physic.gravity_enabled = s.physic.gravity_enabled
      ∧ (kill_demote env s).can_jump = s.can_jump
      ∧ (kill_demote env s).climbing = none := by
  simp only [kill_demote, apply_ite Player.ghost_mode, apply_ite Player.physic,
    apply_ite Physic.gravity_enabled, apply_ite Player.can_jump, apply_ite Player.climbing,
    set_bonus_frame, set_bonus_frame_more, adjust_height_frame, adjust_height_frame_more, hc,
    ite_self, and_self]

/-- The first statements of `kill` on a player that is not climbing. -/
theorem kill_begin_of_not_climbing (env : Env) (s : Player) (hc : s.climbing = none) :
    kill_begin env s
      = { s with growing := false, sounds := s.sounds ++ ["sounds/hurt.wav"],
                 physic := { s.physic with vx := 0 } } := by
  have h := stop_climbing_if_climbing_of_none env
    (({ s with growing := false } : Player).play_sound "sounds/hurt.wav") hc
  simp only [kill_begin, h]
  rfl

/-- On a player that is not climbing `set_ghost_mode` keeps the jump flag. -/
theorem set_ghost_mode_of_not_climbing (env : Env) (s : Player) (enable : Bool)
    (hc : s.climbing = none) :
    (set_ghost_mode env s enable).can_jump = s.can_jump
      ∧ (set_ghost_mode env s enable).climbing = none := by
  simp only [set_ghost_mode, stop_climbing_if_climbing_of_none env s hc, set_group,
    apply_ite Player.can_jump, apply_ite Player.climbing, hc, ite_self, and_self]

/-- Fields kept by adding falling coins. -/
theorem add_falling_coins_frame (n : Nat) (s : Player) :
    (add_falling_coins n s).climbing = s.climbing
      ∧ (add_falling_coins n s).ghost_mode = s.ghost_mode
      ∧ (add_falling_coins n s).can_jump = s.can_jump
      ∧ (add_falling_coins n s).dead = s.dead
      ∧ (add_falling_coins n s).physic = s.physic
      ∧ (add_falling_coins n s).player_status = s.player_status := by
  rw [add_falling_coins_shape]
  exact ⟨rfl, rfl, rfl, rfl, rfl, rfl⟩

/-- The dying branch of `kill` on a player that is not climbing keeps the jump
flag, and outside edit mode the ghost flag. -/
theorem kill_die_frame (env : Env) (s : Player) (hc : s.climbing = none) :
    (kill_die env s).can_jump = s.can_jump
      ∧ (kill_die env s).climbing = none
      ∧ (s.edit_mode = false → (kill_die env s).ghost_mode = s.ghost_mode) := by
  refine ⟨?_, ?_, ?_⟩
  · simp only [kill_die, set_group, apply_ite Player.can_jump, apply_ite Player.climbing,
      set_ghost_mode_of_not_climbing, set_bonus_frame, set_bonus_frame_more,
      add_falling_coins_frame, hc, ite_self]
  · simp only [kill_die, set_group, apply_ite Player.can_jump, apply_ite Player.climbing,
      set_ghost_mode_of_not_climbing, set_bonus_frame, set_bonus_frame_more,
      add_falling_coins_frame, hc, ite_self]
  · intro he
    simp only [kill_die, he, Bool.false_eq_true, if_false, set_group,
      apply_ite Player.ghost_mode, apply_ite Player.climbing,
      set_bonus_frame, set_bonus_frame_more, add_falling_coins_frame, hc, ite_self]

/-- A kill of a player that is not climbing keeps the jump flag. -/
theorem kill_of_not_climbing (env : Env) (s : Player) (completely : Bool)
    (hc : s.climbing = none) :
    (kill env s completely).can_jump = s.can_jump
      ∧ (kill env s completely).climbing = none := by
  have hb := kill_begin_of_not_climbing env s hc
  have hc1 : (kill_begin env s).climbing = none := (kill_begin_frame env s).1
  have hcj : (kill_begin env s).can_jump = s.can_jump := by rw [hb]
  simp only [kill]
  split_ifs
  · exact ⟨rfl, hc⟩
  · exact ⟨rfl, hc⟩
  · exact ⟨((kill_demote_ghost env _ hc1).2.2.1).trans hcj, (kill_demote_ghost env _ hc1).2.2.2⟩
  · exact ⟨((kill_die_frame env _ hc1).1).trans hcj, (kill_die_frame env _ hc1).2.1⟩

/-- Fields kept by `do_standup` on a player that is not climbing. -/
theorem do_standup_of_not_climbing (env : Env) (s : Player) (hc : s.climbing = none) :
    (do_standup env s).can_jump = s.can_jump
      ∧ (do_standup env s).climbing = none := by
  simp only [do_standup, apply_ite Player.can_jump, apply_ite Player.climbing,
    kill_of_not_climbing, adjust_height_frame, adjust_height_frame_more, hc, ite_self, and_self]

/-- Fields kept by `try_grab` on a player that is not climbing. -/
theorem try_grab_of_not_climbing (env : Env) (s : Player) (hc : s.climbing = none) :
    (try_grab env s).can_jump = s.can_jump
      ∧ (try_grab env s).climbing = none := by
  unfold try_grab
  split_ifs
  · rw [try_grab_loop_eq_find]
    cases List.find? (within_reach (try_grab_reach s)) env.portables with
    | none => exact ⟨rfl, hc⟩
    | some p => exact ⟨grab_portable_of_not_climbing env s p hc, (grab_portable_spec env s p).2.1⟩
  · exact ⟨rfl, hc⟩

/-- In normal mode, off the ground, `handle_input` does not make the jump available. -/
theorem handle_input_can_jump_of_airborne (env : Env) (s : Player)
    (hghost : s.ghost_mode = false) (hclimb : s.climbing = none)
    (hair : s.on_ground = false) (hcan : s.can_jump = false) :
    (handle_input env s).can_jump = false := by
  have hc1 : (handle_peeking env s).climbing = none := by
    rw [(handle_peeking_frame env s).2.1, hclimb]
  have hg1 : (handle_peeking env s).on_ground_flag = false := by
    rw [(handle_peeking_frame env s).2.2.1]; exact hair
  have hj1 : (handle_peeking env s).can_jump = false := by
    rw [(handle_peeking_frame env s).1, hcan]
  simp only [handle_input, hghost, hclimb, Bool.false_eq_true, if_false, Option.isSome_none]
  generalize handle_peeking env s = s1 at hc1 hg1 hj1
  have hc2 : (if (!s1.backflipping) = true then handle_horizontal_input env s1 else s1).climbing
      = none := by
    simp only [apply_ite Player.climbing, handle_horizontal_input_frame, hc1, ite_self]
  have hg2 : (if (!s1.backflipping) = true then handle_horizontal_input env s1 else s1).on_ground
      = false := by
    simp only [on_ground, apply_ite Player.on_ground_flag, handle_horizontal_input_frame, hg1,
      ite_self]
  have hj2 : (if (!s1.backflipping) = true then handle_horizontal_input env s1 else s1).can_jump
      = false := by
    simp only [apply_ite Player.can_jump, handle_horizontal_input_frame, hj1, ite_self]
  generalize (if (!s1.backflipping) = true then handle_horizontal_input env s1 else s1) = s2
    at hc2 hg2 hj2
  simp only [hg2, Bool.false_eq_true, if_false]
  have hc3 : (handle_shooting env (handle_vertical_input env s2)).climbing = none := by
    rw [(handle_shooting_frame env _).2.1, (handle_vertical_input_frame env s2).2.2.2.2.2.1,
      (handle_jump_key_frame env s2).1, hc2]
  have hj3 : (handle_shooting env (handle_vertical_input env s2)).can_jump = false := by
    rw [(handle_shooting_frame env _).1, (handle_vertical_input_frame env s2).2.2.2.1]
    exact (handle_jump_key_frame env s2).2.2.2 hj2
  generalize handle_shooting env (handle_vertical_input env s2) = s3 at hc3 hj3
  have hc4 : (if env.hold Control.DOWN = true then do_duck env s3 else do_standup env s3).climbing
      = none := by
    split_ifs
    · rw [(do_duck_frame env s3).2.1, hc3]
    · exact (do_standup_of_not_climbing env s3 hc3).2
  have hj4 : (if env.hold Control.DOWN = true then do_duck env s3 else do_standup env s3).can_jump
      = false := by
    split_ifs
    · rw [(do_duck_frame env s3).1, hj3]
    · rw [(do_standup_of_not_climbing env s3 hc3).1, hj3]
  generalize (if env.hold Control.DOWN = true then do_duck env s3 else do_standup env s3) = s4
    at hc4 hj4
  rw [(handle_release_frame env _).1, (try_grab_of_not_climbing env s4 hc4).1, hj4]

/-- Leaving a climbable changes neither `dead` nor `dying`. -/
theorem stop_climbing_life (env : Env) (s : Player) :
    (stop_climbing_if_climbing env s).dead = s.dead
      ∧ (stop_climbing_if_climbing env s).dying = s.dying
      ∧ (stop_climbing env s).dead = s.dead
      ∧ (stop_climbing env s).dying = s.dying := by
  rw [← stop_climbing_if_climbing_eq]
  obtain ⟨g, u, ph, j, og, cj, snd, h⟩ := stop_climbing_if_climbing_shape env s
  rw [h]
  exact ⟨rfl, rfl, rfl, rfl⟩

/-- The second part of `set_bonus` changes neither `dead` nor `dying`. -/
theorem set_bonus_commit_life (env : Env) (s : Player) (type : BonusType) (animate : Bool) :
    (set_bonus_commit env s type animate).dead = s.dead
      ∧ (set_bonus_commit env s type animate).dying = s.dying := by
  simp only [set_bonus_commit, add_object, apply_ite Player.dead, apply_ite Player.dying,
    stop_climbing_life, ite_self, and_self]

/-- The member `set_bonus` changes neither `dead` nor `dying`. -/
theorem set_bonus_life (env : Env) (s : Player) (type : BonusType) (animate : Bool) :
    (set_bonus env s type animate).2.dead = s.dead
      ∧ (set_bonus env s type animate).2.dying = s.dying := by
  simp only [set_bonus, apply_ite Prod.snd, apply_ite Player.dead, apply_ite Player.dying,
    set_bonus_commit_life, stop_climbing_life, adjust_height_frame, adjust_height_frame_more,
    ite_self, and_self]

/-- The member `add_bonus` changes neither `dead` nor `dying`. -/
theorem add_bonus_life (env : Env) (s : Player) (type : BonusType) (animate : Bool) :
    (add_bonus env s type animate).2.dead = s.dead
      ∧ (add_bonus env s type animate).2.dying = s.dying := by
  simp only [add_bonus, apply_ite Prod.snd, apply_ite Player.dead, apply_ite Player.dying,
    set_bonus_life, ite_self, and_self]

/-- The member `set_ghost_mode` changes neither `dead` nor `dying`. -/
theorem set_ghost_mode_life (env : Env) (s : Player) (enable : Bool) :
    (set_ghost_mode env s enable).dead = s.dead
      ∧ (set_ghost_mode env s enable).dying = s.dying := by
  obtain ⟨gm, gr, c, g, u, ph, j, og, cj, snd, lg, h, -⟩ := set_ghost_mode_shape env s enable
  rw [h]
  exact ⟨rfl, rfl⟩

/-- The member `kill` never changes `dead` and never clears `dying`. -/
theorem kill_life (env : Env) (s : Player) (completely : Bool) :
    (kill env s completely).dead = s.dead
      ∧ (s.dying = true → (kill env s completely).dying = true) := by
  constructor
  · have hb : (kill_begin env s).dead = s.dead := by
      obtain ⟨g, u, ph, j, og, cj, snd, h⟩ := kill_begin_shape env s
      rw [h]
    simp only [kill, kill_demote, kill_die, set_group, apply_ite Player.dead, set_bonus_life,
      set_ghost_mode_life, adjust_height_frame_more, add_falling_coins_frame, hb, ite_self]
  · intro h
    rw [kill_of_dying_or_deactivated env s completely (Or.inl h)]
    exact h

/-- The member `do_standup` never changes `dead` and never clears `dying`. -/
theorem do_standup_life (env : Env) (s : Player) :
    (do_standup env s).dead = s.dead
      ∧ (s.dying = true → (do_standup env s).dying = true) := by
  constructor
  · simp only [do_standup, apply_ite Player.dead, kill_life, adjust_height_frame_more, ite_self]
  · intro h
    simp only [do_standup, apply_ite Player.dying, kill_life, adjust_height_frame, h, ite_self]

/-- The member `try_grab` changes neither `dead` nor `dying`. -/
theorem try_grab_life (env : Env) (s : Player) :
    (try_grab env s).dead = s.dead ∧ (try_grab env s).dying = s.dying := by
  unfold try_grab
  split_ifs
  · rw [try_grab_loop_eq_find]
    cases List.find? (within_reach (try_grab_reach s)) env.portables with
    | none => exact ⟨rfl, rfl⟩
    | some p => exact ⟨(grab_portable_spec env s p).2.2.1, (grab_portable_spec env s p).2.2.2⟩
  · exact ⟨rfl, rfl⟩

/-- Ghost-mode input handling changes neither `dead` nor `dying`. -/
theorem handle_input_ghost_life (env : Env) (s : Player) :
    (handle_input_ghost env s).dead = s.dead ∧ (handle_input_ghost env s).dying = s.dying := by
  simp only [handle_input_ghost, apply_ite Player.dead, apply_ite Player.dying,
    set_ghost_mode_life, ite_self, and_self]

/-- Climbing input handling changes neither `dead` nor `dying`. -/
theorem handle_input_climbing_life (env : Env) (s : Player) :
    (handle_input_climbing env s).dead = s.dead
      ∧ (handle_input_climbing env s).dying = s.dying := by
  simp only [handle_input_climbing, apply_ite Player.dead, apply_ite Player.dying,
    stop_climbing_life, ite_self, and_self]

/-- The member `handle_input` never changes `dead` and never clears `dying`. -/
theorem handle_input_life (env : Env) (s : Player) :
    (handle_input env s).dead = s.dead
      ∧ (s.dying = true → (handle_input env s).dying = true) := by
  constructor
  · simp only [handle_input, apply_ite Player.dead, handle_input_ghost_life,
      handle_input_climbing_life, handle_release_frame, try_grab_life, do_duck_frame,
      do_standup_life, handle_shooting_frame, handle_vertical_input_frame, handle_jump_key_frame,
      handle_horizontal_input_frame, handle_peeking_frame, ite_self]
  · intro h
    simp only [handle_input, apply_ite Player.dying, apply_ite Player.dead,
      handle_input_ghost_life,
      handle_input_climbing_life, handle_release_frame, try_grab_life, do_duck_frame,
      do_standup_life, handle_shooting_frame, handle_vertical_input_frame, handle_jump_key_frame,
      handle_horizontal_input_frame, handle_peeking_frame, h, ite_self]

/-- The member `collision_tile` never changes `dead` and never clears `dying`. -/
theorem collision_tile_life (env : Env) (s : Player) (tile_attributes : TileAttributes) :
    (collision_tile env s tile_attributes).dead = s.dead
      ∧ (s.dying = true → (collision_tile env s tile_attributes).dying = true) := by
  constructor
  · simp only [collision_tile, apply_ite Player.dead, kill_life, ite_self]
  · intro h
    simp only [collision_tile, apply_ite Player.dying, kill_life, h, ite_self]

/-- The member `collision_solid` never changes `dead` and never clears `dying`. -/
theorem collision_solid_life (env : Env) (s : Player) (hit : CollisionHit) :
    (collision_solid env s hit).dead = s.dead
      ∧ (s.dying = true → (collision_solid env s hit).dying = true) := by
  constructor
  · simp only [collision_solid, add_object, apply_ite Player.dead, kill_life, ite_self]
  · intro h
    simp only [collision_solid, add_object, apply_ite Player.dying, kill_life, h, ite_self]

/-- The member `collision` changes neither `dead` nor `dying`. -/
theorem collision_life (env : Env) (s : Player) (other : OtherObject) (hit : CollisionHit) :
    (collision env s other hit).2.dead = s.dead
      ∧ (collision env s other hit).2.dying = s.dying := by
  unfold collision
  cases other.trigger <;>
    simp only [apply_ite Prod.snd, apply_ite Player.dead, apply_ite Player.dying, try_grab_life,
      ite_self, and_self]

/-- The statements of `update` before the movement never change `dead` and never
clear `dying`. -/
theorem update_motion_life (env : Env) (s : Player) :
    (update_motion env s).dead = s.dead
      ∧ (s.dying = true → (update_motion env s).dying = true) := by
  constructor
  · simp only [update_motion, update_landed, update_fall_mode, update_before_fall_mode,
      update_backflip, update_slope, update_width, update_input, set_width,
      apply_ite Player.dead, handle_input_life,
      apply_friction_frame, do_standup_life, ite_self]
  · intro h
    simp only [update_motion, update_landed, update_fall_mode, update_before_fall_mode,
      update_backflip, update_slope, update_width, update_input, set_width,
      apply_ite Player.dying, handle_input_life,
      apply_friction_frame, do_standup_life, h, Bool.true_eq_false, false_and, if_false,
      ite_self]

/-- The statements of `update` from the movement on change neither `dead` nor `dying`. -/
theorem update_finish_life (env : Env) (s : Player) (elapsed_time : ℚ) :
    (update_finish env s elapsed_time).dead = s.dead
      ∧ (update_finish env s elapsed_time).dying = s.dying := by
  unfold update_finish
  cases s.grabbed_object <;>
    simp only [add_object, apply_ite Player.dead, apply_ite Player.dying, ite_self, and_self]

/-- After `init` the player is neither dying nor dead. -/
theorem init_life (s : Player) : (init s).dead = false ∧ (init s).dying = false := by
  simp only [init, and_self]

/-- The first statements of `update` change neither `dead`, `dying` nor the dying timer. -/
theorem update_no_water_life (s : Player) :
    (update_no_water s).dead = s.dead
      ∧ (update_no_water s).dying = s.dying
      ∧ (update_no_water s).dying_timer = s.dying_timer := by
  simp only [update_no_water, apply_ite Player.dead, apply_ite Player.dying,
    apply_ite Player.dying_timer, ite_self, and_self]

/-- The member `update` keeps `dead_implies_dying`. -/
theorem update_dead_implies_dying (env : Env) (s : Player) (elapsed_time : ℚ)
    (h : dead_implies_dying s) : dead_implies_dying (update env s elapsed_time) := by
  obtain ⟨w1, w2, -⟩ := update_no_water_life s
  simp only [update]
  generalize update_no_water s = s0 at w1 w2
  split_ifs with hd
  · exact fun _ => hd.1
  · intro hdead
    rw [(update_finish_life env _ elapsed_time).1, (update_motion_life env _).1, w1] at hdead
    rw [(update_finish_life env _ elapsed_time).2]
    apply (update_motion_life env _).2
    rw [w2]
    exact h hdead

/-- When the dying timer of a dying player has elapsed, `update` sets `dead` and
leaves `dying` set. -/
theorem update_of_dying_timer_elapsed (env : Env) (s : Player) (elapsed_time : ℚ)
    (hd : s.dying = true) (ht : (s.dying_timer.check env.game_time).1 = true) :
    (update env s elapsed_time).dead = true ∧ (update env s elapsed_time).dying = true := by
  obtain ⟨-, w2, w3⟩ := update_no_water_life s
  simp only [update, w2, w3, hd, ht, and_self, if_true]

/-- The fields set by `init` that the landing and ducking code reads. -/
theorem init_spec (s : Player) :
    (init s).duck = false
      ∧ (init s).backflipping = false
      ∧ (init s).does_buttjump = false
      ∧ (init s).on_ground_flag = false
      ∧ (init s).climbing = none
      ∧ (init s).physic.vy = 0
      ∧ (init s).player_status = s.player_status
      ∧ (init s).bbox = if s.is_big then s.bbox.set_size 31.8 62.8 else s.bbox.set_size 31.8 30.8 := by
  simp only [init, set_size, Physic.reset, apply_ite Player.player_status,
    apply_ite Player.bbox, ite_self, and_self]

/-- A hit on the bottom edge alone grounds a player who is neither falling nor
butt-jumping, and changes nothing else but the floor normal. -/
theorem collision_solid_of_bottom (env : Env) (s : Player) (hit : CollisionHit)
    (hb : hit.bottom = true) (hl : hit.left = false) (hr : hit.right = false)
    (hc : hit.crush = false) (hbj : s.does_buttjump = false) (hv : s.physic.vy = 0) :
    collision_solid env s hit
      = { s with on_ground_flag := true, floor_normal := hit.slope_normal } := by
  simp [collision_solid, hb, hl, hr, hc, hbj, hv]

/-- The branch of `do_duck` that ducks. -/
theorem do_duck_of_standing (env : Env) (s : Player) (hd : s.duck = false)
    (hb : s.is_big = true) (hv : s.physic.vy = 0) (hg : s.on_ground = true)
    (hbj : s.does_buttjump = false) (ha : (s.adjust_height env 31.8).1 = true) :
    do_duck env s
      = { (s.adjust_height env 31.8).2 with
          duck := true, growing := false, unduck_hurt_timer := Timer.stop env.game_time } := by
  simp [do_duck, hd, hb, hv, hg, hbj, ha]

/-- A ducked player on the ground starts the backflip and stays ducked. -/
theorem do_backflip_of_duck (env : Env) (s : Player) (hd : s.duck = true)
    (hg : s.on_ground = true) :
    (do_backflip env s).backflipping = true ∧ (do_backflip env s).duck = true := by
  simp [do_backflip, hd, hg, play_sound, do_jump_frame]

/-- For a player who is not climbing, `move` gives big Tux the height 63.8, clears
`duck` and keeps `backflipping`. -/
theorem move_of_big (env : Env) (s : Player) (vector : Vector) (hc : s.climbing = none)
    (hb : s.is_big = true) :
    (move env s vector).bbox.get_height = 63.8
      ∧ (move env s vector).duck = false
      ∧ (move env s vector).backflipping = s.backflipping := by
  have hb2 : (s.set_pos vector).is_big = true := hb
  have hc2 : ({ ({ (s.set_pos vector).set_size 31.8 63.8 with duck := false } : Player) with
      last_ground_y := vector.y } : Player).climbing = none := hc
  have h := stop_climbing_if_climbing_of_none env _ hc2
  refine ⟨?_, ?_, ?_⟩
  · simp only [move, hb2, if_true, h]
    simp [set_size, set_pos, Rect.set_size, Rect.set_height, Rect.set_width, Rect.get_height]
  · simp only [move, hb2, if_true, h]
  · simp only [move, hb2, if_true, h]
    rfl

/-- On a small player that is not climbing, a `set_bonus` whose `adjust_height(62.8)`
succeeds leaves the box that `adjust_height` committed. -/
theorem set_bonus_of_small_bbox (env : Env) (s : Player) (type : BonusType) (animate : Bool)
    (hc : s.climbing = none) (hb : s.player_status.bonus = BonusType.NO_BONUS)
    (ha : (s.adjust_height env 62.8).1 = true) :
    (set_bonus env s type animate).2.bbox = (s.adjust_height env 62.8).2.bbox := by
  have hcl : ∀ t : Player, t.climbing = none →
      (set_bonus_commit env t type animate).bbox = t.bbox := by
    intro t ht
    obtain ⟨dbj, objs, st, h, _⟩ := set_bonus_commit_shape env t type animate ht
    rw [h]
  have hac : (s.adjust_height env 62.8).2.climbing = none := by
    rw [(adjust_height_frame env s 62.8).1, hc]
  simp only [set_bonus, hb, if_true, ha, Bool.not_true, Bool.false_eq_true, if_false]
  cases animate
  · have h1 := stop_climbing_if_climbing_of_none env (s.adjust_height env 62.8).2 hac
    simp only [Bool.false_eq_true, if_false, h1]
    exact hcl _ hac
  · have hac2 : ({ (s.adjust_height env 62.8).2 with
        growing := true,
        sprite_action := if (s.adjust_height env 62.8).2.dir = Direction.LEFT then "grow-left"
          else "grow-right" } : Player).climbing = none := hac
    have h1 := stop_climbing_if_climbing_of_none env _ hac2
    simp only [if_true, h1]
    exact hcl _ hac2

/-- The raise `early_jump_apex` and the restore `do_jump_apex` on gravity and flag. -/
theorem early_jump_apex_spec (s : Player) :
    (s.jump_early_apex = true → early_jump_apex s = s)
      ∧ (s.jump_early_apex = false →
          early_jump_apex s
            = { s with jump_early_apex := true,
                       physic := s.physic.set_gravity (s.physic.gravity * 3) })
      ∧ (s.jump_early_apex = false → do_jump_apex s = s)
      ∧ (s.jump_early_apex = true →
          do_jump_apex s
            = { s with jump_early_apex := false,
                       physic := s.physic.set_gravity (s.physic.gravity / 3) }) := by
  refine ⟨?_, ?_, ?_, ?_⟩ <;> intro h <;>
    simp [early_jump_apex, do_jump_apex, h, JUMP_EARLY_APEX_FACTOR]

/-- The calls `do_jump` and `do_backflip` touch neither the early-apex flag nor
gravity. -/
theorem do_jump_apex_fields (env : Env) (s : Player) (yspeed : ℚ) :
    (do_jump s yspeed).jump_early_apex = s.jump_early_apex
      ∧ (do_jump s yspeed).physic.gravity = s.physic.gravity
      ∧ (do_backflip env s).jump_early_apex = s.jump_early_apex
      ∧ (do_backflip env s).physic.gravity = s.physic.gravity := by
  have h1 : ∀ (t : Player) (y : ℚ), (do_jump t y).jump_early_apex = t.jump_early_apex
      ∧ (do_jump t y).physic.gravity = t.physic.gravity := by
    intro t y
    simp only [do_jump, play_sound]
    split_ifs <;> exact ⟨rfl, rfl⟩
  refine ⟨(h1 s yspeed).1, (h1 s yspeed).2, ?_, ?_⟩
  · simp only [do_backflip, play_sound, apply_ite Player.jump_early_apex, h1, ite_self]
  · simp only [do_backflip, play_sound, apply_ite Player.physic, apply_ite Physic.gravity, h1,
      ite_self]

/-- The jump-key statements of `handle_vertical_input` on a player whose early-apex
flag is clear: the flag is set exactly in the release branch, and gravity is
then tripled. -/
theorem handle_jump_key_raise (env : Env) (s : Player) (h : s.jump_early_apex = false) :
    ((handle_jump_key env s).jump_early_apex = true ↔
        (env.hold Control.JUMP = false ∧ s.backflipping = false ∧ s.jumping = true
          ∧ s.physic.vy < 0))
      ∧ ((handle_jump_key env s).jump_early_apex = true →
          (handle_jump_key env s).physic.gravity = s.physic.gravity * 3
            ∧ (handle_jump_key env s).physic.vy = s.physic.vy
            ∧ (handle_jump_key env s).jumping = false)
      ∧ ((handle_jump_key env s).jump_early_apex = false →
          (handle_jump_key env s).physic.gravity = s.physic.gravity) := by
  have hj := fun (t : Player) (y : ℚ) =>
    (⟨(do_jump_apex_fields env t y).1, (do_jump_apex_fields env t y).2.1⟩ :
      (do_jump t y).jump_early_apex = t.jump_early_apex
        ∧ (do_jump t y).physic.gravity = t.physic.gravity)
  have hb := fun (t : Player) => (do_jump_apex_fields env t 0).2.2
  cases hh : env.hold Control.JUMP
  · by_cases hc : s.backflipping = false ∧ s.jumping = true ∧ s.physic.vy < 0
    · cases hp : env.pressed Control.JUMP <;>
        simp [handle_jump_key, early_jump_apex, JUMP_EARLY_APEX_FACTOR, Physic.set_gravity,
          hh, hp, h, hc]
    · cases hp : env.pressed Control.JUMP <;>
        simp [handle_jump_key, hh, hp, h, hc]
  · simp only [handle_jump_key, hh, true_and, Bool.not_true, Bool.false_eq_true, if_false,
      false_and, iff_false]
    cases hp : env.pressed Control.JUMP <;>
      simp only [Bool.false_eq_true, if_false, if_true, apply_ite Player.jump_early_apex,
        apply_ite Player.physic, apply_ite Physic.gravity, hj, hb, h, ite_self,
        Bool.false_eq_true, not_false_eq_true, false_implies, implies_true, and_self] <;>
      simp

/-- The statements of `handle_vertical_input` after the jump key touch the early-apex
flag and gravity only through the restore `do_jump_apex`, made when the flag
is set and the vertical velocity is not negative. -/
theorem handle_vertical_input_restore (env : Env) (s : Player) :
    (handle_vertical_input env s).jump_early_apex
        = (if (handle_jump_key env s).jump_early_apex = true
              ∧ (handle_jump_key env s).physic.vy ≥ 0 then false
            else (handle_jump_key env s).jump_early_apex)
      ∧ (handle_vertical_input env s).physic.gravity
        = (if (handle_jump_key env s).jump_early_apex = true
              ∧ (handle_jump_key env s).physic.vy ≥ 0 then
            (handle_jump_key env s).physic.gravity / 3
            else (handle_jump_key env s).physic.gravity) := by
  simp only [handle_vertical_input]
  generalize handle_jump_key env s = m
  by_cases hc : m.jump_early_apex = true ∧ m.physic.vy ≥ 0
  · have h := (early_jump_apex_spec m).2.2.2 hc.1
    simp only [if_pos hc, h]
    constructor <;> split_ifs <;> rfl
  · simp only [if_neg hc]
    constructor <;> split_ifs <;> rfl

/-- The member `stop_climbing` on a climbing player. -/
theorem stop_climbing_of_climbing (env : Env) (s : Player) (hc : s.climbing ≠ none) :
    (stop_climbing env s).climbing = none
      ∧ (stop_climbing env s).physic.gravity_enabled = true
      ∧ (stop_climbing env s).physic.ax = 0
      ∧ (stop_climbing env s).physic.ay = 0
      ∧ (stop_climbing env s).physic.vx = 0
      ∧ (env.hold Control.JUMP = false ∧ env.hold Control.UP = false →
          (stop_climbing env s).physic.vy = 0
            ∧ (stop_climbing env s).jumping = s.jumping
            ∧ (stop_climbing env s).can_jump = s.can_jump)
      ∧ (env.hold Control.JUMP = true ∨ env.hold Control.UP = true →
          (stop_climbing env s).physic.vy = -300
            ∧ (stop_climbing env s).jumping = true
            ∧ (stop_climbing env s).can_jump = false) := by
  cases hcl : s.climbing with
  | none => exact absurd hcl hc
  | some c =>
    cases hg : s.grabbed_object <;> cases hj : env.hold Control.JUMP <;>
      cases hu : env.hold Control.UP <;>
      simp [stop_climbing, do_jump, play_sound, on_ground, hcl, hg, hj, hu,
        Physic.enable_gravity, Physic.set_velocity, Physic.set_acceleration,
        Physic.set_velocity_y, apply_ite Player.physic, apply_ite Player.climbing,
        apply_ite Player.jumping, apply_ite Player.can_jump]

/-- The branch of `do_standup` that stands up. -/
theorem do_standup_of_ducked (env : Env) (s : Player) (hd : s.duck = true)
    (hb : s.is_big = true) (hbf : s.backflipping = false)
    (ha : (s.adjust_height env 63.8).1 = true) :
    do_standup env s
      = { (s.adjust_height env 63.8).2 with
          duck := false, unduck_hurt_timer := Timer.stop env.game_time } := by
  simp [do_standup, hd, hb, hbf, ha]

/-- The landed big sample player: standing, on the ground, in a box of height 62.8
whose top edge is at -32. -/
theorem landed_player_spec :
    landed_player.duck = false
      ∧ landed_player.is_big = true
      ∧ landed_player.physic.vy = 0
      ∧ landed_player.on_ground = true
      ∧ landed_player.does_buttjump = false
      ∧ landed_player.backflipping = false
      ∧ landed_player.climbing = none
      ∧ landed_player.bbox = ⟨⟨0, -32⟩, ⟨31.8, 30.8⟩⟩ := by
  have hi := init_spec big_player
  have hbig : big_player.is_big = true := by
    simp [big_player, sample_player_with, is_big]
  have hland : landed_player
      = { init big_player with
          on_ground_flag := true, floor_normal := bottom_hit.slope_normal } :=
    collision_solid_of_bottom (sample_env true) (init big_player) bottom_hit
      rfl rfl rfl rfl hi.2.2.1 hi.2.2.2.2.2.1
  rw [hland]
  refine ⟨hi.1, ?_, hi.2.2.2.2.2.1, rfl, hi.2.2.1, hi.2.1, hi.2.2.2.2.1, ?_⟩
  · simp only [is_big, hi.2.2.2.2.2.2.1]
    exact hbig
  · show (init big_player).bbox = _
    rw [hi.2.2.2.2.2.2.2, hbig]
    simp [big_player, sample_player_with, Rect.set_size, Rect.set_width, Rect.set_height]
    norm_num

/-- Ducking from the standing height and standing up again, with free space above:
`do_duck` commits `adjust_height(31.8)` and `do_standup` commits
`adjust_height(63.8)`, so the box keeps its bottom and side edges and ends
63.8 high, and `duck` is false. -/
theorem do_standup_do_duck (env : Env) (s : Player)
    (hd : s.duck = false) (hb : s.is_big = true) (hv : s.physic.vy = 0)
    (hg : s.on_ground = true) (hbj : s.does_buttjump = false) (hbf : s.backflipping = false)
    (hfree : ∀ r : Rect, env.is_free_of_statics r = true) :
    (do_standup env (do_duck env s)).bbox
        = ⟨⟨s.bbox.p1.x, s.bbox.p2.y - 63.8⟩, ⟨s.bbox.p2.x, s.bbox.p2.y⟩⟩
      ∧ (do_standup env (do_duck env s)).duck = false
      ∧ (do_duck env s).duck = true
      ∧ (do_duck env s).bbox
        = ⟨⟨s.bbox.p1.x, s.bbox.p2.y - 31.8⟩, ⟨s.bbox.p2.x, s.bbox.p2.y⟩⟩ := by
  have ha : (s.adjust_height env 31.8).1 = true := by
    rw [adjust_height_true_iff]
    exact Or.inr (hfree _)
  have hduck := do_duck_of_standing env s hd hb hv hg hbj ha
  have hdbox := adjust_height_true_bbox env s 31.8 ha
  have hfr := adjust_height_frame env s 31.8
  have hfm := adjust_height_frame_more env s 31.8
  have hdd : (do_duck env s).duck = true := by rw [hduck]
  have hdb : (do_duck env s).is_big = true := by
    rw [hduck]
    simp only [is_big, hfr.2.1]
    exact hb
  have hdf : (do_duck env s).backflipping = false := by
    rw [hduck]
    show (s.adjust_height env 31.8).2.backflipping = false
    rw [hfm.2.2.2.2.2.1, hbf]
  have hdbb : (do_duck env s).bbox
      = ⟨⟨s.bbox.p1.x, s.bbox.p2.y - 31.8⟩, ⟨s.bbox.p2.x, s.bbox.p2.y⟩⟩ := by
    rw [hduck]
    exact hdbox
  have ha2 : ((do_duck env s).adjust_height env 63.8).1 = true := by
    rw [adjust_height_true_iff]
    exact Or.inr (hfree _)
  have hst := do_standup_of_ducked env (do_duck env s) hdd hdb hdf ha2
  have hsbox := adjust_height_true_bbox env (do_duck env s) 63.8 ha2
  refine ⟨?_, ?_, hdd, hdbb⟩
  · rw [hst]
    show ((do_duck env s).adjust_height env 63.8).2.bbox = _
    rw [hsbox, hdbb]
  · rw [hst]

/-- The branch on the action key caps the velocity component in the held direction
at the walk or the run maximum. -/
theorem horizontal_limit_cap (walk_only : Bool) (vx d : ℚ) (hd : d = 1 ∨ d = -1) :
    (horizontal_limit walk_only vx d).1 * d
      ≤ (if walk_only = true then MAX_WALK_XM else MAX_RUN_XM) := by
  rcases hd with hd | hd <;> subst hd <;> cases walk_only <;>
    simp only [horizontal_limit, MAX_WALK_XM, MAX_RUN_XM, Bool.false_eq_true, if_false, if_true] <;>
    split_ifs <;> norm_num at * <;> linarith

/-- The snap to `WALK_SPEED` and the speed limit keep a cap of at least 100, and
enforce a positive speed limit. -/
theorem horizontal_snap_cap (speedlimit d cap : ℚ) (va : ℚ × ℚ) (hd : d = 1 ∨ d = -1)
    (hcap : 100 ≤ cap) (h : va.1 * d ≤ cap) :
    (horizontal_snap speedlimit d va).1 * d ≤ cap
      ∧ (speedlimit > 0 → (horizontal_snap speedlimit d va).1 * d ≤ speedlimit) := by
  rcases hd with hd | hd <;> subst hd <;>
    simp only [horizontal_snap, WALK_SPEED] <;>
    split_ifs <;> constructor <;> intros <;> norm_num at * <;>
    first | linarith | (simp_all; linarith)

/-- The member `move` changes neither `dead` nor `dying`. -/
theorem move_life (env : Env) (s : Player) (vector : Vector) :
    (move env s vector).dead = s.dead ∧ (move env s vector).dying = s.dying := by
  simp only [move, set_pos, set_size, apply_ite Player.dead, apply_ite Player.dying,
    stop_climbing_life, ite_self, and_self]

/-- The branch of `update` taken by a dying player whose timer has elapsed. -/
theorem update_of_dying_timer_elapsed_eq (env : Env) (s : Player) (elapsed_time : ℚ)
    (hd : s.dying = true) (ht : (s.dying_timer.check env.game_time).1 = true) :
    update env s elapsed_time
      = { s with
          swimming := if s.no_water = true then false else s.swimming
          no_water := true
          dying_timer := (s.dying_timer.check env.game_time).2
          dead := true } := by
  have h1 : (update_no_water s).dying = true := by
    rw [(update_no_water_life s).2.1, hd]
  have h2 : (update_no_water s).dying_timer = s.dying_timer := (update_no_water_life s).2.2
  simp only [update, h1, h2, ht, and_self, if_true]
  cases hn : s.no_water <;> simp [update_no_water, hn, hd]

/-- The member `update` sets `dead` only for a dying player whose timer has elapsed. -/
theorem update_dead_iff (env : Env) (s : Player) (elapsed_time : ℚ) :
    (update env s elapsed_time).dead = true ↔
      s.dead = true ∨ (s.dying = true ∧ (s.dying_timer.check env.game_time).1 = true) := by
  have h0 := update_no_water_life s
  by_cases hc : s.dying = true ∧ (s.dying_timer.check env.game_time).1 = true
  · rw [update_of_dying_timer_elapsed_eq env s elapsed_time hc.1 hc.2]
    simp [hc]
  · have hc2 : ¬ ((update_no_water s).dying = true
        ∧ ((update_no_water s).dying_timer.check env.game_time).1 = true) := by
      rw [h0.2.1, h0.2.2]
      exact hc
    simp only [update, if_neg hc2]
    rw [(update_finish_life env _ elapsed_time).1, (update_motion_life env _).1, h0.1]
    simp [hc]

/-- The climbing exits change neither the fall mode, the last ground height nor the
facing direction. -/
theorem stop_climbing_trend (env : Env) (s : Player) :
    (stop_climbing_if_climbing env s).fall_mode = s.fall_mode
      ∧ (stop_climbing_if_climbing env s).last_ground_y = s.last_ground_y
      ∧ (stop_climbing_if_climbing env s).dir = s.dir := by
  obtain ⟨g, u, ph, j, og, cj, snd, h⟩ := stop_climbing_if_climbing_shape env s
  rw [h]
  exact ⟨rfl, rfl, rfl⟩

/-- The resize `adjust_height` changes neither the fall mode, the last ground height
nor the facing direction. -/
theorem adjust_height_trend (env : Env) (s : Player) (new_height : ℚ) :
    (s.adjust_height env new_height).2.fall_mode = s.fall_mode
      ∧ (s.adjust_height env new_height).2.last_ground_y = s.last_ground_y
      ∧ (s.adjust_height env new_height).2.dir = s.dir := by
  rw [adjust_height_eq_with_bbox]
  exact ⟨rfl, rfl, rfl⟩

/-- The second part of `set_bonus` changes neither the fall mode, the last ground
height nor the facing direction. -/
theorem set_bonus_commit_trend (env : Env) (s : Player) (type : BonusType) (animate : Bool) :
    (set_bonus_commit env s type animate).fall_mode = s.fall_mode
      ∧ (set_bonus_commit env s type animate).last_ground_y = s.last_ground_y
      ∧ (set_bonus_commit env s type animate).dir = s.dir := by
  simp only [set_bonus_commit, add_object, apply_ite Player.fall_mode,
    apply_ite Player.last_ground_y, apply_ite Player.dir, stop_climbing_trend, ite_self,
    and_self]

/-- The member `set_bonus` changes neither the fall mode, the last ground height nor
the facing direction. -/
theorem set_bonus_trend (env : Env) (s : Player) (type : BonusType) (animate : Bool) :
    (set_bonus env s type animate).2.fall_mode = s.fall_mode
      ∧ (set_bonus env s type animate).2.last_ground_y = s.last_ground_y
      ∧ (set_bonus env s type animate).2.dir = s.dir := by
  simp only [set_bonus, apply_ite Prod.snd, apply_ite Player.fall_mode,
    apply_ite Player.last_ground_y, apply_ite Player.dir, set_bonus_commit_trend,
    stop_climbing_trend, adjust_height_trend, ite_self, and_self]

/-- The member `set_ghost_mode` changes neither the fall mode, the last ground height
nor the facing direction. -/
theorem set_ghost_mode_trend (env : Env) (s : Player) (enable : Bool) :
    (set_ghost_mode env s enable).fall_mode = s.fall_mode
      ∧ (set_ghost_mode env s enable).last_ground_y = s.last_ground_y
      ∧ (set_ghost_mode env s enable).dir = s.dir := by
  obtain ⟨gm, gr, c, g, u, ph, j, og, cj, snd, lg, h, -⟩ := set_ghost_mode_shape env s enable
  rw [h]
  exact ⟨rfl, rfl, rfl⟩

/-- The member `kill` changes neither the fall mode, the last ground height nor the
facing direction. -/
theorem kill_trend (env : Env) (s : Player) (completely : Bool) :
    (kill env s completely).fall_mode = s.fall_mode
      ∧ (kill env s completely).last_ground_y = s.last_ground_y
      ∧ (kill env s completely).dir = s.dir := by
  have hb : (kill_begin env s).fall_mode = s.fall_mode
      ∧ (kill_begin env s).last_ground_y = s.last_ground_y
      ∧ (kill_begin env s).dir = s.dir := by
    obtain ⟨g, u, ph, j, og, cj, snd, h⟩ := kill_begin_shape env s
    rw [h]
    exact ⟨rfl, rfl, rfl⟩
  have hc : ∀ (n : Nat) (t : Player), (add_falling_coins n t).fall_mode = t.fall_mode
      ∧ (add_falling_coins n t).last_ground_y = t.last_ground_y
      ∧ (add_falling_coins n t).dir = t.dir := by
    intro n t
    rw [add_falling_coins_shape]
    exact ⟨rfl, rfl, rfl⟩
  simp only [kill, kill_demote, kill_die, set_group, apply_ite Player.fall_mode,
    apply_ite Player.last_ground_y, apply_ite Player.dir, set_bonus_trend,
    set_ghost_mode_trend, adjust_height_trend, hc, hb, ite_self, and_self]

/-- The member `do_standup` changes neither the fall mode, the last ground height nor
the facing direction. -/
theorem do_standup_trend (env : Env) (s : Player) :
    (do_standup env s).fall_mode = s.fall_mode
      ∧ (do_standup env s).last_ground_y = s.last_ground_y
      ∧ (do_standup env s).dir = s.dir := by
  simp only [do_standup, apply_ite Player.fall_mode, apply_ite Player.last_ground_y,
    apply_ite Player.dir, kill_trend, adjust_height_trend, ite_self, and_self]

/-- The landing statement of `update` changes neither the fall mode, the last ground
height nor the facing direction. -/
theorem update_landed_trend (env : Env) (s : Player) :
    (update_landed env s).fall_mode = s.fall_mode
      ∧ (update_landed env s).last_ground_y = s.last_ground_y
      ∧ (update_landed env s).dir = s.dir := by
  simp only [update_landed, apply_ite Player.fall_mode, apply_ite Player.last_ground_y,
    apply_ite Player.dir, do_standup_trend, ite_self, and_self]

/-- The statements of `update` from the movement on change neither the fall mode, the
last ground height nor the facing direction. -/
theorem update_finish_trend (env : Env) (s : Player) (elapsed_time : ℚ) :
    (update_finish env s elapsed_time).fall_mode = s.fall_mode
      ∧ (update_finish env s elapsed_time).last_ground_y = s.last_ground_y
      ∧ (update_finish env s elapsed_time).dir = s.dir := by
  unfold update_finish
  cases s.grabbed_object <;>
    simp only [add_object, apply_ite Player.fall_mode, apply_ite Player.last_ground_y,
      apply_ite Player.dir, ite_self, and_self]

/-- The fall-mode statement of `update`, case by case. -/
theorem update_fall_mode_spec (s : Player) :
    (s.on_ground = true →
        (update_fall_mode s).fall_mode = FallMode.ON_GROUND
          ∧ (update_fall_mode s).last_ground_y = s.bbox.p1.y)
      ∧ (s.on_ground = false → s.bbox.p1.y > s.last_ground_y →
        (update_fall_mode s).fall_mode = FallMode.FALLING
          ∧ (update_fall_mode s).last_ground_y = s.last_ground_y)
      ∧ (s.on_ground = false → s.bbox.p1.y ≤ s.last_ground_y →
        (update_fall_mode s).fall_mode
            = (if s.fall_mode = FallMode.ON_GROUND then FallMode.JUMPING else s.fall_mode)
          ∧ (update_fall_mode s).last_ground_y = s.last_ground_y) := by
  refine ⟨?_, ?_, ?_⟩
  · intro h
    simp [update_fall_mode, h]
  · intro h1 h2
    simp [update_fall_mode, h1, h2]
  · intro h1 h2
    simp only [update_fall_mode, h1, Bool.false_eq_true, if_false, if_neg (not_lt.mpr h2)]
    split_ifs <;> exact ⟨rfl, rfl⟩

/-- After the dying check, `update` runs its statements in order; the fall mode and
the last ground height at its end are those set by the fall-mode statement. -/
theorem update_fall_mode_final (env : Env) (s : Player) (elapsed_time : ℚ)
    (hcheck : ¬ (s.dying = true ∧ (s.dying_timer.check env.game_time).1 = true)) :
    (update env s elapsed_time).fall_mode
        = (update_fall_mode (update_before_fall_mode env (update_no_water s))).fall_mode
      ∧ (update env s elapsed_time).last_ground_y
        = (update_fall_mode (update_before_fall_mode env (update_no_water s))).last_ground_y := by
  have h0 := update_no_water_life s
  have hc2 : ¬ ((update_no_water s).dying = true
      ∧ ((update_no_water s).dying_timer.check env.game_time).1 = true) := by
    rw [h0.2.1, h0.2.2]
    exact hcheck
  simp only [update, if_neg hc2, update_motion]
  rw [(update_finish_trend env _ elapsed_time).1, (update_finish_trend env _ elapsed_time).2.1,
    (update_landed_trend env _).1, (update_landed_trend env _).2.1]
  exact ⟨rfl, rfl⟩

/-- The member `do_jump` changes none of the backflip fields, the facing direction,
the fall mode and the last ground height. -/
theorem do_jump_pose (s : Player) (yspeed : ℚ) :
    (do_jump s yspeed).backflipping = s.backflipping
      ∧ (do_jump s yspeed).backflip_direction = s.backflip_direction
      ∧ (do_jump s yspeed).dir = s.dir
      ∧ (do_jump s yspeed).fall_mode = s.fall_mode
      ∧ (do_jump s yspeed).last_ground_y = s.last_ground_y := by
  simp only [do_jump, play_sound]
  split_ifs <;> exact ⟨rfl, rfl, rfl, rfl, rfl⟩

/-- The climbing exits change none of the backflip fields. -/
theorem stop_climbing_flip (env : Env) (s : Player) :
    (stop_climbing_if_climbing env s).backflipping = s.backflipping
      ∧ (stop_climbing_if_climbing env s).backflip_direction = s.backflip_direction
      ∧ (stop_climbing env s).backflipping = s.backflipping
      ∧ (stop_climbing env s).backflip_direction = s.backflip_direction
      ∧ (stop_climbing env s).fall_mode = s.fall_mode
      ∧ (stop_climbing env s).last_ground_y = s.last_ground_y
      ∧ (stop_climbing env s).dir = s.dir := by
  rw [← stop_climbing_if_climbing_eq]
  obtain ⟨g, u, ph, j, og, cj, snd, h⟩ := stop_climbing_if_climbing_shape env s
  rw [h]
  exact ⟨rfl, rfl, rfl, rfl, rfl, rfl, rfl⟩

/-- The peeking statements change none of the backflip fields, the facing direction,
the fall mode and the last ground height. -/
theorem handle_peeking_pose (env : Env) (s : Player) :
    (handle_peeking env s).backflipping = s.backflipping
      ∧ (handle_peeking env s).backflip_direction = s.backflip_direction
      ∧ (handle_peeking env s).dir = s.dir
      ∧ (handle_peeking env s).fall_mode = s.fall_mode
      ∧ (handle_peeking env s).last_ground_y = s.last_ground_y := by
  simp only [handle_peeking, apply_ite Player.backflipping, apply_ite Player.backflip_direction,
    apply_ite Player.dir, apply_ite Player.fall_mode, apply_ite Player.last_ground_y, ite_self,
    and_self]

/-- The shooting statement changes none of the backflip fields, the facing direction,
the fall mode and the last ground height. -/
theorem handle_shooting_pose (env : Env) (s : Player) :
    (handle_shooting env s).backflipping = s.backflipping
      ∧ (handle_shooting env s).backflip_direction = s.backflip_direction
      ∧ (handle_shooting env s).dir = s.dir
      ∧ (handle_shooting env s).fall_mode = s.fall_mode
      ∧ (handle_shooting env s).last_ground_y = s.last_ground_y := by
  simp only [handle_shooting, add_object, apply_ite Player.backflipping,
    apply_ite Player.backflip_direction, apply_ite Player.dir, apply_ite Player.fall_mode,
    apply_ite Player.last_ground_y, ite_self, and_self]

/-- The release of the grabbed object changes none of the backflip fields, the
facing direction, the fall mode and the last ground height. -/
theorem handle_release_pose (env : Env) (s : Player) :
    (handle_release env s).backflipping = s.backflipping
      ∧ (handle_release env s).backflip_direction = s.backflip_direction
      ∧ (handle_release env s).dir = s.dir
      ∧ (handle_release env s).fall_mode = s.fall_mode
      ∧ (handle_release env s).last_ground_y = s.last_ground_y := by
  unfold handle_release
  cases s.grabbed_object <;>
    simp only [apply_ite Player.backflipping, apply_ite Player.backflip_direction,
      apply_ite Player.dir, apply_ite Player.fall_mode, apply_ite Player.last_ground_y, ite_self,
      and_self]

/-- The member `try_grab` changes none of the backflip fields, the facing direction,
the fall mode and the last ground height. -/
theorem try_grab_pose (env : Env) (s : Player) :
    (try_grab env s).backflipping = s.backflipping
      ∧ (try_grab env s).backflip_direction = s.backflip_direction
      ∧ (try_grab env s).dir = s.dir
      ∧ (try_grab env s).fall_mode = s.fall_mode
      ∧ (try_grab env s).last_ground_y = s.last_ground_y := by
  unfold try_grab
  split_ifs
  · rw [try_grab_loop_eq_find]
    cases List.find? (within_reach (try_grab_reach s)) env.portables with
    | none => exact ⟨rfl, rfl, rfl, rfl, rfl⟩
    | some p =>
      obtain ⟨g, u, ph, j, og, cj, snd, h⟩ := stop_climbing_if_climbing_shape env s
      simp [grab_portable, h]
  · exact ⟨rfl, rfl, rfl, rfl, rfl⟩

/-- The member `do_duck` changes none of the backflip fields, the facing direction,
the fall mode and the last ground height. -/
theorem do_duck_pose (env : Env) (s : Player) :
    (do_duck env s).backflipping = s.backflipping
      ∧ (do_duck env s).backflip_direction = s.backflip_direction
      ∧ (do_duck env s).dir = s.dir
      ∧ (do_duck env s).fall_mode = s.fall_mode
      ∧ (do_duck env s).last_ground_y = s.last_ground_y := by
  have h := adjust_height_eq_with_bbox env s 31.8
  generalize (adjust_height env s 31.8).2.bbox = bb at h
  simp only [do_duck, h, apply_ite Player.backflipping, apply_ite Player.backflip_direction,
    apply_ite Player.dir, apply_ite Player.fall_mode, apply_ite Player.last_ground_y, ite_self,
    and_self]

/-- The member `apply_friction` and the width statement change none of the backflip
fields, the facing direction, the fall mode and the last ground height. -/
theorem apply_friction_pose (s : Player) :
    (apply_friction s).backflipping = s.backflipping
      ∧ (apply_friction s).backflip_direction = s.backflip_direction
      ∧ (apply_friction s).dir = s.dir
      ∧ (apply_friction s).fall_mode = s.fall_mode
      ∧ (apply_friction s).last_ground_y = s.last_ground_y := by
  simp only [apply_friction, apply_ite Player.backflipping, apply_ite Player.backflip_direction,
    apply_ite Player.dir, apply_ite Player.fall_mode, apply_ite Player.last_ground_y, ite_self,
    and_self]

/-- The member `handle_horizontal_input` changes none of the backflip fields, the
fall mode and the last ground height. -/
theorem handle_horizontal_input_pose (env : Env) (s : Player) :
    (handle_horizontal_input env s).backflipping = s.backflipping
      ∧ (handle_horizontal_input env s).backflip_direction = s.backflip_direction
      ∧ (handle_horizontal_input env s).fall_mode = s.fall_mode
      ∧ (handle_horizontal_input env s).last_ground_y = s.last_ground_y := by
  simp only [handle_horizontal_input, horizontal_turn, play_sound, add_object,
    apply_ite Player.backflipping, apply_ite Player.backflip_direction,
    apply_ite Player.fall_mode, apply_ite Player.last_ground_y, apply_friction_pose, ite_self,
    and_self]

/-- The member `do_backflip`: a ducked player on the ground starts to backflip in the
direction opposite to its facing; otherwise nothing changes. -/
theorem do_backflip_pose (env : Env) (s : Player) :
    (do_backflip env s).dir = s.dir
      ∧ (do_backflip env s).fall_mode = s.fall_mode
      ∧ (do_backflip env s).last_ground_y = s.last_ground_y
      ∧ (s.duck = true ∧ s.on_ground = true →
          (do_backflip env s).backflipping = true
            ∧ (do_backflip env s).backflip_direction
              = (if s.dir = Direction.LEFT then 1 else -1))
      ∧ (¬ (s.duck = true ∧ s.on_ground = true) → do_backflip env s = s) := by
  refine ⟨?_, ?_, ?_, ?_, ?_⟩
  · simp only [do_backflip, play_sound, apply_ite Player.dir, do_jump_pose, ite_self]
  · simp only [do_backflip, play_sound, apply_ite Player.fall_mode, do_jump_pose, ite_self]
  · simp only [do_backflip, play_sound, apply_ite Player.last_ground_y, do_jump_pose, ite_self]
  · rintro ⟨hd, hg⟩
    simp [do_backflip, play_sound, do_jump_pose, hd, hg]
  · intro h
    by_cases hd : s.duck = true
    · have hg : s.on_ground = false := by
        cases hgg : s.on_ground
        · rfl
        · exact absurd ⟨hd, hgg⟩ h
      simp [do_backflip, hd, hg]
    · simp [do_backflip, hd]

/-- A backflip in direction `d` is kept by the jump-key statements. -/
theorem handle_jump_key_flip (env : Env) (s : Player) (bd : Int)
    (hb : s.backflipping = true) (hbd : s.backflip_direction = bd)
    (hdir : (if s.dir = Direction.LEFT then (1 : Int) else -1) = bd) :
    (handle_jump_key env s).backflipping = true
      ∧ (handle_jump_key env s).backflip_direction = bd
      ∧ (handle_jump_key env s).dir = s.dir := by
  have hbf : ∀ t : Player, t.backflipping = true → t.backflip_direction = bd → t.dir = s.dir →
      (do_backflip env t).backflipping = true ∧ (do_backflip env t).backflip_direction = bd
        ∧ (do_backflip env t).dir = s.dir := by
    intro t h1 h2 h3
    have hp := do_backflip_pose env t
    refine ⟨?_, ?_, by rw [hp.1, h3]⟩
    · by_cases hc : t.duck = true ∧ t.on_ground = true
      · exact (hp.2.2.2.1 hc).1
      · rw [hp.2.2.2.2 hc, h1]
    · by_cases hc : t.duck = true ∧ t.on_ground = true
      · rw [(hp.2.2.2.1 hc).2, h3, hdir]
      · rw [hp.2.2.2.2 hc, h2]
  have hj : ∀ (t : Player) (y : ℚ), t.backflipping = true → t.backflip_direction = bd →
      t.dir = s.dir →
      (do_jump t y).backflipping = true ∧ (do_jump t y).backflip_direction = bd
        ∧ (do_jump t y).dir = s.dir := by
    intro t y h1 h2 h3
    have hp := do_jump_pose t y
    exact ⟨by rw [hp.1, h1], by rw [hp.2.1, h2], by rw [hp.2.2.1, h3]⟩
  simp only [handle_jump_key]
  split_ifs <;>
    first
    | exact ⟨hb, hbd, rfl⟩
    | exact hbf _ hb hbd rfl
    | exact hj _ _ hb hbd rfl
    | (simp [hb] at *)

/-- A backflip in direction `d` is kept by `handle_vertical_input`. -/
theorem handle_vertical_input_flip (env : Env) (s : Player) (bd : Int)
    (hb : s.backflipping = true) (hbd : s.backflip_direction = bd)
    (hdir : (if s.dir = Direction.LEFT then (1 : Int) else -1) = bd) :
    (handle_vertical_input env s).backflipping = true
      ∧ (handle_vertical_input env s).backflip_direction = bd
      ∧ (handle_vertical_input env s).dir = s.dir := by
  have h := handle_jump_key_flip env s bd hb hbd hdir
  simp only [handle_vertical_input]
  generalize handle_jump_key env s = m at h
  simp only [do_jump_apex, apply_ite Player.backflipping, apply_ite Player.backflip_direction,
    apply_ite Player.dir, h, ite_self, and_self]

/-- The member `do_standup` does nothing while the player is backflipping. -/
theorem do_standup_of_backflipping (env : Env) (s : Player) (hb : s.backflipping = true) :
    do_standup env s = s := by
  simp [do_standup, hb]

/-- The jump-key statements and `handle_vertical_input` change neither the fall mode
nor the last ground height. -/
theorem handle_vertical_input_trend (env : Env) (s : Player) :
    (handle_vertical_input env s).fall_mode = s.fall_mode
      ∧ (handle_vertical_input env s).last_ground_y = s.last_ground_y := by
  have hk : (handle_jump_key env s).fall_mode = s.fall_mode
      ∧ (handle_jump_key env s).last_ground_y = s.last_ground_y := by
    simp only [handle_jump_key, early_jump_apex, apply_ite Player.fall_mode,
      apply_ite Player.last_ground_y, do_jump_pose, do_backflip_pose, ite_self, and_self]
  simp only [handle_vertical_input]
  generalize handle_jump_key env s = m at hk
  simp only [do_jump_apex, apply_ite Player.fall_mode, apply_ite Player.last_ground_y, hk,
    ite_self, and_self]

/-- Ghost-mode and climbing input handling change none of the backflip fields, the
fall mode and the last ground height. -/
theorem handle_input_modes_pose (env : Env) (s : Player) :
    ((handle_input_ghost env s).backflipping = s.backflipping
      ∧ (handle_input_ghost env s).backflip_direction = s.backflip_direction
      ∧ (handle_input_ghost env s).fall_mode = s.fall_mode
      ∧ (handle_input_ghost env s).last_ground_y = s.last_ground_y)
      ∧ ((handle_input_climbing env s).backflipping = s.backflipping
      ∧ (handle_input_climbing env s).backflip_direction = s.backflip_direction
      ∧ (handle_input_climbing env s).fall_mode = s.fall_mode
      ∧ (handle_input_climbing env s).last_ground_y = s.last_ground_y) := by
  have hg : ∀ (t : Player) (b : Bool), (set_ghost_mode env t b).backflipping = t.backflipping
      ∧ (set_ghost_mode env t b).backflip_direction = t.backflip_direction := by
    intro t b
    obtain ⟨gm, gr, c, g, u, ph, j, og, cj, snd, lg, h, -⟩ := set_ghost_mode_shape env t b
    rw [h]
    exact ⟨rfl, rfl⟩
  constructor
  · simp only [handle_input_ghost, apply_ite Player.backflipping,
      apply_ite Player.backflip_direction, apply_ite Player.fall_mode,
      apply_ite Player.last_ground_y, hg, set_ghost_mode_trend, ite_self, and_self]
  · simp only [handle_input_climbing, apply_ite Player.backflipping,
      apply_ite Player.backflip_direction, apply_ite Player.fall_mode,
      apply_ite Player.last_ground_y, stop_climbing_flip, ite_self, and_self]

/-- The member `handle_input` changes neither the fall mode nor the last ground
height. -/
theorem handle_input_trend (env : Env) (s : Player) :
    (handle_input env s).fall_mode = s.fall_mode
      ∧ (handle_input env s).last_ground_y = s.last_ground_y := by
  simp only [handle_input, apply_ite Player.fall_mode, apply_ite Player.last_ground_y,
    handle_input_modes_pose, handle_release_pose, try_grab_pose, do_duck_pose, do_standup_trend,
    handle_shooting_pose, handle_vertical_input_trend, handle_horizontal_input_pose,
    handle_peeking_pose, ite_self, and_self]

/-- A backflip whose stored direction `bd` matches the facing direction is kept by
`handle_input`. -/
theorem handle_input_flip (env : Env) (s : Player) (bd : Int)
    (hb : s.backflipping = true) (hbd : s.backflip_direction = bd)
    (hdir : (if s.dir = Direction.LEFT then (1 : Int) else -1) = bd) :
    (handle_input env s).backflipping = true
      ∧ (handle_input env s).backflip_direction = bd := by
  have hm := handle_input_modes_pose env s
  by_cases hgm : s.ghost_mode = true
  · simp only [handle_input, hgm, if_true]
    exact ⟨by rw [hm.1.1, hb], by rw [hm.1.2.1, hbd]⟩
  · by_cases hcl : s.climbing.isSome = true
    · simp only [handle_input, hgm, hcl, Bool.false_eq_true, if_false, if_true]
      exact ⟨by rw [hm.2.1, hb], by rw [hm.2.2.1, hbd]⟩
    · have hp := handle_peeking_pose env s
      have hpb : (handle_peeking env s).backflipping = true := by rw [hp.1, hb]
      simp only [handle_input, hgm, hcl, Bool.false_eq_true, if_false]
      generalize handle_peeking env s = s1 at hp hpb ⊢
      have hh : (if (!s1.backflipping) = true then handle_horizontal_input env s1 else s1)
          = s1 := by
        simp [hpb]
      simp only [hh]
      have hc : (if s1.on_ground = true then ({ s1 with can_jump := true } : Player)
          else s1).backflipping = true
        ∧ (if s1.on_ground = true then ({ s1 with can_jump := true } : Player)
          else s1).backflip_direction = bd
        ∧ (if s1.on_ground = true then ({ s1 with can_jump := true } : Player)
          else s1).dir = s.dir := by
        split_ifs
        · exact ⟨hpb, by rw [← hbd, ← hp.2.1], hp.2.2.1⟩
        · exact ⟨hpb, by rw [← hbd, ← hp.2.1], hp.2.2.1⟩
      generalize (if s1.on_ground = true then ({ s1 with can_jump := true } : Player)
          else s1) = s1c at hc ⊢
      have hv := handle_vertical_input_flip env s1c bd hc.1 hc.2.1 (by rw [hc.2.2]; exact hdir)
      generalize handle_vertical_input env s1c = s2 at hv ⊢
      have hs := handle_shooting_pose env s2
      have hs1 : (handle_shooting env s2).backflipping = true := by rw [hs.1, hv.1]
      have hs2 : (handle_shooting env s2).backflip_direction = bd := by rw [hs.2.1, hv.2.1]
      generalize handle_shooting env s2 = s3 at hs1 hs2 ⊢
      have hdk : (if env.hold Control.DOWN = true then do_duck env s3
            else do_standup env s3).backflipping = true
        ∧ (if env.hold Control.DOWN = true then do_duck env s3
            else do_standup env s3).backflip_direction = bd := by
        split_ifs
        · exact ⟨by rw [(do_duck_pose env s3).1, hs1], by rw [(do_duck_pose env s3).2.1, hs2]⟩
        · rw [do_standup_of_backflipping env s3 hs1]
          exact ⟨hs1, hs2⟩
      generalize (if env.hold Control.DOWN = true then do_duck env s3 else do_standup env s3)
        = s4 at hdk ⊢
      rw [(handle_release_pose env _).1, (handle_release_pose env _).2.1,
        (try_grab_pose env s4).1, (try_grab_pose env s4).2.1]
      exact hdk

/-- The member `set_bonus` changes none of the backflip fields. -/
theorem set_bonus_flip (env : Env) (s : Player) (type : BonusType) (animate : Bool) :
    (set_bonus env s type animate).2.backflipping = s.backflipping
      ∧ (set_bonus env s type animate).2.backflip_direction = s.backflip_direction := by
  have ha : ∀ (t : Player) (h : ℚ), (t.adjust_height env h).2.backflipping = t.backflipping
      ∧ (t.adjust_height env h).2.backflip_direction = t.backflip_direction := by
    intro t h
    rw [adjust_height_eq_with_bbox]
    exact ⟨rfl, rfl⟩
  have hc : ∀ t : Player, (set_bonus_commit env t type animate).backflipping = t.backflipping
      ∧ (set_bonus_commit env t type animate).backflip_direction = t.backflip_direction := by
    intro t
    simp only [set_bonus_commit, add_object, apply_ite Player.backflipping,
      apply_ite Player.backflip_direction, stop_climbing_flip, ite_self, and_self]
  simp only [set_bonus, apply_ite Prod.snd, apply_ite Player.backflipping,
    apply_ite Player.backflip_direction, hc, stop_climbing_flip, ha, ite_self, and_self]

/-- The member `kill` keeps the stored backflip direction and never starts a
backflip. -/
theorem kill_flip (env : Env) (s : Player) (completely : Bool) :
    (kill env s completely).backflip_direction = s.backflip_direction
      ∧ (s.backflipping = false → (kill env s completely).backflipping = false) := by
  have ha : ∀ (t : Player) (h : ℚ), (t.adjust_height env h).2.backflipping = t.backflipping
      ∧ (t.adjust_height env h).2.backflip_direction = t.backflip_direction := by
    intro t h
    rw [adjust_height_eq_with_bbox]
    exact ⟨rfl, rfl⟩
  have hb : (kill_begin env s).backflipping = s.backflipping
      ∧ (kill_begin env s).backflip_direction = s.backflip_direction := by
    obtain ⟨g, u, ph, j, og, cj, snd, h⟩ := kill_begin_shape env s
    rw [h]
    exact ⟨rfl, rfl⟩
  have hc : ∀ (n : Nat) (t : Player), (add_falling_coins n t).backflipping = t.backflipping
      ∧ (add_falling_coins n t).backflip_direction = t.backflip_direction := by
    intro n t
    rw [add_falling_coins_shape]
    exact ⟨rfl, rfl⟩
  have hg : ∀ (t : Player) (b : Bool), (set_ghost_mode env t b).backflipping = t.backflipping
      ∧ (set_ghost_mode env t b).backflip_direction = t.backflip_direction := by
    intro t b
    obtain ⟨gm, gr, c, g, u, ph, j, og, cj, snd, lg, h, -⟩ := set_ghost_mode_shape env t b
    rw [h]
    exact ⟨rfl, rfl⟩
  constructor
  · simp only [kill, kill_demote, kill_die, set_group, apply_ite Player.backflip_direction,
      set_bonus_flip, hg, ha, hc, hb, ite_self]
  · intro h
    simp only [kill, kill_demote, kill_die, set_group, apply_ite Player.backflipping,
      set_bonus_flip, hg, ha, hc, hb, h, ite_self]

/-- The member `do_standup` keeps the stored backflip direction and never starts a
backflip. -/
theorem do_standup_flip (env : Env) (s : Player) :
    (do_standup env s).backflip_direction = s.backflip_direction
      ∧ (s.backflipping = false → (do_standup env s).backflipping = false) := by
  have ha : ∀ (t : Player) (h : ℚ), (t.adjust_height env h).2.backflipping = t.backflipping
      ∧ (t.adjust_height env h).2.backflip_direction = t.backflip_direction := by
    intro t h
    rw [adjust_height_eq_with_bbox]
    exact ⟨rfl, rfl⟩
  constructor
  · simp only [do_standup, apply_ite Player.backflip_direction, kill_flip, ha, ite_self]
  · intro h
    have hk : ∀ t : Player, t.backflipping = false → (kill env t false).backflipping = false :=
      fun t ht => (kill_flip env t false).2 ht
    simp only [do_standup, apply_ite Player.backflipping, ha, h, ite_self]
    split_ifs <;> first | rfl | (apply hk; rfl)

/-- The landing statement of `update` either keeps both backflip fields or ends the
backflip. -/
theorem update_landed_flip (env : Env) (s : Player) :
    ((update_landed env s).backflipping = s.backflipping
        ∧ (update_landed env s).backflip_direction = s.backflip_direction)
      ∨ (update_landed env s).backflipping = false := by
  simp only [update_landed]
  split_ifs with h1 h2 h3
  · right
    exact (do_standup_flip env _).2 rfl
  · right
    rfl
  · left
    exact ⟨rfl, rfl⟩
  · left
    exact ⟨rfl, rfl⟩

/-- The statements of `update` from the movement on change none of the backflip
fields. -/
theorem update_finish_flip (env : Env) (s : Player) (elapsed_time : ℚ) :
    (update_finish env s elapsed_time).backflipping = s.backflipping
      ∧ (update_finish env s elapsed_time).backflip_direction = s.backflip_direction := by
  unfold update_finish
  cases s.grabbed_object <;>
    simp only [add_object, apply_ite Player.backflipping, apply_ite Player.backflip_direction,
      ite_self, and_self]

/-- The input statements of `update` keep a backflip whose stored direction matches
the facing direction. -/
theorem update_input_flip (env : Env) (s : Player) (bd : Int)
    (hb : s.backflipping = true) (hbd : s.backflip_direction = bd)
    (hdir : (if s.dir = Direction.LEFT then (1 : Int) else -1) = bd) :
    (update_input env s).backflipping = true
      ∧ (update_input env s).backflip_direction = bd := by
  have hi := handle_input_flip env s bd hb hbd hdir
  have hs : (if s.dying = false ∧ s.deactivated = false then handle_input env s
      else s).backflipping = true
    ∧ (if s.dying = false ∧ s.deactivated = false then handle_input env s
      else s).backflip_direction = bd := by
    split_ifs
    · exact hi
    · exact ⟨hb, hbd⟩
  simp only [update_input]
  generalize (if s.dying = false ∧ s.deactivated = false then handle_input env s else s)
    = s1 at hs ⊢
  split_ifs
  · exact ⟨by rw [(apply_friction_pose s1).1, hs.1], by rw [(apply_friction_pose s1).2.1, hs.2]⟩
  · exact hs

/-- The input, width and slope statements of `update` change neither the fall mode
nor the last ground height, and the first statements of `update` change
none of the backflip fields, the facing direction, the fall mode and the
last ground height. -/
theorem update_before_fall_mode_trend (env : Env) (s : Player) :
    (update_before_fall_mode env s).fall_mode = s.fall_mode
      ∧ (update_before_fall_mode env s).last_ground_y = s.last_ground_y
      ∧ (update_no_water s).fall_mode = s.fall_mode
      ∧ (update_no_water s).last_ground_y = s.last_ground_y
      ∧ (update_no_water s).backflipping = s.backflipping
      ∧ (update_no_water s).backflip_direction = s.backflip_direction
      ∧ (update_no_water s).dir = s.dir := by
  simp only [update_before_fall_mode, update_backflip, update_slope, update_width, update_input,
    update_no_water, set_width, apply_ite Player.fall_mode, apply_ite Player.last_ground_y,
    apply_ite Player.backflipping, apply_ite Player.backflip_direction, apply_ite Player.dir,
    apply_friction_pose, handle_input_trend, ite_self, and_self]

/-- With the controls deactivated the statements of `update` before the fall-mode
statement keep the ground flag and the top-left corner of the box. -/
theorem update_before_fall_mode_of_deactivated (env : Env) (s : Player)
    (h : s.deactivated = true) :
    (update_before_fall_mode env (update_no_water s)).on_ground = s.on_ground
      ∧ (update_before_fall_mode env (update_no_water s)).bbox.p1 = s.bbox.p1 := by
  have hd : (update_no_water s).deactivated = true := by
    simp only [update_no_water, apply_ite Player.deactivated, h, ite_self]
  have h1 : update_input env (update_no_water s) = apply_friction (update_no_water s) := by
    simp [update_input, hd]
  have hf : ∀ t : Player, (apply_friction t).on_ground_flag = t.on_ground_flag
      ∧ (apply_friction t).bbox = t.bbox := by
    intro t
    simp only [apply_friction, apply_ite Player.on_ground_flag, apply_ite Player.bbox, ite_self,
      and_self]
  have hw : (update_no_water s).on_ground_flag = s.on_ground_flag
      ∧ (update_no_water s).bbox = s.bbox := by
    simp only [update_no_water, apply_ite Player.on_ground_flag, apply_ite Player.bbox, ite_self,
      and_self]
  simp only [update_before_fall_mode, h1]
  generalize update_no_water s = w at hw ⊢
  simp only [update_backflip, update_slope, update_width, on_ground, set_width, Rect.set_width,
    apply_ite Player.on_ground_flag, apply_ite Player.bbox, apply_ite Rect.p1, hf, hw, ite_self,
    and_self]

/-- The backflip statement of `update` on a backflipping player: the facing direction
is read off the stored backflip direction, and the horizontal velocity is
set while the backflip timer is started. -/
theorem update_backflip_spec (env : Env) (s : Player) (hb : s.backflipping = true) :
    (update_backflip env s).dir
        = (if s.backflip_direction = 1 then Direction.LEFT else Direction.RIGHT)
      ∧ (update_backflip env s).backflipping = true
      ∧ (update_backflip env s).backflip_direction = s.backflip_direction
      ∧ (s.backflip_timer.started env.game_time = true →
          (update_backflip env s).physic.vx = 100 * (s.backflip_direction : ℚ))
      ∧ (s.backflip_timer.started env.game_time = false →
          (update_backflip env s).physic = s.physic) := by
  refine ⟨?_, ?_, ?_, ?_, ?_⟩
  · simp only [update_backflip, hb, if_true]
    split_ifs <;> rfl
  · simp only [update_backflip, hb, if_true]
    split_ifs <;> rfl
  · simp only [update_backflip, hb, if_true]
    split_ifs <;> rfl
  · intro ht
    simp [update_backflip, hb, ht, Physic.set_velocity_x]
  · intro ht
    simp [update_backflip, hb, ht]

/-- The width and slope statements of `update` change none of the backflip fields and
not the backflip timer. -/
theorem update_slope_width_flip (s : Player) :
    (update_slope (update_width s)).backflipping = s.backflipping
      ∧ (update_slope (update_width s)).backflip_direction = s.backflip_direction
      ∧ (update_slope (update_width s)).backflip_timer = s.backflip_timer := by
  simp only [update_slope, update_width, set_width, apply_ite Player.backflipping,
    apply_ite Player.backflip_direction, apply_ite Player.backflip_timer, ite_self, and_self]

/-- One step of `update` on a player that backflips in the direction stored for its
facing direction `d` (LEFT or RIGHT): the facing direction is `d` afterwards, and
while the backflip lasts the stored direction is kept. -/
theorem update_flip (env : Env) (s : Player) (elapsed_time : ℚ) (d : Direction)
    (hd : d = Direction.LEFT ∨ d = Direction.RIGHT)
    (hb : s.backflipping = true)
    (hbd : s.backflip_direction = (if d = Direction.LEFT then 1 else -1))
    (hdir : s.dir = d) :
    (update env s elapsed_time).dir = d
      ∧ ((update env s elapsed_time).backflipping = true →
          (update env s elapsed_time).backflip_direction
            = (if d = Direction.LEFT then 1 else -1)) := by
  have h0 := update_no_water_life s
  have hw := update_before_fall_mode_trend env s
  by_cases hc : s.dying = true ∧ (s.dying_timer.check env.game_time).1 = true
  · have hc2 : (update_no_water s).dying = true
        ∧ ((update_no_water s).dying_timer.check env.game_time).1 = true := by
      rw [h0.2.1, h0.2.2]
      exact hc
    simp only [update, if_pos hc2]
    exact ⟨by rw [← hdir, ← hw.2.2.2.2.2.2], fun _ => by rw [← hbd, ← hw.2.2.2.2.2.1]⟩
  · have hc2 : ¬ ((update_no_water s).dying = true
        ∧ ((update_no_water s).dying_timer.check env.game_time).1 = true) := by
      rw [h0.2.1, h0.2.2]
      exact hc
    simp only [update, if_neg hc2, update_motion, update_before_fall_mode]
    have hin := update_input_flip env (update_no_water s)
      (if d = Direction.LEFT then 1 else -1)
      (by rw [hw.2.2.2.2.1, hb]) (by rw [hw.2.2.2.2.2.1, hbd])
      (by rw [hw.2.2.2.2.2.2, hdir])
    generalize update_input env (update_no_water s) = s1 at hin ⊢
    have hsw := update_slope_width_flip s1
    have hpin := update_backflip_spec env (update_slope (update_width s1))
      (by rw [hsw.1, hin.1])
    rw [hsw.2.1, hin.2] at hpin
    generalize update_backflip env (update_slope (update_width s1)) = s2 at hpin ⊢
    have hfm : (update_fall_mode s2).dir = s2.dir
        ∧ (update_fall_mode s2).backflipping = s2.backflipping
        ∧ (update_fall_mode s2).backflip_direction = s2.backflip_direction := by
      simp only [update_fall_mode, apply_ite Player.dir, apply_ite Player.backflipping,
        apply_ite Player.backflip_direction, ite_self, and_self]
    have hdir2 : (update_fall_mode s2).dir = d := by
      rw [hfm.1, hpin.1]
      rcases hd with hd | hd <;> subst hd <;> simp
    have hbd2 : (update_fall_mode s2).backflip_direction
        = (if d = Direction.LEFT then 1 else -1) := by
      rw [hfm.2.2, hpin.2.2.1]
    generalize update_fall_mode s2 = s3 at hdir2 hbd2 ⊢
    refine ⟨?_, ?_⟩
    · rw [(update_finish_trend env _ elapsed_time).2.2, (update_landed_trend env s3).2.2, hdir2]
    · rw [(update_finish_flip env _ elapsed_time).1, (update_finish_flip env _ elapsed_time).2]
      intro hstill
      rcases update_landed_flip env s3 with h | h
      · rw [h.2, hbd2]
      · rw [h] at hstill
        exact Bool.noConfusion hstill

/-- On a small player that is not climbing, a `set_bonus` whose `adjust_height(62.8)`
succeeds returns true and sets `growing` when it animates. -/
theorem set_bonus_of_small_growing (env : Env) (s : Player) (type : BonusType) (animate : Bool)
    (hc : s.climbing = none) (hb : s.player_status.bonus = BonusType.NO_BONUS)
    (ha : (s.adjust_height env 62.8).1 = true) :
    (set_bonus env s type animate).1 = true
      ∧ (set_bonus env s type animate).2.growing = (animate || s.growing) := by
  have hcl : ∀ t : Player, t.climbing = none →
      (set_bonus_commit env t type animate).growing = t.growing := by
    intro t ht
    obtain ⟨dbj, objs, st, h, _⟩ := set_bonus_commit_shape env t type animate ht
    rw [h]
  have hac : (s.adjust_height env 62.8).2.climbing = none := by
    rw [(adjust_height_frame env s 62.8).1, hc]
  have hag : (s.adjust_height env 62.8).2.growing = s.growing := by
    rw [adjust_height_eq_with_bbox]
  simp only [set_bonus, hb, if_true, ha, Bool.not_true, Bool.false_eq_true, if_false, true_and]
  cases animate
  · have h1 := stop_climbing_if_climbing_of_none env (s.adjust_height env 62.8).2 hac
    simp only [Bool.false_eq_true, if_false, h1, Bool.false_or]
    rw [hcl _ hac, hag]
  · have hac2 : ({ (s.adjust_height env 62.8).2 with
        growing := true,
        sprite_action := if (s.adjust_height env 62.8).2.dir = Direction.LEFT then "grow-left"
          else "grow-right" } : Player).climbing = none := hac
    have h1 := stop_climbing_if_climbing_of_none env _ hac2
    simp only [if_true, h1, Bool.true_or]
    rw [hcl _ hac2]

/-- The member `init` does not touch the idle stage. -/
theorem init_idle_stage (s : Player) : (init s).idle_stage = s.idle_stage := by
  simp only [init, set_size, apply_ite Player.idle_stage, ite_self]

/-- The branch of `draw` that enters idle stage 0 always succeeds. -/
theorem draw_idle_enter_spec (env : Env) (s : Player) :
    ∃ t, draw_idle_enter env s = some t ∧ t.idle_stage = 0 := by
  simp [draw_idle_enter, IDLE_TIME, IDLE_STAGES, set_action]

/-- The branch of `draw` that advances the idle stage succeeds from a stage below
`IDLE_STAGE_COUNT` and wraps from stage 4 to stage 1. -/
theorem draw_idle_advance_spec (env : Env) (s : Player) (h : s.idle_stage < IDLE_STAGE_COUNT) :
    ∃ t, draw_idle_advance env s = some t
      ∧ t.idle_stage = (if s.idle_stage + 1 ≥ IDLE_STAGE_COUNT then 1 else s.idle_stage + 1)
      ∧ t.idle_stage < IDLE_STAGE_COUNT := by
  generalize hn : s.idle_stage = n at h
  simp only [IDLE_STAGE_COUNT] at h
  interval_cases n <;>
    simp [draw_idle_advance, hn, IDLE_TIME, IDLE_STAGES, IDLE_STAGE_COUNT, set_action]

/-- The idle statements of `draw` succeed from a stage below `IDLE_STAGE_COUNT`, and
move the idle cursor by one `idle_stage_step`. -/
theorem draw_idle_spec (env : Env) (s : Player) (h : s.idle_stage < IDLE_STAGE_COUNT) :
    ∃ t, draw_idle env s = some t ∧ idle_stage_step s t
      ∧ t.idle_stage < IDLE_STAGE_COUNT := by
  by_cases hc : s.action_contains "-stand-" = false ∧ s.action_contains "-idle-" = false
  · obtain ⟨t, ht, h0⟩ := draw_idle_enter_spec env s
    refine ⟨t, by simp only [draw_idle, if_pos hc, ht], Or.inr (Or.inl ⟨h0, hc⟩), ?_⟩
    rw [h0]
    decide
  · have hadv := draw_idle_advance_spec env
      { s with idle_timer := (s.idle_timer.check env.game_time).2 } h
    obtain ⟨t, ht, h1, h2⟩ := hadv
    simp only [draw_idle, if_neg hc]
    by_cases hck : (s.idle_timer.check env.game_time).1 = true
    · simp only [hck, if_true]
      exact ⟨t, ht, Or.inr (Or.inr h1), h2⟩
    · have hl : ∃ tm st, IDLE_TIME[s.idle_stage]? = some tm
          ∧ IDLE_STAGES[s.idle_stage]? = some st := by
        generalize s.idle_stage = n at h
        simp only [IDLE_STAGE_COUNT] at h
        interval_cases n <;> simp [IDLE_TIME, IDLE_STAGES]
      obtain ⟨tm, st, hl1, hl2⟩ := hl
      simp only [hck, Bool.false_eq_true, if_false, hl1, hl2]
      split_ifs
      · exact ⟨t, ht, Or.inr (Or.inr h1), h2⟩
      · exact ⟨_, rfl, Or.inl rfl, h⟩

/-- A state that agrees with `s` on the idle stage and the sprite action takes the
same `idle_stage_step`. -/
theorem idle_stage_step_congr (s u t : Player) (h1 : u.idle_stage = s.idle_stage)
    (h2 : u.sprite_action = s.sprite_action) (h : idle_stage_step u t) :
    idle_stage_step s t := by
  simp only [idle_stage_step, action_contains, h1, h2] at h ⊢
  exact h

/-- The statements of `draw` from the skidding test on succeed from a stage below
`IDLE_STAGE_COUNT`, and move the idle cursor by one `idle_stage_step`. -/
theorem draw_moving_spec (env : Env) (s : Player) (h : s.idle_stage < IDLE_STAGE_COUNT) :
    ∃ t, draw_moving env s = some t ∧ idle_stage_step s t
      ∧ t.idle_stage < IDLE_STAGE_COUNT := by
  have key : ∀ u : Player, u.idle_stage = s.idle_stage → u.sprite_action = s.sprite_action →
      (∀ name : String, ∃ t, some (u.set_action name) = some t ∧ idle_stage_step s t
          ∧ t.idle_stage < IDLE_STAGE_COUNT)
        ∧ (∃ t, draw_idle env u = some t ∧ idle_stage_step s t
          ∧ t.idle_stage < IDLE_STAGE_COUNT) := by
    intro u h1 h2
    constructor
    · intro name
      exact ⟨_, rfl, Or.inl h1, by rw [← h1] at h; exact h⟩
    · obtain ⟨t, ht, hs, hlt⟩ := draw_idle_spec env u (by rw [h1]; exact h)
      exact ⟨t, ht, idle_stage_step_congr s u t h1 h2 hs, hlt⟩
  simp only [draw_moving]
  generalize hs1 : (if s.skidding_timer.started env.game_time = true then
      ({ s with skidding_timer := (s.skidding_timer.check env.game_time).2 } : Player)
    else s) = s1
  have h1 : s1.idle_stage = s.idle_stage ∧ s1.sprite_action = s.sprite_action := by
    rw [← hs1]
    split_ifs <;> exact ⟨rfl, rfl⟩
  by_cases c1 : (s.skidding_timer.started env.game_time
      && !(s.skidding_timer.check env.game_time).1) = true
  · rw [if_pos c1]
    exact (key s1 h1.1 h1.2).1 _
  · rw [if_neg c1]
    generalize hs2 : (if s1.kick_timer.started env.game_time = true then
        ({ s1 with kick_timer := (s1.kick_timer.check env.game_time).2 } : Player)
      else s1) = s2
    have h2 : s2.idle_stage = s.idle_stage ∧ s2.sprite_action = s.sprite_action := by
      rw [← hs2]
      split_ifs <;> exact h1
    by_cases c2 : (s1.kick_timer.started env.game_time
        && !(s1.kick_timer.check env.game_time).1) = true
    · rw [if_pos c2]
      exact (key s2 h2.1 h2.2).1 _
    · rw [if_neg c2]
      split_ifs
      · exact (key s2 h2.1 h2.2).1 _
      · exact (key s2 h2.1 h2.2).1 _
      · exact (key s2 h2.1 h2.2).2
      · exact (key s2 h2.1 h2.2).1 _

/-- The member `draw` succeeds from a stage below `IDLE_STAGE_COUNT`, and moves the
idle cursor by one `idle_stage_step`. -/
theorem draw_spec (env : Env) (s : Player) (h : s.idle_stage < IDLE_STAGE_COUNT) :
    ∃ t, draw env s = some t ∧ idle_stage_step s t ∧ t.idle_stage < IDLE_STAGE_COUNT := by
  simp only [draw]
  split_ifs <;>
    first
    | exact ⟨_, rfl, Or.inl rfl, h⟩
    | exact draw_moving_spec env s h

/-- For a visible player standing still on the ground, with no other animation due,
`draw` runs the idle statements. -/
theorem draw_of_standing (env : Env) (s : Player)
    (hv : s.visible = true) (hdy : s.dying = false) (hgr : s.growing = false)
    (hcl : s.climbing = none) (hbf : s.backflipping = false) (hdu : s.duck = false)
    (hsk : s.skidding_timer.started env.game_time = false)
    (hki : s.kick_timer.started env.game_time = false)
    (hwb : s.wants_buttjump = false) (hdb : s.does_buttjump = false)
    (hog : s.on_ground = true) (hvx : |s.physic.vx| < 1) :
    draw env s = draw_idle env s := by
  simp [draw, draw_moving, hv, hdy, hgr, hcl, hbf, hdu, hsk, hki, hwb, hdb, hog, hvx]

/-- A `height_step` from a standard height ends at a standard height. -/
theorem standard_height_of_step (h0 h : ℚ) (hs : standard_height h0)
    (hstep : height_step h0 h) : standard_height h := by
  rcases hstep with h1 | h1
  · rw [h1]
    exact hs
  · exact h1

/-- Keeping the height, or setting a standard one, is a `height_step`. -/
theorem height_step_base (h0 : ℚ) :
    height_step h0 h0 ∧ height_step h0 30.8 ∧ height_step h0 31.8 ∧ height_step h0 62.8
      ∧ height_step h0 63.8 :=
  ⟨Or.inl rfl, Or.inr (Or.inl rfl), Or.inr (Or.inr (Or.inl rfl)),
    Or.inr (Or.inr (Or.inr (Or.inl rfl))), Or.inr (Or.inr (Or.inr (Or.inr rfl)))⟩

/-- The resize `adjust_height` to one of the four standard heights keeps a
`height_step`. -/
theorem adjust_height_step (env : Env) (s : Player) (h0 : ℚ)
    (h : height_step h0 s.bbox.get_height) :
    height_step h0 (s.adjust_height env 30.8).2.bbox.get_height
      ∧ height_step h0 (s.adjust_height env 31.8).2.bbox.get_height
      ∧ height_step h0 (s.adjust_height env 62.8).2.bbox.get_height
      ∧ height_step h0 (s.adjust_height env 63.8).2.bbox.get_height := by
  have key : ∀ n : ℚ, standard_height n →
      height_step h0 (s.adjust_height env n).2.bbox.get_height := by
    intro n hn
    cases hf : (s.adjust_height env n).1
    · have : (s.adjust_height env n).2 = s := by
        unfold adjust_height at hf ⊢
        split_ifs at hf ⊢
        rfl
      rw [this]
      exact h
    · right
      have hb := adjust_height_true_bbox env s n hf
      rw [hb]
      simp only [Rect.get_height]
      rw [show s.bbox.p2.y - (s.bbox.p2.y - n) = n by ring]
      exact hn
  exact ⟨key _ (Or.inl rfl), key _ (Or.inr (Or.inl rfl)), key _ (Or.inr (Or.inr (Or.inl rfl))),
    key _ (Or.inr (Or.inr (Or.inr rfl)))⟩

/-- The climbing exits, `set_ghost_mode`, the coin loop and the first statements of
`kill` keep the box. -/
theorem bbox_kept (env : Env) (s : Player) :
    (stop_climbing_if_climbing env s).bbox = s.bbox
      ∧ (stop_climbing env s).bbox = s.bbox
      ∧ (∀ b : Bool, (set_ghost_mode env s b).bbox = s.bbox)
      ∧ (∀ n : Nat, (add_falling_coins n s).bbox = s.bbox)
      ∧ (kill_begin env s).bbox = s.bbox := by
  refine ⟨?_, ?_, ?_, ?_, ?_⟩
  · obtain ⟨g, u, ph, j, og, cj, snd, h⟩ := stop_climbing_if_climbing_shape env s
    rw [h]
  · rw [← stop_climbing_if_climbing_eq]
    obtain ⟨g, u, ph, j, og, cj, snd, h⟩ := stop_climbing_if_climbing_shape env s
    rw [h]
  · intro b
    obtain ⟨gm, gr, c, g, u, ph, j, og, cj, snd, lg, h, -⟩ := set_ghost_mode_shape env s b
    rw [h]
  · intro n
    rw [add_falling_coins_shape]
  · obtain ⟨g, u, ph, j, og, cj, snd, h⟩ := kill_begin_shape env s
    rw [h]

/-- The second part of `set_bonus` keeps the box. -/
theorem set_bonus_commit_bbox (env : Env) (s : Player) (type : BonusType) (animate : Bool) :
    (set_bonus_commit env s type animate).bbox = s.bbox := by
  have hs : ∀ t : Player, (stop_climbing_if_climbing env t).bbox = t.bbox :=
    fun t => (bbox_kept env t).1
  simp only [set_bonus_commit, add_object, apply_ite Player.bbox, hs, ite_self]

/-- The member `set_bonus` keeps a `height_step`. -/
theorem set_bonus_step (env : Env) (s : Player) (type : BonusType) (animate : Bool) (h0 : ℚ)
    (h : height_step h0 s.bbox.get_height) :
    height_step h0 (set_bonus env s type animate).2.bbox.get_height := by
  have hs : ∀ t : Player, (stop_climbing_if_climbing env t).bbox = t.bbox :=
    fun t => (bbox_kept env t).1
  have ha := (adjust_height_step env s h0 h).2.2.1
  simp only [set_bonus, apply_ite Prod.snd, apply_ite Player.bbox, apply_ite Rect.get_height,
    apply_ite (height_step h0), set_bonus_commit_bbox, hs, ha, h, ite_self]

/-- The member `kill` keeps a `height_step`. -/
theorem kill_step (env : Env) (s : Player) (completely : Bool) (h0 : ℚ)
    (h : height_step h0 s.bbox.get_height) :
    height_step h0 (kill env s completely).bbox.get_height := by
  have hk := (bbox_kept env s).2.2.2.2
  have hg : ∀ (t : Player) (b : Bool), (set_ghost_mode env t b).bbox = t.bbox :=
    fun t b => (bbox_kept env t).2.2.1 b
  have hc : ∀ (t : Player) (n : Nat), (add_falling_coins n t).bbox = t.bbox :=
    fun t n => (bbox_kept env t).2.2.2.1 n
  have h30 : ∀ t : Player, height_step h0 t.bbox.get_height →
      height_step h0 (t.adjust_height env 30.8).2.bbox.get_height :=
    fun t ht => (adjust_height_step env t h0 ht).1
  have hsb : ∀ (t : Player) (ty : BonusType) (a : Bool), height_step h0 t.bbox.get_height →
      height_step h0 (set_bonus env t ty a).2.bbox.get_height :=
    fun t ty a ht => set_bonus_step env t ty a h0 ht
  have hdem : height_step h0 (kill_demote env (kill_begin env s)).bbox.get_height := by
    have hb : height_step h0 (kill_begin env s).bbox.get_height := by rw [hk]; exact h
    generalize kill_begin env s = t at hb
    simp only [kill_demote]
    split_ifs
    · exact hsb _ _ _ hb
    · exact hsb _ _ _ (h30 _ hb)
    · exact h30 _ hb
    · exact hb
  have hdie : height_step h0 (kill_die env (kill_begin env s)).bbox.get_height := by
    have hb : height_step h0 (kill_begin env s).bbox.get_height := by rw [hk]; exact h
    generalize kill_begin env s = t at hb
    simp only [kill_die, set_group]
    split_ifs
    · rw [hg]
      exact hb
    · refine hsb _ _ _ ?_
      show height_step h0 (add_falling_coins 5 t).bbox.get_height
      rw [hc]
      exact hb
    · exact hsb _ _ _ hb
  simp only [kill]
  split_ifs
  · exact h
  · exact h
  · exact hdem
  · exact hdie

/-- The members `do_duck` and `do_standup` keep a `height_step`. -/
theorem do_duck_standup_step (env : Env) (s : Player) (h0 : ℚ)
    (h : height_step h0 s.bbox.get_height) :
    height_step h0 (do_duck env s).bbox.get_height
      ∧ height_step h0 (do_standup env s).bbox.get_height := by
  have ha := adjust_height_step env s h0 h
  constructor
  · simp only [do_duck]
    split_ifs <;> first | exact h | exact ha.2.1
  · simp only [do_standup]
    split_ifs <;>
      first
      | exact h
      | exact ha.2.2.2
      | exact kill_step env _ false h0 ha.2.2.2

/-- The input handlers other than ducking and standing up keep the box. -/
theorem handle_bbox_kept (env : Env) (s : Player) :
    (handle_peeking env s).bbox = s.bbox
      ∧ (handle_horizontal_input env s).bbox = s.bbox
      ∧ (handle_vertical_input env s).bbox = s.bbox
      ∧ (handle_shooting env s).bbox = s.bbox
      ∧ (try_grab env s).bbox = s.bbox
      ∧ (handle_release env s).bbox = s.bbox
      ∧ (handle_input_ghost env s).bbox = s.bbox
      ∧ (handle_input_climbing env s).bbox = s.bbox
      ∧ (apply_friction s).bbox = s.bbox := by
  have hf : ∀ t : Player, (apply_friction t).bbox = t.bbox := by
    intro t
    simp only [apply_friction, apply_ite Player.bbox, ite_self]
  have hsc : ∀ t : Player, (stop_climbing env t).bbox = t.bbox :=
    fun t => (bbox_kept env t).2.1
  have hg : ∀ (t : Player) (b : Bool), (set_ghost_mode env t b).bbox = t.bbox :=
    fun t b => (bbox_kept env t).2.2.1 b
  have hj : ∀ (t : Player) (y : ℚ), (do_jump t y).bbox = t.bbox :=
    fun t y => (do_jump_frame t y).2.2.2.2.2.1
  have hb : ∀ t : Player, (do_backflip env t).bbox = t.bbox :=
    fun t => (do_backflip_frame env t).2.2.2.1
  refine ⟨?_, ?_, ?_, ?_, ?_, ?_, ?_, ?_, hf s⟩
  · simp only [handle_peeking, apply_ite Player.bbox, ite_self]
  · simp only [handle_horizontal_input, horizontal_turn, play_sound, add_object,
      apply_ite Player.bbox, hf, ite_self]
  · have hk : (handle_jump_key env s).bbox = s.bbox := by
      simp only [handle_jump_key, early_jump_apex, apply_ite Player.bbox, hj, hb, ite_self]
    simp only [handle_vertical_input]
    generalize handle_jump_key env s = m at hk
    simp only [do_jump_apex, apply_ite Player.bbox, hk, ite_self]
  · simp only [handle_shooting, add_object, apply_ite Player.bbox, ite_self]
  · unfold try_grab
    split_ifs
    · rw [try_grab_loop_eq_find]
      cases List.find? (within_reach (try_grab_reach s)) env.portables with
      | none => rfl
      | some p =>
        obtain ⟨g, u, ph, j, og, cj, snd, h⟩ := stop_climbing_if_climbing_shape env s
        simp [grab_portable, h]
    · rfl
  · unfold handle_release
    cases s.grabbed_object <;> simp only [apply_ite Player.bbox, ite_self]
  · simp only [handle_input_ghost, apply_ite Player.bbox, hg, ite_self]
  · simp only [handle_input_climbing, apply_ite Player.bbox, hsc, ite_self]

/-- The member `handle_input` keeps a `height_step`. -/
theorem handle_input_step (env : Env) (s : Player) (h0 : ℚ)
    (h : height_step h0 s.bbox.get_height) :
    height_step h0 (handle_input env s).bbox.get_height := by
  have hk := fun t : Player => handle_bbox_kept env t
  by_cases hgm : s.ghost_mode = true
  · simp only [handle_input, hgm, if_true]
    rw [(hk s).2.2.2.2.2.2.1]
    exact h
  · by_cases hcl : s.climbing.isSome = true
    · simp only [handle_input, hgm, hcl, Bool.false_eq_true, if_false, if_true]
      rw [(hk s).2.2.2.2.2.2.2.1]
      exact h
    · simp only [handle_input, hgm, hcl, Bool.false_eq_true, if_false]
      have h1 : height_step h0 (handle_peeking env s).bbox.get_height := by
        rw [(hk s).1]
        exact h
      generalize handle_peeking env s = s1 at h1 ⊢
      have h2 : height_step h0 (if (!s1.backflipping) = true then handle_horizontal_input env s1
          else s1).bbox.get_height := by
        split_ifs
        · rw [(hk s1).2.1]
          exact h1
        · exact h1
      generalize (if (!s1.backflipping) = true then handle_horizontal_input env s1 else s1)
        = s2 at h2 ⊢
      have h3 : height_step h0 (if s2.on_ground = true then ({ s2 with can_jump := true } : Player)
          else s2).bbox.get_height := by
        split_ifs <;> exact h2
      generalize (if s2.on_ground = true then ({ s2 with can_jump := true } : Player) else s2)
        = s3 at h3 ⊢
      have h4 : height_step h0 (handle_shooting env (handle_vertical_input env s3)).bbox.get_height := by
        rw [(hk _).2.2.2.1, (hk s3).2.2.1]
        exact h3
      generalize handle_shooting env (handle_vertical_input env s3) = s4 at h4 ⊢
      have h5 : height_step h0 (if env.hold Control.DOWN = true then do_duck env s4
          else do_standup env s4).bbox.get_height := by
        split_ifs
        · exact (do_duck_standup_step env s4 h0 h4).1
        · exact (do_duck_standup_step env s4 h0 h4).2
      generalize (if env.hold Control.DOWN = true then do_duck env s4 else do_standup env s4)
        = s5 at h5 ⊢
      rw [(hk _).2.2.2.2.2.1, (hk s5).2.2.2.2.1]
      exact h5

/-- The member `update` keeps a `height_step`. -/
theorem update_step (env : Env) (s : Player) (elapsed_time : ℚ) (h0 : ℚ)
    (h : height_step h0 s.bbox.get_height) :
    height_step h0 (update env s elapsed_time).bbox.get_height := by
  have hw : (update_no_water s).bbox = s.bbox := by
    simp only [update_no_water, apply_ite Player.bbox, ite_self]
  have h1 : height_step h0 (update_no_water s).bbox.get_height := by
    rw [hw]
    exact h
  simp only [update]
  generalize update_no_water s = s1 at h1 ⊢
  split_ifs
  · exact h1
  · have hfin : ∀ t : Player, (update_finish env t elapsed_time).bbox = t.bbox := by
      intro t
      unfold update_finish
      cases t.grabbed_object <;> simp only [add_object, apply_ite Player.bbox, ite_self]
    rw [hfin]
    simp only [update_motion, update_before_fall_mode]
    have h2 : height_step h0 (update_input env s1).bbox.get_height := by
      simp only [update_input]
      have hi : height_step h0 (if s1.dying = false ∧ s1.deactivated = false then
          handle_input env s1 else s1).bbox.get_height := by
        split_ifs
        · exact handle_input_step env s1 h0 h1
        · exact h1
      generalize (if s1.dying = false ∧ s1.deactivated = false then handle_input env s1 else s1)
        = s2 at hi ⊢
      split_ifs
      · rw [(handle_bbox_kept env s2).2.2.2.2.2.2.2.2]
        exact hi
      · exact hi
    generalize update_input env s1 = s2 at h2 ⊢
    have h3 : height_step h0
        (update_fall_mode (update_backflip env (update_slope (update_width s2)))).bbox.get_height := by
      have he : (update_fall_mode (update_backflip env (update_slope (update_width s2)))).bbox.get_height
          = s2.bbox.get_height := by
        simp only [update_fall_mode, update_backflip, update_slope, update_width, set_width,
          Rect.set_width, Rect.get_height, apply_ite Player.bbox, apply_ite Rect.p1,
          apply_ite Rect.p2, apply_ite Vector.y, ite_self]
      rw [he]
      exact h2
    generalize update_fall_mode (update_backflip env (update_slope (update_width s2))) = s3
      at h3 ⊢
    simp only [update_landed]
    split_ifs
    · refine (do_duck_standup_step env _ h0 ?_).2
      exact h3
    · exact h3
    · exact h3
    · exact h3

/-- The collision callbacks, `add_bonus` and `move` keep a `height_step`. -/
theorem collision_step (env : Env) (s : Player) (h0 : ℚ)
    (h : height_step h0 s.bbox.get_height) :
    (∀ hit : CollisionHit, height_step h0 (collision_solid env s hit).bbox.get_height)
      ∧ (∀ a : TileAttributes, height_step h0 (collision_tile env s a).bbox.get_height)
      ∧ (∀ (o : OtherObject) (hit : CollisionHit),
          height_step h0 (collision env s o hit).2.bbox.get_height)
      ∧ (∀ (b : BonusType) (a : Bool), height_step h0 (add_bonus env s b a).2.bbox.get_height) := by
  refine ⟨?_, ?_, ?_, ?_⟩
  · intro hit
    have hkill : ∀ (t : Player) (c : Bool), height_step h0 t.bbox.get_height →
        height_step h0 (kill env t c).bbox.get_height := fun t c ht => kill_step env t c h0 ht
    simp only [collision_solid, add_object, apply_ite Player.bbox, apply_ite Rect.get_height,
      apply_ite (height_step h0), hkill, h, ite_self]
  · intro a
    have hkill : ∀ (t : Player) (c : Bool), height_step h0 t.bbox.get_height →
        height_step h0 (kill env t c).bbox.get_height := fun t c ht => kill_step env t c h0 ht
    simp only [collision_tile, apply_ite Player.bbox, apply_ite Rect.get_height,
      apply_ite (height_step h0), hkill, h, ite_self]
  · intro o hit
    have hb : (collision env s o hit).2.bbox = s.bbox := by
      unfold collision
      cases o.trigger <;>
        simp only [apply_ite Prod.snd, apply_ite Player.bbox, handle_bbox_kept, ite_self]
    rw [hb]
    exact h
  · intro b a
    simp only [add_bonus]
    split_ifs <;>
      first
      | exact h
      | exact set_bonus_step env s b a h0 h

/-- After `init` the box has the height 62.8 of big Tux or 30.8 of small Tux. -/
theorem init_standard_height (s : Player) : standard_height (init s).bbox.get_height := by
  rw [(init_spec s).2.2.2.2.2.2.2]
  split_ifs
  · right; right; left
    simp [Rect.set_size, Rect.set_width, Rect.set_height, Rect.get_height]
  · left
    simp [Rect.set_size, Rect.set_width, Rect.set_height, Rect.get_height]

/-- In every state reachable from `init` the box has one of the four standard heights,
so it is at least 30.8 high. -/
theorem reachable_standard_height (s : Player) (h : Reachable s) :
    standard_height s.bbox.get_height ∧ 30.8 ≤ s.bbox.get_height := by
  have hstd : standard_height s.bbox.get_height := by
    induction h with
    | init s => exact init_standard_height s
    | update env s dt _ ih =>
      exact standard_height_of_step _ _ ih (update_step env s dt _ (Or.inl rfl))
    | kill env s c _ ih =>
      exact standard_height_of_step _ _ ih (kill_step env s c _ (Or.inl rfl))
    | handle_input env s _ ih =>
      exact standard_height_of_step _ _ ih (handle_input_step env s _ (Or.inl rfl))
    | collision_solid env s hit _ ih =>
      exact standard_height_of_step _ _ ih ((collision_step env s _ (Or.inl rfl)).1 hit)
    | collision_tile env s ta _ ih =>
      exact standard_height_of_step _ _ ih ((collision_step env s _ (Or.inl rfl)).2.1 ta)
    | collision env s other hit _ ih =>
      exact standard_height_of_step _ _ ih ((collision_step env s _ (Or.inl rfl)).2.2.1 other hit)
    | set_bonus env s type animate _ ih =>
      exact standard_height_of_step _ _ ih (set_bonus_step env s type animate _ (Or.inl rfl))
    | add_bonus env s type animate _ ih =>
      exact standard_height_of_step _ _ ih
        ((collision_step env s _ (Or.inl rfl)).2.2.2 type animate)
    | set_ghost_mode env s enable _ ih =>
      rw [(bbox_kept env s).2.2.1 enable]
      exact ih
    | stop_climbing env s _ ih =>
      rw [(bbox_kept env s).2.1]
      exact ih
  refine ⟨hstd, ?_⟩
  rcases hstd with h1 | h1 | h1 | h1 <;> rw [h1] <;> norm_num

/-- The guards of `kill` after `init`: the player is neither dying nor deactivated, and
the safe and invincibility timers are those from before the call. -/
theorem init_guards (s : Player) :
    (init s).dying = false
      ∧ (init s).deactivated = false
      ∧ (init s).safe_timer = s.safe_timer
      ∧ (init s).invincible_timer = s.invincible_timer := by
  simp only [init, set_size, apply_ite Player.safe_timer, apply_ite Player.invincible_timer,
    ite_self, and_self]

end Player

/-! ## Lemmas on the igel -/

namespace Igel

/-- The result of `can_see` as a proposition. -/
theorem can_see_iff (s : Igel) (o : MovingObject) :
    s.can_see o = true ↔
      (o.bbox.get_bottom ≥ s.bbox.get_top ∧ o.bbox.get_top ≤ s.bbox.get_bottom)
        ∧ ((s.dir = Direction.LEFT ∧ s.bbox.get_left - 256 ≤ o.bbox.get_right
              ∧ o.bbox.get_right < s.bbox.get_left)
          ∨ (s.dir = Direction.RIGHT ∧ s.bbox.get_right < o.bbox.get_left
              ∧ o.bbox.get_left ≤ s.bbox.get_right + 256)) := by
  simp only [can_see, RANGE_OF_VISION, Rect.get_bottom, Rect.get_top, Rect.get_left,
    Rect.get_right, Bool.and_eq_true, Bool.or_eq_true, decide_eq_true_eq, ge_iff_le, gt_iff_lt]
  constructor
  · rintro ⟨⟨h | h, ht⟩, hb⟩
    · refine ⟨⟨ht, hb⟩, Or.inl ?_⟩
      by_cases hd : s.dir = Direction.LEFT
      · rw [if_pos hd] at h
        exact ⟨hd, h.2, h.1⟩
      · rw [if_neg hd] at h
        exact absurd h.1 (not_lt.mpr (by linarith [h.2]))
    · refine ⟨⟨ht, hb⟩, Or.inr ?_⟩
      by_cases hd : s.dir = Direction.RIGHT
      · rw [if_pos hd] at h
        exact ⟨hd, h.1, h.2⟩
      · rw [if_neg hd] at h
        exact absurd h.1 (not_lt.mpr (by linarith [h.2]))
  · rintro ⟨⟨ht, hb⟩, ⟨hd, h1, h2⟩ | ⟨hd, h1, h2⟩⟩
    · refine ⟨⟨Or.inl ?_, ht⟩, hb⟩
      rw [if_pos hd]
      exact ⟨h2, h1⟩
    · refine ⟨⟨Or.inr ?_, ht⟩, hb⟩
      rw [if_pos hd]
      exact ⟨h1, h2⟩

/-- The loop keeps a flag that is already set. -/
theorem active_update_scan_true (s : Igel) (objects : List (Option Bullet)) :
    active_update_scan s objects true = true := by
  induction objects with
  | nil => rfl
  | cons o rest ih =>
    cases o with
    | none => exact ih
    | some bullet =>
      simp only [active_update_scan]
      split_ifs <;> exact ih

/-- The loop sets `wants_to_flee` exactly when some game object is a bullet of type
FIRE_BONUS that the igel can see. -/
theorem active_update_scan_false_iff (s : Igel) (objects : List (Option Bullet)) :
    active_update_scan s objects false = true ↔
      ∃ bullet, some bullet ∈ objects ∧ bullet.type = BonusType.FIRE_BONUS
        ∧ s.can_see bullet.moving_object = true := by
  induction objects with
  | nil => simp [active_update_scan]
  | cons o rest ih =>
    cases o with
    | none =>
      simp only [active_update_scan, ih, List.mem_cons]
      constructor
      · rintro ⟨b, hb, h⟩
        exact ⟨b, Or.inr hb, h⟩
      · rintro ⟨b, hb | hb, h⟩
        · exact absurd hb (by simp)
        · exact ⟨b, hb, h⟩
    | some bullet =>
      simp only [active_update_scan]
      split_ifs with h1 h2
      · rw [ih]
        constructor
        · rintro ⟨b, hb, h⟩
          exact ⟨b, List.mem_cons_of_mem _ hb, h⟩
        · rintro ⟨b, hb, h⟩
          rcases List.mem_cons.mp hb with hb | hb
          · have : b = bullet := Option.some.inj hb
            rw [this] at h
            exact absurd h.1 h1
          · exact ⟨b, hb, h⟩
      · rw [active_update_scan_true]
        simp only [true_iff]
        exact ⟨bullet, List.mem_cons_self _ _, not_not.mp h1, h2⟩
      · rw [ih]
        constructor
        · rintro ⟨b, hb, h⟩
          exact ⟨b, List.mem_cons_of_mem _ hb, h⟩
        · rintro ⟨b, hb, h⟩
          rcases List.mem_cons.mp hb with hb | hb
          · have : b = bullet := Option.some.inj hb
            rw [this] at h
            exact absurd h.2 h2
          · exact ⟨b, hb, h⟩

end Igel

/-! ## Properties claimed by the specification -/

/-- C1: for every player state and every new_height greater than the current
box height, if is_free_of_statics answers false on the added region (the
strip as wide as the box between the new and the old top edge), then
adjust_height(new_height) returns false and the state after the call, in
particular the bounding box (both corners, hence position and size), equals
the state before the call. -/
theorem C1_adjust_height_rejection_is_atomic (env : Env) (s : Player) (new_height : ℚ)
    (hgrow : new_height > s.bbox.get_height)
    (hblocked : env.is_free_of_statics
      ⟨⟨s.bbox.p1.x, s.bbox.p1.y - (new_height - s.bbox.get_height)⟩,
       ⟨s.bbox.p2.x, s.bbox.p1.y⟩⟩ = false) :
    (s.adjust_height env new_height).1 = false
      ∧ (s.adjust_height env new_height).2.bbox = s.bbox
      ∧ (s.adjust_height env new_height).2 = s := by
  rw [← Player.adjust_height_additional_space_eq] at hblocked
  have hret : (s.adjust_height env new_height).1 = false := by
    unfold Player.adjust_height
    simp [hgrow, hblocked]
  have hst := Player.adjust_height_false_state env s new_height hret
  exact ⟨hret, by rw [hst], hst⟩

/-- Witness for C1: the small sample player under a ceiling cannot grow to 62.8. -/
theorem C1_adjust_height_rejection_is_atomic_witness :
    ((sample_player.adjust_height (sample_env false) 62.8).1 = false
      ∧ (sample_player.adjust_height (sample_env false) 62.8).2.bbox = sample_player.bbox
      ∧ (sample_player.adjust_height (sample_env false) 62.8).2 = sample_player) :=
  C1_adjust_height_rejection_is_atomic (sample_env false) sample_player 62.8
    (by norm_num [sample_player, Rect.get_height]) rfl

/-- C2: whenever adjust_height(new_height) returns true, the resulting box is
anchored at the bottom edge: its height is new_height, its width, left edge
and right edge are unchanged, its bottom edge is the bottom edge before the
call, and its top edge has moved by old_height - new_height. -/
theorem C2_adjust_height_anchored_at_bottom (env : Env) (s : Player) (new_height : ℚ)
    (hret : (s.adjust_height env new_height).1 = true) :
    (s.adjust_height env new_height).2.bbox.get_height = new_height
      ∧ (s.adjust_height env new_height).2.bbox.get_width = s.bbox.get_width
      ∧ (s.adjust_height env new_height).2.bbox.get_left = s.bbox.get_left
      ∧ (s.adjust_height env new_height).2.bbox.get_right = s.bbox.get_right
      ∧ (s.adjust_height env new_height).2.bbox.get_bottom = s.bbox.get_bottom
      ∧ (s.adjust_height env new_height).2.bbox.get_top
          = s.bbox.get_top + (s.bbox.get_height - new_height) := by
  rw [Player.adjust_height_true_bbox env s new_height hret]
  simp only [Rect.get_height, Rect.get_width, Rect.get_left, Rect.get_right, Rect.get_bottom,
    Rect.get_top]
  refine ⟨?_, trivial, trivial, trivial, trivial, ?_⟩ <;> ring

/-- Witness for C2: the small sample player with free space above grows to 62.8. -/
theorem C2_adjust_height_anchored_at_bottom_witness :
    (sample_player.adjust_height (sample_env true) 62.8).2.bbox.get_height = 62.8
      ∧ (sample_player.adjust_height (sample_env true) 62.8).2.bbox.get_width
          = sample_player.bbox.get_width
      ∧ (sample_player.adjust_height (sample_env true) 62.8).2.bbox.get_left
          = sample_player.bbox.get_left
      ∧ (sample_player.adjust_height (sample_env true) 62.8).2.bbox.get_right
          = sample_player.bbox.get_right
      ∧ (sample_player.adjust_height (sample_env true) 62.8).2.bbox.get_bottom
          = sample_player.bbox.get_bottom
      ∧ (sample_player.adjust_height (sample_env true) 62.8).2.bbox.get_top
          = sample_player.bbox.get_top + (sample_player.bbox.get_height - 62.8) :=
  C2_adjust_height_anchored_at_bottom (sample_env true) sample_player 62.8
    (by simp [Player.adjust_height, sample_env])

/-- C3: adjust_height(new_height) returns true if and only if new_height is not
greater than the current height or is_free_of_statics holds for the added
strip, which has the horizontal extent of the box and reaches from the new
top edge to the old top edge; a call that does not grow the box succeeds
with the same result whatever the geometry answers. -/
theorem C3_adjust_height_succeeds_iff (env : Env) (s : Player) (new_height : ℚ) :
    ((s.adjust_height env new_height).1 = true ↔
        (new_height ≤ s.bbox.get_height ∨
          env.is_free_of_statics
            ⟨⟨s.bbox.get_left, s.bbox.get_top - (new_height - s.bbox.get_height)⟩,
             ⟨s.bbox.get_right, s.bbox.get_top⟩⟩ = true))
      ∧ (new_height ≤ s.bbox.get_height →
          (s.adjust_height env new_height).1 = true
            ∧ ∀ env2 : Env, s.adjust_height env2 new_height = s.adjust_height env new_height) := by
  constructor
  · rw [Player.adjust_height_true_iff, Player.adjust_height_additional_space_eq]
    rfl
  · intro hle
    have hnot : ¬ new_height > s.bbox.get_height := not_lt.mpr hle
    refine ⟨?_, fun env2 => ?_⟩
    · simp [Player.adjust_height, hnot]
    · simp [Player.adjust_height, hnot]

/-- Witness for C3: under a ceiling the small sample player cannot grow to 62.8
but can shrink to 20. -/
theorem C3_adjust_height_succeeds_iff_witness :
    (sample_player.adjust_height (sample_env false) 62.8).1 = false
      ∧ (sample_player.adjust_height (sample_env false) 20).1 = true := by
  constructor
  · have h := (C3_adjust_height_succeeds_iff (sample_env false) sample_player 62.8).1
    by_contra hne
    have htrue : (sample_player.adjust_height (sample_env false) 62.8).1 = true := by
      simpa using hne
    rcases h.mp htrue with hle | hfree
    · norm_num [sample_player, Rect.get_height] at hle
    · simp [sample_env] at hfree
  · exact ((C3_adjust_height_succeeds_iff (sample_env false) sample_player 20).2
      (by norm_num [sample_player, Rect.get_height])).1

/-- C4: for every state whose bonus is NO_BONUS and in which growing the box to
height 62.8 is blocked (adjust_height(62.8) returns false), set_bonus(type,
animate) returns false and leaves the player status (bonus,
max_fire_bullets, max_ice_bullets and coins), the bounding box, the growing
flag and the climbing reference unchanged; the only effect is the printed
message. -/
theorem C4_set_bonus_blocked_growth_fails (env : Env) (s : Player) (type : BonusType)
    (animate : Bool)
    (hsmall : s.player_status.bonus = BonusType.NO_BONUS)
    (hblocked : (s.adjust_height env 62.8).1 = false) :
    (s.set_bonus env type animate).1 = false
      ∧ (s.set_bonus env type animate).2.player_status = s.player_status
      ∧ (s.set_bonus env type animate).2.bbox = s.bbox
      ∧ (s.set_bonus env type animate).2.growing = s.growing
      ∧ (s.set_bonus env type animate).2.climbing = s.climbing
      ∧ (s.set_bonus env type animate).2 = { s with log := s.log ++ ["can\x27t adjust\n"] } := by
  have hst := Player.adjust_height_false_state env s 62.8 hblocked
  have hres : s.set_bonus env type animate
      = (false, { s with log := s.log ++ ["can\x27t adjust\n"] }) := by
    unfold Player.set_bonus
    simp [hsmall, hblocked, hst]
  rw [hres]
  exact ⟨rfl, rfl, rfl, rfl, rfl, rfl⟩

/-- Witness for C4: the small sample player under a ceiling is offered a fire flower. -/
theorem C4_set_bonus_blocked_growth_fails_witness :
    (sample_player.set_bonus (sample_env false) BonusType.FIRE_BONUS true).1 = false
      ∧ (sample_player.set_bonus (sample_env false) BonusType.FIRE_BONUS true).2.player_status
          = sample_player.player_status
      ∧ (sample_player.set_bonus (sample_env false) BonusType.FIRE_BONUS true).2.bbox
          = sample_player.bbox
      ∧ (sample_player.set_bonus (sample_env false) BonusType.FIRE_BONUS true).2.growing
          = sample_player.growing
      ∧ (sample_player.set_bonus (sample_env false) BonusType.FIRE_BONUS true).2.climbing
          = sample_player.climbing
      ∧ (sample_player.set_bonus (sample_env false) BonusType.FIRE_BONUS true).2
          = { sample_player with log := sample_player.log ++ ["can\x27t adjust\n"] } :=
  C4_set_bonus_blocked_growth_fails (sample_env false) sample_player BonusType.FIRE_BONUS true rfl
    (by norm_num [Player.adjust_height, sample_env, sample_player, Rect.get_height])

/-- C5 (the code at the failing input): for the small sample player (bonus
NO_BONUS, box height 30.8) under a ceiling, set_bonus(NO_BONUS, true), the
call kill makes on death, runs into the growth guard meant for upgrades and
returns false instead of true. -/
theorem C5_set_bonus_no_bonus_fails_when_small_and_blocked :
    sample_player.player_status.bonus = BonusType.NO_BONUS
      ∧ sample_player.bbox.get_height = 30.8
      ∧ (sample_player.set_bonus (sample_env false) BonusType.NO_BONUS true).1 = false := by
  refine ⟨rfl, ?_, ?_⟩
  · norm_num [sample_player, Rect.get_height]
  · norm_num [Player.set_bonus, Player.adjust_height, sample_env, sample_player, Rect.get_height]

/-- C6: for every state that is not dying, not deactivated, has neither the safe timer
nor the invincibility timer started, and is big, kill(false) demotes exactly
one bonus tier and does not start dying: from FIRE_BONUS or ICE_BONUS the
bonus becomes GROWUP_BONUS (not NO_BONUS), from GROWUP_BONUS it becomes
NO_BONUS with duck = false and box height 30.8, the height holding in every
state reachable from init() and more generally whenever the box is at least
30.8 high before the call, as with each of the heights 30.8, 31.8, 62.8 and
63.8 that player.cpp sets; in both cases max_fire_bullets and
max_ice_bullets are 0 afterwards and the safe timer has been started with
period TUX_SAFE_TIME at the current game time (so it is started when that
constant is positive). -/
theorem C6_kill_nonfatal_demotes_one_tier (env : Env) (s : Player)
    (hdying : s.dying = false) (hdeact : s.deactivated = false)
    (hsafe : s.safe_timer.started env.game_time = false)
    (hinv : s.invincible_timer.started env.game_time = false)
    (hbig : s.is_big = true) :
    (s.kill env false).dying = false
      ∧ (s.kill env false).safe_timer = Timer.start env.TUX_SAFE_TIME env.game_time
      ∧ (0 < env.TUX_SAFE_TIME → (s.kill env false).safe_timer.started env.game_time = true)
      ∧ (s.kill env false).player_status.max_fire_bullets = 0
      ∧ (s.kill env false).player_status.max_ice_bullets = 0
      ∧ ((s.player_status.bonus = BonusType.FIRE_BONUS
            ∨ s.player_status.bonus = BonusType.ICE_BONUS) →
          (s.kill env false).player_status.bonus = BonusType.GROWUP_BONUS)
      ∧ (s.player_status.bonus = BonusType.GROWUP_BONUS →
          (s.kill env false).player_status.bonus = BonusType.NO_BONUS
            ∧ (s.kill env false).duck = false
            ∧ (30.8 ≤ s.bbox.get_height → (s.kill env false).bbox.get_height = 30.8)
            ∧ (Reachable s → (s.kill env false).bbox.get_height = 30.8)) := by
  have hne : s.player_status.bonus ≠ BonusType.NO_BONUS := by
    intro h
    simp [Player.is_big, h] at hbig
  have hkill : s.kill env false = Player.kill_demote env (Player.kill_begin env s) := by
    rw [Player.kill_of_passed env s false hdying hdeact (by simp [hsafe, hinv])]
    simp [hbig]
  obtain ⟨hc, -, -, hbox, -, hst, hdy, -, -, -, -, -, -, -, -⟩ := Player.kill_begin_frame env s
  obtain ⟨h1, h2, h3, h4, h5, h6⟩ :=
    Player.kill_demote_spec env (Player.kill_begin env s) hc (by rw [hst]; exact hne)
  rw [hkill]
  rw [hst] at h5 h6
  rw [hbox] at h6
  refine ⟨by rw [h1, hdy, hdying], h2, ?_, h3, h4, h5, ?_⟩
  · intro hpos
    rw [h2]
    simp [Timer.started, Timer.start, Timer.get_timeleft, hpos, ne_of_gt hpos]
  · intro hg
    exact ⟨(h6 hg).1, (h6 hg).2.1, (h6 hg).2.2,
      fun hr => (h6 hg).2.2 (Player.reachable_standard_height s hr).2⟩

/-- Witness for C6: a fire Tux of standing height is hit once and keeps the
grown form; a grown Tux of standing height is hit once and becomes small
with box height 30.8, and so does the grown Tux as init() leaves it. -/
theorem C6_kill_nonfatal_demotes_one_tier_witness :
    (((sample_player_with BonusType.FIRE_BONUS 62.8).kill (sample_env true) false).dying = false
      ∧ ((sample_player_with BonusType.FIRE_BONUS 62.8).kill (sample_env true) false).player_status.bonus
          = BonusType.GROWUP_BONUS)
      ∧ (((sample_player_with BonusType.GROWUP_BONUS 62.8).kill (sample_env true) false).player_status.bonus
          = BonusType.NO_BONUS
        ∧ ((sample_player_with BonusType.GROWUP_BONUS 62.8).kill (sample_env true) false).bbox.get_height
          = 30.8)
      ∧ ((Player.init (sample_player_with BonusType.GROWUP_BONUS 62.8)).kill
          (sample_env true) false).bbox.get_height = 30.8 := by
  have h := C6_kill_nonfatal_demotes_one_tier (sample_env true)
    (sample_player_with BonusType.FIRE_BONUS 62.8) rfl rfl
    (by simp [Timer.started, sample_player_with, sample_player])
    (by simp [Timer.started, sample_player_with, sample_player])
    rfl
  have h2 := (C6_kill_nonfatal_demotes_one_tier (sample_env true)
    (sample_player_with BonusType.GROWUP_BONUS 62.8) rfl rfl
    (by simp [Timer.started, sample_player_with, sample_player])
    (by simp [Timer.started, sample_player_with, sample_player])
    rfl).2.2.2.2.2.2 rfl
  have hi := Player.init_guards (sample_player_with BonusType.GROWUP_BONUS 62.8)
  have hs := Player.init_spec (sample_player_with BonusType.GROWUP_BONUS 62.8)
  have h3 := (C6_kill_nonfatal_demotes_one_tier (sample_env true)
    (Player.init (sample_player_with BonusType.GROWUP_BONUS 62.8)) hi.1 hi.2.1
    (by rw [hi.2.2.1]; simp [Timer.started, sample_player_with, sample_player])
    (by rw [hi.2.2.2]; simp [Timer.started, sample_player_with, sample_player])
    (by simp only [Player.is_big, hs.2.2.2.2.2.2.1]; rfl)).2.2.2.2.2.2
    (by rw [hs.2.2.2.2.2.2.1]; rfl)
  exact ⟨⟨h.1, h.2.2.2.2.2.1 (Or.inl rfl)⟩,
    ⟨h2.1, h2.2.2.1 (by norm_num [sample_player_with, Rect.get_height])⟩,
    h3.2.2.2 (Reachable.init _)⟩

/-- C7: for every state that is not dying, not deactivated and not in edit
mode, a fatal kill(true) applies the coin penalty as follows: if coins >= 25
and the reset-point sector name is non-empty, exactly 5 FallingCoin objects
are added to the sector and coins becomes coins - max(coins div 10, 25),
which is not negative; otherwise no FallingCoin is added, coins is unchanged
and the reset-point sector name is cleared. -/
theorem C7_kill_fatal_coin_penalty (env : Env) (s : Player)
    (hdying : s.dying = false) (hdeact : s.deactivated = false)
    (hedit : s.edit_mode = false) :
    ((s.player_status.coins ≥ 25 ∧ s.reset_point_sectorname ≠ "") →
        (s.kill env true).sector_objects.count GameObject.FallingCoin
            = s.sector_objects.count GameObject.FallingCoin + 5
          ∧ (s.kill env true).player_status.coins
              = s.player_status.coins - max (s.player_status.coins / 10) 25
          ∧ 0 ≤ (s.kill env true).player_status.coins)
      ∧ (¬ (s.player_status.coins ≥ 25 ∧ s.reset_point_sectorname ≠ "") →
          (s.kill env true).sector_objects.count GameObject.FallingCoin
              = s.sector_objects.count GameObject.FallingCoin
            ∧ (s.kill env true).player_status.coins = s.player_status.coins
            ∧ (s.kill env true).reset_point_sectorname = "") := by
  obtain ⟨hc, -, -, -, -, hst, -, -, he, -, -, -, -, hobj, hrp⟩ := Player.kill_begin_frame env s
  obtain ⟨-, -, -, -, -, -, -, -, -, -, hpen, hnopen⟩ :=
    Player.kill_die_spec env (Player.kill_begin env s) hc (by rw [he, hedit])
  rw [Player.kill_fatal_of_passed env s hdying hdeact]
  rw [hst, hobj, hrp] at hpen hnopen
  refine ⟨fun h => ?_, hnopen⟩
  obtain ⟨h1, h2⟩ := hpen h
  have hpos : (0 : Int) ≤ s.player_status.coins := by have := h.1; omega
  have hdiv : Int.tdiv s.player_status.coins 10 = s.player_status.coins / 10 :=
    Int.tdiv_eq_ediv hpos (by norm_num)
  rw [hdiv] at h2
  refine ⟨h1, h2, ?_⟩
  rw [h2]
  have := h.1
  omega

/-- Witness for C7: the sample player (30 coins, reset point in sector "main")
dies: 5 falling coins are added and 5 coins remain. -/
theorem C7_kill_fatal_coin_penalty_witness :
    (sample_player.kill (sample_env true) true).sector_objects.count GameObject.FallingCoin = 5
      ∧ (sample_player.kill (sample_env true) true).player_status.coins = 5 := by
  have h := (C7_kill_fatal_coin_penalty (sample_env true) sample_player rfl rfl rfl).1
    (by refine ⟨by decide, by decide⟩)
  refine ⟨?_, ?_⟩
  · rw [h.1]; rfl
  · rw [h.2.1]; decide

/-- C8: for every state in which dying or deactivated is true, kill(completely),
for either value of completely, leaves the entire player state and player
status unchanged; hence for every state two successive kill(true) calls
leave the coins as the first call left them (coins are deducted at most
once), and outside edit mode the second call changes nothing at all. -/
theorem C8_kill_is_noop_when_dying_or_deactivated (env env2 : Env) (s : Player)
    (completely : Bool) :
    ((s.dying = true ∨ s.deactivated = true) → s.kill env completely = s)
      ∧ ((s.kill env true).kill env2 true).player_status.coins
          = (s.kill env true).player_status.coins
      ∧ (s.edit_mode = false → (s.kill env true).kill env2 true = s.kill env true) := by
  refine ⟨Player.kill_of_dying_or_deactivated env s completely, ?_, ?_⟩
  · rcases Player.kill_fatal_result env s with h | h | ⟨h, -⟩
    · rw [Player.kill_of_dying_or_deactivated env2 _ true (Or.inl h)]
    · rw [Player.kill_of_dying_or_deactivated env2 _ true (Or.inr h)]
    · rw [Player.kill_fatal_edit_mode_status env2 _ h]
  · intro hedit
    cases hd : s.dying with
    | true =>
      rw [Player.kill_of_dying_or_deactivated env s true (Or.inl hd)]
      exact Player.kill_of_dying_or_deactivated env2 s true (Or.inl hd)
    | false =>
      cases hdeact : s.deactivated with
      | true =>
        rw [Player.kill_of_dying_or_deactivated env s true (Or.inr hdeact)]
        exact Player.kill_of_dying_or_deactivated env2 s true (Or.inr hdeact)
      | false =>
        obtain ⟨hc, -, -, -, -, -, -, -, he, -⟩ := Player.kill_begin_frame env s
        have hdy : (s.kill env true).dying = true := by
          rw [Player.kill_fatal_of_passed env s hd hdeact]
          exact (Player.kill_die_spec env (Player.kill_begin env s) hc (by rw [he, hedit])).1
        exact Player.kill_of_dying_or_deactivated env2 _ true (Or.inl hdy)

/-- Witness for C8: a dying sample player is killed again, fatally. -/
theorem C8_kill_is_noop_when_dying_or_deactivated_witness :
    ({ sample_player with dying := true } : Player).kill (sample_env true) true
      = { sample_player with dying := true } :=
  (C8_kill_is_noop_when_dying_or_deactivated (sample_env true) (sample_env true)
    { sample_player with dying := true } true).1 (Or.inl rfl)

/-- C9: for every state in which the safe timer or the invincibility timer is
started, kill(false) leaves the entire player state and player status
unchanged, whereas kill(true) is not blocked by either timer: if the player
is neither dying nor deactivated, both guards are passed and the body of
kill runs, so that the player enters the dying sequence (dying = true) or,
in edit mode, ghost mode. -/
theorem C9_kill_nonfatal_ignored_while_shielded (env : Env) (s : Player)
    (hshield : s.safe_timer.started env.game_time = true
      ∨ s.invincible_timer.started env.game_time = true) :
    s.kill env false = s
      ∧ (s.dying = false → s.deactivated = false →
          s.kill env true = Player.kill_die env (Player.kill_begin env s)
            ∧ (s.edit_mode = false → (s.kill env true).dying = true)
            ∧ (s.edit_mode = true → (s.kill env true).ghost_mode = true)) := by
  constructor
  · unfold Player.kill
    rcases hshield with h | h <;> simp [h]
  · intro hd hdeact
    obtain ⟨hc, -, -, -, -, -, -, -, he, -⟩ := Player.kill_begin_frame env s
    rw [Player.kill_fatal_of_passed env s hd hdeact]
    refine ⟨rfl, ?_, ?_⟩
    · intro hedit
      exact (Player.kill_die_spec env (Player.kill_begin env s) hc (by rw [he, hedit])).1
    · intro hedit
      have he2 : (Player.kill_begin env s).edit_mode = true := by rw [he, hedit]
      simp only [Player.kill_die, he2, if_true]
      exact (Player.set_ghost_mode_frame env (Player.kill_begin env s) true).2.2.2.2 rfl

/-- Witness for C9: the sample player with a running safe timer is hit. -/
theorem C9_kill_nonfatal_ignored_while_shielded_witness :
    ({ sample_player with safe_timer := Timer.start 1 0 } : Player).kill (sample_env true) false
      = { sample_player with safe_timer := Timer.start 1 0 } :=
  (C9_kill_nonfatal_ignored_while_shielded (sample_env true)
    { sample_player with safe_timer := Timer.start 1 0 }
    (Or.inl (by simp [Timer.started, Timer.start, Timer.get_timeleft, sample_env]))).1

/-- C10: for every state that is not dying, not deactivated and not in edit
mode, kill(true), and also kill(false) when the player is unshielded and has
NO_BONUS, enters the dying sequence: afterwards dying = true, velocity =
(0, -700), acceleration = (0, 0), gravity is enabled, bonus = NO_BONUS,
climbing is null, the collision group is COLGROUP_DISABLED and the dying
timer has been started with period 3.0 at the current game time (and so is
started). -/
theorem C10_kill_enters_dying_sequence (env : Env) (s : Player) (completely : Bool)
    (hdying : s.dying = false) (hdeact : s.deactivated = false) (hedit : s.edit_mode = false)
    (hfatal : completely = true ∨
      (s.safe_timer.started env.game_time = false
        ∧ s.invincible_timer.started env.game_time = false
        ∧ s.player_status.bonus = BonusType.NO_BONUS)) :
    (s.kill env completely).dying = true
      ∧ (s.kill env completely).physic.vx = 0
      ∧ (s.kill env completely).physic.vy = -700
      ∧ (s.kill env completely).physic.ax = 0
      ∧ (s.kill env completely).physic.ay = 0
      ∧ (s.kill env completely).physic.gravity_enabled = true
      ∧ (s.kill env completely).player_status.bonus = BonusType.NO_BONUS
      ∧ (s.kill env completely).climbing = none
      ∧ (s.kill env completely).group = CollisionGroup.COLGROUP_DISABLED
      ∧ (s.kill env completely).dying_timer = Timer.start 3 env.game_time
      ∧ (s.kill env completely).dying_timer.get_period = 3
      ∧ (s.kill env completely).dying_timer.started env.game_time = true := by
  have hguard : (!completely && (s.safe_timer.started env.game_time
      || s.invincible_timer.started env.game_time)) = false := by
    rcases hfatal with h | ⟨h1, h2, -⟩
    · simp [h]
    · simp [h1, h2]
  have hbranch : (!completely && s.is_big) = false := by
    rcases hfatal with h | ⟨-, -, h⟩
    · simp [h]
    · simp [Player.is_big, h]
  obtain ⟨hc, -, -, -, -, -, -, -, he, -⟩ := Player.kill_begin_frame env s
  obtain ⟨h1, h2, h3, h4, h5, h6, h7, h8, h9, h10, -, -⟩ :=
    Player.kill_die_spec env (Player.kill_begin env s) hc (by rw [he, hedit])
  rw [Player.kill_of_passed env s completely hdying hdeact hguard]
  simp only [hbranch, Bool.false_eq_true, if_false]
  refine ⟨h1, h2, h3, h4, h5, h6, h7, h8, h9, h10, ?_, ?_⟩
  · rw [h10]; rfl
  · rw [h10]
    simp [Timer.started, Timer.start, Timer.get_timeleft]

/-- Witness for C10: the small sample player, unshielded, is hit non-fatally and dies. -/
theorem C10_kill_enters_dying_sequence_witness :
    (sample_player.kill (sample_env true) false).dying = true
      ∧ (sample_player.kill (sample_env true) false).physic.vy = -700
      ∧ (sample_player.kill (sample_env true) false).group = CollisionGroup.COLGROUP_DISABLED := by
  have h := C10_kill_enters_dying_sequence (sample_env true) sample_player false rfl rfl rfl
    (Or.inr ⟨by simp [Timer.started, sample_player], by simp [Timer.started, sample_player], rfl⟩)
  exact ⟨h.1, h.2.2.1, h.2.2.2.2.2.2.2.2.1⟩

/-- C11: the string-based add_bonus(bonustype) raises an error if and only if
bonustype is not one of "grow", "fireflower", "iceflower", "none"; when it
raises, the state (player and player status) is the state before the call,
and otherwise it returns the flag and the state of add_bonus on
GROWUP_BONUS, FIRE_BONUS, ICE_BONUS or NO_BONUS respectively. -/
theorem C11_add_bonus_by_name_raises_iff_unknown (env : Env) (s : Player) (bonustype : String)
    (animate : Bool) :
    ((∃ msg, (s.add_bonus_by_name env bonustype animate).1 = Except.error msg) ↔
        (bonustype ≠ "grow" ∧ bonustype ≠ "fireflower" ∧ bonustype ≠ "iceflower"
          ∧ bonustype ≠ "none"))
      ∧ (∀ msg, (s.add_bonus_by_name env bonustype animate).1 = Except.error msg →
          (s.add_bonus_by_name env bonustype animate).2 = s)
      ∧ (bonustype = "grow" →
          s.add_bonus_by_name env bonustype animate
            = (Except.ok (s.add_bonus env BonusType.GROWUP_BONUS animate).1,
                (s.add_bonus env BonusType.GROWUP_BONUS animate).2))
      ∧ (bonustype = "fireflower" →
          s.add_bonus_by_name env bonustype animate
            = (Except.ok (s.add_bonus env BonusType.FIRE_BONUS animate).1,
                (s.add_bonus env BonusType.FIRE_BONUS animate).2))
      ∧ (bonustype = "iceflower" →
          s.add_bonus_by_name env bonustype animate
            = (Except.ok (s.add_bonus env BonusType.ICE_BONUS animate).1,
                (s.add_bonus env BonusType.ICE_BONUS animate).2))
      ∧ (bonustype = "none" →
          s.add_bonus_by_name env bonustype animate
            = (Except.ok (s.add_bonus env BonusType.NO_BONUS animate).1,
                (s.add_bonus env BonusType.NO_BONUS animate).2)) := by
  refine ⟨?_, ?_, ?_, ?_, ?_, ?_⟩
  · unfold Player.add_bonus_by_name
    split_ifs with h1 h2 h3 h4
    · simp [h1]
    · simp [h2]
    · simp [h3]
    · simp [h4]
    · simp [h1, h2, h3, h4]
  · intro msg
    unfold Player.add_bonus_by_name
    split_ifs
    · intro h; simp at h
    · intro h; simp at h
    · intro h; simp at h
    · intro h; simp at h
    · intro _; rfl
  · intro h
    subst h
    rfl
  · intro h
    subst h
    rfl
  · intro h
    subst h
    rfl
  · intro h
    subst h
    rfl

/-- Witness for C11: "grow" is accepted, "star" is not and leaves the sample player as it was. -/
theorem C11_add_bonus_by_name_raises_iff_unknown_witness :
    sample_player.add_bonus_by_name (sample_env true) "grow" false
        = (Except.ok (sample_player.add_bonus (sample_env true) BonusType.GROWUP_BONUS false).1,
            (sample_player.add_bonus (sample_env true) BonusType.GROWUP_BONUS false).2)
      ∧ (∃ msg, (sample_player.add_bonus_by_name (sample_env true) "star" false).1
          = Except.error msg) :=
  ⟨(C11_add_bonus_by_name_raises_iff_unknown (sample_env true) sample_player "grow" false).2.2.1
      rfl,
    (C11_add_bonus_by_name_raises_iff_unknown (sample_env true) sample_player "star" false).1.mpr
      (by decide)⟩

/-- C12: for every state in which direction input is honoured (not ducking, or
vertical velocity non-zero), exactly one of LEFT/RIGHT is held,
|vx| < WALK_SPEED (100) and the speed limit is 0 or at least 100,
handle_horizontal_input sets the horizontal velocity to exactly
dirsign * 100, with dirsign = -1 for LEFT and +1 for RIGHT. -/
theorem C12_walk_speed_snap (env : Env) (s : Player)
    (hhonoured : s.duck = false ∨ s.physic.vy ≠ 0)
    (hone : (env.hold Control.LEFT = true ∧ env.hold Control.RIGHT = false)
      ∨ (env.hold Control.LEFT = false ∧ env.hold Control.RIGHT = true))
    (hslow : |s.physic.vx| < WALK_SPEED)
    (hlimit : s.speedlimit = 0 ∨ s.speedlimit ≥ 100) :
    (Player.handle_horizontal_input env s).physic.vx
      = (if env.hold Control.LEFT = true then -1 else 1) * 100 := by
  have hvx := abs_lt.mp hslow
  unfold WALK_SPEED at hvx
  have hdir : Player.horizontal_dirsign env s = if env.hold Control.LEFT = true then -1 else 1 := by
    unfold Player.horizontal_dirsign
    rcases hone with ⟨hl, hr⟩ | ⟨hl, hr⟩ <;> simp [hhonoured, hl, hr]
  have hne : Player.horizontal_dirsign env s ≠ 0 := by
    rw [hdir]; split_ifs <;> norm_num
  rw [Player.handle_horizontal_input_of_dirsign_ne_zero env s hne, hdir]
  have hlim : ∀ (w : Bool) (d : ℚ), (Player.horizontal_limit w s.physic.vx d).1 = s.physic.vx := by
    intro w d
    have h1 : ¬ (s.physic.vx ≥ MAX_WALK_XM ∧ d > 0) := fun h => by
      have := h.1; unfold MAX_WALK_XM at this; linarith [hvx.2]
    have h2 : ¬ (s.physic.vx ≤ -MAX_WALK_XM ∧ d < 0) := fun h => by
      have := h.1; unfold MAX_WALK_XM at this; linarith [hvx.1]
    have h3 : ¬ (s.physic.vx ≥ MAX_RUN_XM ∧ d > 0) := fun h => by
      have := h.1; unfold MAX_RUN_XM at this; linarith [hvx.2]
    have h4 : ¬ (s.physic.vx ≤ -MAX_RUN_XM ∧ d < 0) := fun h => by
      have := h.1; unfold MAX_RUN_XM at this; linarith [hvx.1]
    unfold Player.horizontal_limit
    cases w
    · simp only [Bool.false_eq_true, if_false, if_neg h3, if_neg h4]
    · simp only [if_true, if_neg h1, if_neg h2]
  unfold Player.horizontal_snap
  simp only [hlim, WALK_SPEED, abs_lt.mpr hvx]
  rcases hone with ⟨hl, hr⟩ | ⟨hl, hr⟩
  · simp only [hl, if_true]
    norm_num
    split_ifs with h
    · rcases hlimit with h0 | h0
      · linarith [h.1]
      · have : s.speedlimit = 100 := le_antisymm h.2 h0
        simp [this]
    · rfl
  · simp only [hl, Bool.false_eq_true, if_false]
    norm_num
    split_ifs with h
    · rcases hlimit with h0 | h0
      · linarith [h.1]
      · have : s.speedlimit = 100 := le_antisymm h.2 h0
        simp [this]
    · rfl

/-- Witness for C12: the sample player stands still on the ground and RIGHT is held. -/
theorem C12_walk_speed_snap_witness :
    (Player.handle_horizontal_input { sample_env true with
        hold := fun c => decide (c = Control.RIGHT) } sample_player).physic.vx = 100 := by
  have h := C12_walk_speed_snap { sample_env true with hold := fun c => decide (c = Control.RIGHT) }
    sample_player (Or.inl rfl) (Or.inr ⟨by decide, by decide⟩)
    (by norm_num [sample_player, WALK_SPEED]) (Or.inl rfl)
  rw [h]
  simp

/-- C13 (amended): for every grounded state in which no directional input is in
effect (neither or both of LEFT/RIGHT held) and |vx| is below WALK_SPEED
(100), handle_horizontal_input leaves the horizontal velocity exactly 0 and
the horizontal acceleration 0 in that single step. -/
theorem C13_friction_snaps_to_zero_on_ground (env : Env) (s : Player)
    (hground : s.on_ground = true)
    (hnone : env.hold Control.LEFT = env.hold Control.RIGHT)
    (hslow : |s.physic.vx| < WALK_SPEED) :
    (Player.handle_horizontal_input env s).physic.vx = 0
      ∧ (Player.handle_horizontal_input env s).physic.ax = 0 := by
  have hdir : Player.horizontal_dirsign env s = 0 := by
    unfold Player.horizontal_dirsign
    cases hr : env.hold Control.RIGHT <;> simp [hnone, hr]
  rw [Player.handle_horizontal_input_of_dirsign_zero env s hdir]
  have hg : ({ s with physic := { s.physic with ax := 0 } } : Player).on_ground = true := hground
  unfold Player.apply_friction
  rw [if_pos ⟨hg, hslow⟩]
  exact ⟨rfl, rfl⟩

/-- Witness for C13: the sample player on the ground with speed 50 and no key held. -/
theorem C13_friction_snaps_to_zero_on_ground_witness :
    (Player.handle_horizontal_input (sample_env true)
        { sample_player with physic := ⟨50, 0, 0, 0, true, 1000⟩ }).physic.vx = 0
      ∧ (Player.handle_horizontal_input (sample_env true)
        { sample_player with physic := ⟨50, 0, 0, 0, true, 1000⟩ }).physic.ax = 0 :=
  C13_friction_snaps_to_zero_on_ground (sample_env true)
    { sample_player with physic := ⟨50, 0, 0, 0, true, 1000⟩ } rfl rfl
    (by norm_num [sample_player, WALK_SPEED])

/-- C13 (counterexample to the claim as stated): in the air, with no key held
and horizontal speed 50 < 100, handle_horizontal_input keeps the speed 50
and sets the acceleration to -450: the snap to zero of apply_friction is
guarded by on_ground(). -/
theorem C13_counterexample :
    (sample_env true).hold Control.LEFT = false
      ∧ (sample_env true).hold Control.RIGHT = false
      ∧ |airborne_drifting_player.physic.vx| < WALK_SPEED
      ∧ (Player.handle_horizontal_input (sample_env true) airborne_drifting_player).physic.vx = 50
      ∧ (Player.handle_horizontal_input (sample_env true) airborne_drifting_player).physic.ax
          = -450 := by
  have hdir : Player.horizontal_dirsign (sample_env true) airborne_drifting_player = 0 := by
    simp [Player.horizontal_dirsign, sample_env]
  rw [Player.handle_horizontal_input_of_dirsign_zero _ _ hdir]
  refine ⟨rfl, rfl, ?_, ?_, ?_⟩
  · norm_num [airborne_drifting_player, WALK_SPEED]
  · simp [Player.apply_friction, Player.on_ground, airborne_drifting_player, sample_player,
      Physic.set_acceleration_x]
    norm_num
  · simp [Player.apply_friction, Player.on_ground, airborne_drifting_player, sample_player,
      Physic.set_acceleration_x, WALK_ACCELERATION_X, NORMAL_FRICTION_MULTIPLIER]
    norm_num

/-- C14: at most one jump per ground contact: do_jump from a grounded state sets
can_jump to false, and a handle_input step in normal mode (not ghost, not
climbing) taken while on_ground() is false and can_jump is false leaves
can_jump false; so in normal mode can_jump becomes true only in a step at
whose start on_ground() holds. -/
theorem C14_at_most_one_jump_per_ground_contact (env : Env) (s : Player) (yspeed : ℚ) :
    (s.on_ground = true → (Player.do_jump s yspeed).can_jump = false)
      ∧ (s.ghost_mode = false → s.climbing = none → s.on_ground = false →
          s.can_jump = false → (Player.handle_input env s).can_jump = false)
      ∧ (s.ghost_mode = false → s.climbing = none → s.can_jump = false →
          (Player.handle_input env s).can_jump = true → s.on_ground = true) := by
  refine ⟨fun h => (Player.do_jump_of_on_ground s yspeed h).2.2.1,
    Player.handle_input_can_jump_of_airborne env s, ?_⟩
  intro hg hc hcan hafter
  cases hair : s.on_ground
  · rw [Player.handle_input_can_jump_of_airborne env s hg hc hair hcan] at hafter
    exact absurd hafter Bool.false_ne_true
  · rfl

/-- Witness for C14: the sample player jumps from the ground, and in the air after
a jump an input step with JUMP held does not give the jump back. -/
theorem C14_at_most_one_jump_per_ground_contact_witness :
    (Player.do_jump sample_player (-520)).can_jump = false
      ∧ (Player.handle_input jump_held_env airborne_jumped_player).can_jump = false :=
  ⟨(C14_at_most_one_jump_per_ground_contact jump_held_env sample_player (-520)).1 rfl,
    (C14_at_most_one_jump_per_ground_contact jump_held_env airborne_jumped_player 0).2.1
      rfl rfl rfl rfl⟩

/-- C15 (amended): for every grounded, non-ducking state in which JUMP is held,
the jump-button grace timer is started and can_jump is true,
handle_vertical_input executes the jump (vertical velocity set to -580 if
|vx| > 230, else -520, and jumping = true) and consumes both the grace timer
(stopped, hence no longer started) and can_jump (false). -/
theorem C15_buffered_jump_executes_on_ground (env : Env) (s : Player)
    (hground : s.on_ground = true)
    (hduck : s.duck = false) (hhold : env.hold Control.JUMP = true)
    (htimer : s.jump_button_timer.started env.game_time = true) (hcan : s.can_jump = true) :
    (Player.handle_vertical_input env s).physic.vy = (if |s.physic.vx| > 230 then -580 else -520)
      ∧ (Player.handle_vertical_input env s).jumping = true
      ∧ (Player.handle_vertical_input env s).jump_button_timer = Timer.stop env.game_time
      ∧ (Player.handle_vertical_input env s).jump_button_timer.started env.game_time = false
      ∧ (Player.handle_vertical_input env s).can_jump = false := by
  obtain ⟨f1, -, f3, f4, f5, -⟩ := Player.handle_vertical_input_frame env s
  have hkey := Player.handle_jump_key_of_jump env s hduck hhold htimer hcan
  obtain ⟨j1, j2, j3, -, j5⟩ := Player.do_jump_of_on_ground
    { s with jump_button_timer := Timer.stop env.game_time }
    (if |s.physic.vx| > MAX_WALK_XM then -580 else -520) hground
  rw [f1, f3, f4, f5, hkey, j1, j2, j3, j5]
  refine ⟨rfl, rfl, rfl, ?_, rfl⟩
  simp [Timer.started, Timer.stop, Timer.start]

/-- Witness for C15: the sample player stands on the ground, JUMP is held and the
grace timer runs. -/
theorem C15_buffered_jump_executes_on_ground_witness :
    (Player.handle_vertical_input jump_held_env
      { sample_player with jump_button_timer := Timer.start JUMP_GRACE_TIME 0 }).physic.vy = -520
      ∧ (Player.handle_vertical_input jump_held_env
      { sample_player with jump_button_timer := Timer.start JUMP_GRACE_TIME 0 }).can_jump
        = false := by
  have h := C15_buffered_jump_executes_on_ground
    jump_held_env
    { sample_player with jump_button_timer := Timer.start JUMP_GRACE_TIME 0 }
    rfl rfl (by decide)
    (by
      have hg : jump_held_env.game_time = 0 := rfl
      rw [hg]
      simp [Timer.started, Timer.start, Timer.get_timeleft, JUMP_GRACE_TIME]
      norm_num)
    rfl
  refine ⟨?_, h.2.2.2.2⟩
  rw [h.1]
  norm_num [sample_player]

/-- C15 (counterexample to the claim as stated): in the air, not ducking, with
JUMP held, the grace timer started and can_jump true, handle_vertical_input
stops the timer but do_jump returns at once because on_ground() is false:
the vertical velocity stays 0, jumping stays false and can_jump stays
true. -/
theorem C15_counterexample :
    airborne_can_jump_player.duck = false
      ∧ jump_held_env.hold
          Control.JUMP = true
      ∧ airborne_can_jump_player.jump_button_timer.started
          jump_held_env.game_time
          = true
      ∧ airborne_can_jump_player.can_jump = true
      ∧ (Player.handle_vertical_input
          jump_held_env
          airborne_can_jump_player).physic.vy = 0
      ∧ (Player.handle_vertical_input
          jump_held_env
          airborne_can_jump_player).jumping = false
      ∧ (Player.handle_vertical_input
          jump_held_env
          airborne_can_jump_player).can_jump = true := by
  have htimer : airborne_can_jump_player.jump_button_timer.started
      jump_held_env.game_time
      = true := by
    have hg : jump_held_env.game_time = 0 := rfl
    rw [hg]
    simp [Timer.started, Timer.start, Timer.get_timeleft, JUMP_GRACE_TIME,
      airborne_can_jump_player]
    norm_num
  obtain ⟨f1, -, f3, f4, -⟩ := Player.handle_vertical_input_frame
    jump_held_env airborne_can_jump_player
  have hkey := Player.handle_jump_key_of_jump
    jump_held_env airborne_can_jump_player
    rfl (by decide) htimer rfl
  rw [Player.do_jump_of_not_on_ground
    { airborne_can_jump_player with jump_button_timer := Timer.stop jump_held_env.game_time }
    _ rfl] at hkey
  rw [f1, f3, f4, hkey]
  exact ⟨rfl, by decide, htimer, rfl, rfl, rfl, rfl⟩

/-- C16 (amended): for every state with a grabbed object and no climbable,
start_climbing(climbable) sets climbing to the climbable, disables gravity
and zeroes velocity and acceleration, and keeps the carried object
(grabbed_object is unchanged; it is released only by stop_climbing); the
predicate 'grabbed_object non-null implies climbing null' is preserved by
stop_climbing and by try_grab, but not by start_climbing. -/
theorem C16_start_climbing_keeps_grabbed_object (env : Env) (s : Player) (climbable : Nat)
    (hgrabbed : s.grabbed_object ≠ none) (hnoclimb : s.climbing = none) :
    (s.start_climbing climbable).grabbed_object = s.grabbed_object
      ∧ (s.start_climbing climbable).climbing = some climbable
      ∧ (s.start_climbing climbable).physic.gravity_enabled = false
      ∧ (s.start_climbing climbable).physic.vx = 0
      ∧ (s.start_climbing climbable).physic.vy = 0
      ∧ (s.start_climbing climbable).physic.ax = 0
      ∧ (s.start_climbing climbable).physic.ay = 0
      ∧ ¬ carrying_excludes_climbing (s.start_climbing climbable)
      ∧ (∀ t : Player, carrying_excludes_climbing t →
          carrying_excludes_climbing (Player.stop_climbing env t))
      ∧ (∀ t : Player, carrying_excludes_climbing t →
          carrying_excludes_climbing (Player.try_grab env t)) := by
  have hstart : s.start_climbing climbable
      = { s with climbing := some climbable,
                 physic := { s.physic with vx := 0, vy := 0, ax := 0, ay := 0,
                                           gravity_enabled := false } } := by
    simp [Player.start_climbing, hnoclimb, Physic.enable_gravity, Physic.set_velocity,
      Physic.set_acceleration]
  rw [hstart]
  refine ⟨rfl, rfl, rfl, rfl, rfl, rfl, rfl, ?_, ?_, ?_⟩
  · intro h
    have := h hgrabbed
    simp at this
  · intro t _ _
    exact Player.stop_climbing_climbing env t
  · intro t ht
    unfold Player.try_grab
    split_ifs with hc
    · rw [Player.try_grab_loop_eq_find]
      cases List.find? (within_reach (Player.try_grab_reach t)) env.portables with
      | none => exact ht
      | some p => exact fun _ => (Player.grab_portable_spec env t p).2.1
    · exact ht

/-- Witness for C16: the sample player carries a portable and starts to climb. -/
theorem C16_start_climbing_keeps_grabbed_object_witness :
    (carrying_player.start_climbing 7).grabbed_object = carrying_player.grabbed_object
      ∧ (carrying_player.start_climbing 7).climbing = some 7 :=
  ⟨(C16_start_climbing_keeps_grabbed_object (sample_env true) carrying_player 7
      (by decide) rfl).1,
    (C16_start_climbing_keeps_grabbed_object (sample_env true) carrying_player 7
      (by decide) rfl).2.1⟩

/-- C16 (counterexample to the claim as stated): the sample player carries
portable 0 and is not climbing; after start_climbing(7) it still carries
portable 0 and is climbing, so grabbed_object is not null afterwards and the
predicate 'grabbed_object non-null implies climbing null' no longer holds. -/
theorem C16_counterexample :
    carrying_player.grabbed_object = some 0
      ∧ carrying_player.climbing = none
      ∧ (carrying_player.start_climbing 7).grabbed_object = some 0
      ∧ (carrying_player.start_climbing 7).climbing = some 7 := by
  refine ⟨rfl, rfl, ?_, ?_⟩ <;>
    simp [Player.start_climbing, carrying_player, sample_player]

/-- C17: for every state with ACTION held, nothing grabbed and not ducking,
try_grab grabs the first portable in sector order that is portable, is a
moving object not in COLGROUP_DISABLED and whose box contains the reach
point (5 units beyond the facing side of the player's box, 16 units above
its bottom): afterwards grabbed_object is that portable and climbing is
null, whatever it was before; if no portable qualifies nothing changes. -/
theorem C17_try_grab_takes_first_within_reach (env : Env) (s : Player)
    (haction : env.hold Control.ACTION = true) (hfree : s.grabbed_object = none)
    (hduck : s.duck = false) :
    Player.try_grab_reach s
        = (if s.dir = Direction.LEFT then ⟨s.bbox.get_left - 5, s.bbox.get_bottom - 16⟩
            else ⟨s.bbox.get_right + 5, s.bbox.get_bottom - 16⟩)
      ∧ (∀ p, env.portables.find? (within_reach (Player.try_grab_reach s)) = some p →
          (Player.try_grab env s).grabbed_object = some p.id
            ∧ (Player.try_grab env s).climbing = none
            ∧ Player.try_grab env s = grab_portable env s p)
      ∧ (env.portables.find? (within_reach (Player.try_grab_reach s)) = none →
          Player.try_grab env s = s) := by
  have htry : Player.try_grab env s
      = Player.try_grab_loop env (Player.try_grab_reach s) env.portables s := by
    simp [Player.try_grab, haction, hfree, hduck]
  rw [htry, Player.try_grab_loop_eq_find]
  refine ⟨rfl, ?_, ?_⟩
  · intro p hp
    rw [hp]
    exact ⟨(Player.grab_portable_spec env s p).1, (Player.grab_portable_spec env s p).2.1, rfl⟩
  · intro hp
    rw [hp]

/-- Witness for C17: the sample player, facing right with ACTION held, grabs the
rock lying at its right side. -/
theorem C17_try_grab_takes_first_within_reach_witness :
    (Player.try_grab grabbing_env sample_player).grabbed_object = some 3
      ∧ (Player.try_grab grabbing_env sample_player).climbing = none := by
  have h := (C17_try_grab_takes_first_within_reach grabbing_env sample_player
    (by decide) rfl rfl).2.1 sample_rock
    (by
      have hreach : within_reach (Player.try_grab_reach sample_player) sample_rock = true := by
        simp [within_reach, sample_rock, Player.try_grab_reach, sample_player, Rect.contains,
          Rect.get_right, Rect.get_bottom]
        norm_num
      simp [grabbing_env, List.find?_cons, hreach])
  exact ⟨h.1, h.2.1⟩

/-- C18 (amended): in every state reachable from init() through update, kill and
the input and collision operations, a dead player is a dying player: dead
is set only by update when dying is true and its timer has elapsed, and
dying is never cleared, so the stages are normal (neither flag), dying
(dying only) and dead (both flags). -/
theorem C18_dead_implies_dying (s : Player) (h : Reachable s) : dead_implies_dying s := by
  induction h with
  | init s =>
    intro hd
    rw [(Player.init_life s).1] at hd
    exact absurd hd Bool.false_ne_true
  | update env s dt _ ih => exact Player.update_dead_implies_dying env s dt ih
  | kill env s c _ ih =>
    intro hd
    rw [(Player.kill_life env s c).1] at hd
    exact (Player.kill_life env s c).2 (ih hd)
  | handle_input env s _ ih =>
    intro hd
    rw [(Player.handle_input_life env s).1] at hd
    exact (Player.handle_input_life env s).2 (ih hd)
  | collision_solid env s hit _ ih =>
    intro hd
    rw [(Player.collision_solid_life env s hit).1] at hd
    exact (Player.collision_solid_life env s hit).2 (ih hd)
  | collision_tile env s ta _ ih =>
    intro hd
    rw [(Player.collision_tile_life env s ta).1] at hd
    exact (Player.collision_tile_life env s ta).2 (ih hd)
  | collision env s other hit _ ih =>
    intro hd
    rw [(Player.collision_life env s other hit).1] at hd
    rw [(Player.collision_life env s other hit).2]
    exact ih hd
  | set_bonus env s type animate _ ih =>
    intro hd
    rw [(Player.set_bonus_life env s type animate).1] at hd
    rw [(Player.set_bonus_life env s type animate).2]
    exact ih hd
  | add_bonus env s type animate _ ih =>
    intro hd
    rw [(Player.add_bonus_life env s type animate).1] at hd
    rw [(Player.add_bonus_life env s type animate).2]
    exact ih hd
  | set_ghost_mode env s enable _ ih =>
    intro hd
    rw [(Player.set_ghost_mode_life env s enable).1] at hd
    rw [(Player.set_ghost_mode_life env s enable).2]
    exact ih hd
  | stop_climbing env s _ ih =>
    intro hd
    rw [(Player.stop_climbing_life env s).2.2.1] at hd
    rw [(Player.stop_climbing_life env s).2.2.2]
    exact ih hd

/-- Witness for C18: the sample player after init(), killed and updated three
seconds later, is dead and therefore dying. -/
theorem C18_dead_implies_dying_witness :
    Reachable dead_sample_player ∧ dead_implies_dying dead_sample_player :=
  ⟨Reachable.update late_env _ 0
      (Reachable.kill (sample_env true) _ true (Reachable.init sample_player)),
    C18_dead_implies_dying dead_sample_player
      (Reachable.update late_env _ 0
        (Reachable.kill (sample_env true) _ true (Reachable.init sample_player)))⟩

/-- C18 (counterexample to the claim as stated): the sample player after init(),
a fatal kill at time 0 and an update at time 3, when the dying timer of
period 3 has elapsed, is reachable and has both dying and dead true. -/
theorem C18_counterexample :
    Reachable dead_sample_player
      ∧ dead_sample_player.dying = true
      ∧ dead_sample_player.dead = true := by
  have hinit : (Player.init sample_player).dying = false
      ∧ (Player.init sample_player).deactivated = false
      ∧ (Player.init sample_player).edit_mode = false := by
    simp [Player.init, sample_player, Player.set_size, Player.is_big]
  have hc1 := (Player.kill_begin_frame (sample_env true) (Player.init sample_player)).1
  have he1 : (Player.kill_begin (sample_env true) (Player.init sample_player)).edit_mode
      = false := by
    rw [(Player.kill_begin_frame (sample_env true) _).2.2.2.2.2.2.2.2.1, hinit.2.2]
  have hspec := Player.kill_die_spec (sample_env true) _ hc1 he1
  have hkill := Player.kill_fatal_of_passed (sample_env true) (Player.init sample_player)
    hinit.1 hinit.2.1
  have hdy : (Player.kill (sample_env true) (Player.init sample_player) true).dying = true := by
    rw [hkill]; exact hspec.1
  have htimer : ((Player.kill (sample_env true) (Player.init sample_player) true).dying_timer.check
      late_env.game_time).1 = true := by
    rw [hkill, hspec.2.2.2.2.2.2.2.2.2.1]
    have hg : late_env.game_time = 3 := rfl
    have hg0 : (sample_env true).game_time = 0 := rfl
    rw [hg, hg0]
    simp [Timer.check, Timer.start]
  have hres := Player.update_of_dying_timer_elapsed late_env _ 0 hdy htimer
  exact ⟨Reachable.update late_env _ 0
      (Reachable.kill (sample_env true) _ true (Reachable.init sample_player)),
    hres.2, hres.1⟩

/-- C19 (the code evaluated at the failing inputs): big Tux after init(), a landing,
do_duck() and do_backflip() is ducked and backflipping in a box of height
31.8; move() then gives the box the standing height 63.8 and clears duck
but leaves backflipping true.  And the ducked big Tux after
set_bonus(NO_BONUS) and set_bonus(GROWUP_BONUS) is still ducked in a box
grown to height 62.8. -/
theorem C19_full_height_while_backflipping_or_ducked :
    backflipping_player.duck = true
      ∧ backflipping_player.backflipping = true
      ∧ backflipping_player.bbox.get_height = 31.8
      ∧ (Player.move (sample_env true) backflipping_player ⟨0, 0⟩).backflipping = true
      ∧ (Player.move (sample_env true) backflipping_player ⟨0, 0⟩).bbox.get_height = 63.8
      ∧ regrown_ducked_player.duck = true
      ∧ regrown_ducked_player.bbox.get_height = 62.8 := by
  have hi := Player.init_spec big_player
  have hbig : big_player.is_big = true := by
    simp [big_player, sample_player_with, Player.is_big]
  have hland : landed_player
      = { Player.init big_player with
          on_ground_flag := true, floor_normal := bottom_hit.slope_normal } :=
    Player.collision_solid_of_bottom (sample_env true) (Player.init big_player) bottom_hit
      rfl rfl rfl rfl hi.2.2.1 hi.2.2.2.2.2.1
  have hlbig : landed_player.is_big = true := by
    rw [hland]
    simp only [Player.is_big, hi.2.2.2.2.2.2.1]
    exact hbig
  have hlbox : landed_player.bbox = ⟨⟨0, -32⟩, ⟨31.8, 30.8⟩⟩ := by
    rw [hland]
    show (Player.init big_player).bbox = _
    rw [hi.2.2.2.2.2.2.2, hbig]
    simp [big_player, sample_player_with, Rect.set_size, Rect.set_width, Rect.set_height]
    norm_num
  have ha : (landed_player.adjust_height (sample_env true) 31.8).1 = true := by
    rw [Player.adjust_height_true_iff]
    left
    rw [hlbox]
    simp [Rect.get_height]
    norm_num
  have hduck := Player.do_duck_of_standing (sample_env true) landed_player
    (by rw [hland]; exact hi.1) hlbig (by rw [hland]; exact hi.2.2.2.2.2.1)
    (by rw [hland]; rfl) (by rw [hland]; exact hi.2.2.1) ha
  have hdbox := Player.adjust_height_true_bbox (sample_env true) landed_player 31.8 ha
  have hfr := Player.adjust_height_frame (sample_env true) landed_player 31.8
  have hfm := Player.adjust_height_frame_more (sample_env true) landed_player 31.8
  have hdd : (Player.do_duck (sample_env true) landed_player).duck = true := by
    rw [hduck]
  have hdg : (Player.do_duck (sample_env true) landed_player).on_ground = true := by
    rw [hduck]
    show (landed_player.adjust_height (sample_env true) 31.8).2.on_ground_flag = true
    rw [hfm.2.2.2.2.2.2, hland]
  have hdc : (Player.do_duck (sample_env true) landed_player).climbing = none := by
    rw [(Player.do_duck_frame (sample_env true) landed_player).2.1, hland]
    exact hi.2.2.2.2.1
  have hdb : (Player.do_duck (sample_env true) landed_player).is_big = true := by
    rw [hduck]
    simp only [Player.is_big, hfr.2.1]
    exact hlbig
  have hdh : (Player.do_duck (sample_env true) landed_player).bbox.get_height = 31.8 := by
    rw [hduck]
    show (landed_player.adjust_height (sample_env true) 31.8).2.bbox.get_height = 31.8
    rw [hdbox, hlbox]
    simp [Rect.get_height]
  have hbf := Player.do_backflip_of_duck (sample_env true) _ hdd hdg
  have hbfr := Player.do_backflip_frame (sample_env true)
    (Player.do_duck (sample_env true) landed_player)
  have hbc : backflipping_player.climbing = none := by
    unfold backflipping_player
    rw [hbfr.1, hdc]
  have hbb : backflipping_player.is_big = true := by
    unfold backflipping_player
    simp only [Player.is_big, hbfr.2.2.2.2]
    exact hdb
  have hmv := Player.move_of_big (sample_env true) backflipping_player ⟨0, 0⟩ hbc hbb
  have hdn : (Player.do_duck (sample_env true) landed_player).player_status.bonus
      ≠ BonusType.NO_BONUS := by
    intro h
    simp [Player.is_big, h] at hdb
  have hs1 := Player.set_bonus_of_big (sample_env true) _ BonusType.NO_BONUS false hdc hdn
  have hf1 := Player.set_bonus_frame (sample_env true) _ BonusType.NO_BONUS false hdc
  have hfree : ∀ r : Rect, (sample_env true).is_free_of_statics r = true := fun _ => rfl
  have ha2 : ((Player.set_bonus (sample_env true)
      (Player.do_duck (sample_env true) landed_player) BonusType.NO_BONUS false).2.adjust_height
      (sample_env true) 62.8).1 = true := by
    rw [Player.adjust_height_true_iff]
    exact Or.inr (hfree _)
  have hs2 := Player.set_bonus_of_small_bbox (sample_env true) _ BonusType.GROWUP_BONUS false
    hf1.2.1 hs1.2.1 ha2
  have hf2 := Player.set_bonus_frame (sample_env true) _ BonusType.GROWUP_BONUS false hf1.2.1
  have hb2 := Player.adjust_height_true_bbox (sample_env true) _ 62.8 ha2
  refine ⟨hbf.2, hbf.1, ?_, ?_, hmv.1, ?_, ?_⟩
  · unfold backflipping_player
    rw [hbfr.2.2.2.1, hdh]
  · rw [hmv.2.2]
    exact hbf.1
  · unfold regrown_ducked_player
    rw [hf2.2.2.2.1, hf1.2.2.2.1, hdd]
  · unfold regrown_ducked_player
    rw [hs2, hb2]
    simp [Rect.get_height]

/-- C20 (amended): the predicate 'ghost_mode implies gravity disabled' holds
after a set_ghost_mode(true) that switches ghost mode on, is kept by one
that finds it on, and is preserved by handle_input_ghost and by
start_climbing; it is preserved by stop_climbing when the player is not
climbing and by kill when the player is not climbing and the call does not
start the dying sequence. -/
theorem C20_ghost_mode_gravity (env : Env) (s : Player) (climbable : Nat) (completely : Bool)
    (hpred : ghost_gravity_off s) :
    (∀ t : Player, t.ghost_mode = false → ghost_gravity_off (Player.set_ghost_mode env t true)
        ∧ (Player.set_ghost_mode env t true).ghost_mode = true)
      ∧ ghost_gravity_off (Player.set_ghost_mode env s true)
      ∧ ghost_gravity_off (Player.handle_input_ghost env s)
      ∧ ghost_gravity_off (s.start_climbing climbable)
      ∧ (s.climbing = none → ghost_gravity_off (Player.stop_climbing env s))
      ∧ (s.climbing = none → (s.kill env completely).dying = s.dying →
          ghost_gravity_off (s.kill env completely)) := by
  refine ⟨?_, ?_, ?_, ?_, ?_, ?_⟩
  · intro t ht
    exact ⟨fun _ => ((Player.set_ghost_mode_true_spec env t).1 ht).2,
      ((Player.set_ghost_mode_true_spec env t).1 ht).1⟩
  · cases hg : s.ghost_mode
    · exact fun _ => ((Player.set_ghost_mode_true_spec env s).1 hg).2
    · rw [(Player.set_ghost_mode_true_spec env s).2 hg]
      exact hpred
  · rcases Player.handle_input_ghost_spec env s with h | ⟨h1, h2⟩
    · intro hg
      rw [h] at hg
      exact absurd hg Bool.false_ne_true
    · intro hg
      rw [h2]
      exact hpred (h1 ▸ hg)
  · unfold Player.start_climbing
    split_ifs
    · exact hpred
    · exact fun _ => rfl
  · intro hc
    rw [← Player.stop_climbing_if_climbing_eq, Player.stop_climbing_if_climbing_of_none env s hc]
    exact hpred
  · intro hc hdy
    have hb := Player.kill_begin_of_not_climbing env s hc
    have hc1 : (Player.kill_begin env s).climbing = none := (Player.kill_begin_frame env s).1
    have hp1 : ghost_gravity_off (Player.kill_begin env s) := by
      rw [hb]
      exact hpred
    simp only [Player.kill] at hdy ⊢
    split_ifs at hdy ⊢ with h1 h2 h3
    · exact hpred
    · exact hpred
    · obtain ⟨k1, k2, -, -⟩ := Player.kill_demote_ghost env _ hc1
      intro hg
      rw [k2]
      exact hp1 (k1 ▸ hg)
    · cases he : (Player.kill_begin env s).edit_mode
      · exfalso
        have hd := (Player.kill_die_spec env _ hc1 he).1
        rw [hd] at hdy
        simp only [Bool.or_eq_true, not_or, Bool.not_eq_true] at h1
        rw [h1.1] at hdy
        exact Bool.false_ne_true hdy.symm
      · simp only [Player.kill_die, he, if_true]
        cases hg : (Player.kill_begin env s).ghost_mode
        · exact fun _ => ((Player.set_ghost_mode_true_spec env _).1 hg).2
        · rw [(Player.set_ghost_mode_true_spec env _).2 hg]
          exact hp1

/-- Witness for C20: the ghost player handles its input with no key held. -/
theorem C20_ghost_mode_gravity_witness :
    ghost_gravity_off (Player.handle_input_ghost (sample_env true) ghost_player) :=
  (C20_ghost_mode_gravity (sample_env true) ghost_player 7 true (fun _ => rfl)).2.2.1

/-- C20 (counterexample to the claim as stated): the sample player in ghost mode
with gravity disabled, neither dying nor deactivated and outside edit mode,
is killed fatally: kill enables gravity for the dying sequence and leaves
ghost_mode true, so the predicate no longer holds. -/
theorem C20_counterexample :
    ghost_gravity_off ghost_player
      ∧ (ghost_player.kill (sample_env true) true).ghost_mode = true
      ∧ (ghost_player.kill (sample_env true) true).physic.gravity_enabled = true
      ∧ ¬ ghost_gravity_off (ghost_player.kill (sample_env true) true) := by
  have hc1 : (Player.kill_begin (sample_env true) ghost_player).climbing = none :=
    (Player.kill_begin_frame (sample_env true) ghost_player).1
  have he1 : (Player.kill_begin (sample_env true) ghost_player).edit_mode = false := by
    rw [(Player.kill_begin_frame (sample_env true) ghost_player).2.2.2.2.2.2.2.2.1]
    rfl
  have hg1 : (Player.kill_begin (sample_env true) ghost_player).ghost_mode = true := by
    rw [(Player.kill_begin_frame (sample_env true) ghost_player).2.2.2.2.2.2.2.2.2.1]
    rfl
  have hghost : (ghost_player.kill (sample_env true) true).ghost_mode = true := by
    rw [Player.kill_fatal_of_passed (sample_env true) ghost_player rfl rfl,
      (Player.kill_die_frame (sample_env true) _ hc1).2.2 he1, hg1]
  have hgrav : (ghost_player.kill (sample_env true) true).physic.gravity_enabled = true := by
    rw [Player.kill_fatal_of_passed (sample_env true) ghost_player rfl rfl]
    exact (Player.kill_die_spec (sample_env true) _ hc1 he1).2.2.2.2.2.1
  refine ⟨fun _ => rfl, hghost, hgrav, ?_⟩
  intro h
  have := h hghost
  rw [hgrav] at this
  exact Bool.noConfusion this

/-- C21: Igel::can_see(o) holds if and only if o's box vertically overlaps or touches
the igel's box (o.bottom >= igel.top and o.top <= igel.bottom) and o lies
strictly beyond the igel's facing side within RANGE_OF_VISION = 256: facing
LEFT, igel.left - 256 <= o.right < igel.left; facing RIGHT,
igel.right < o.left <= igel.right + 256.  In particular an object that
does not lie beyond the facing side is never seen. -/
theorem C21_can_see_iff_in_facing_range (s : Igel) (o : MovingObject) :
    (s.can_see o = true ↔
      (o.bbox.get_bottom ≥ s.bbox.get_top ∧ o.bbox.get_top ≤ s.bbox.get_bottom)
        ∧ ((s.dir = Direction.LEFT ∧ s.bbox.get_left - Igel.RANGE_OF_VISION ≤ o.bbox.get_right
              ∧ o.bbox.get_right < s.bbox.get_left)
          ∨ (s.dir = Direction.RIGHT ∧ s.bbox.get_right < o.bbox.get_left
              ∧ o.bbox.get_left ≤ s.bbox.get_right + Igel.RANGE_OF_VISION)))
      ∧ (s.dir = Direction.LEFT → s.bbox.get_left ≤ o.bbox.get_right → s.can_see o = false)
      ∧ (s.dir = Direction.RIGHT → o.bbox.get_left ≤ s.bbox.get_right → s.can_see o = false)
      ∧ Igel.RANGE_OF_VISION = 256 := by
  have h := Igel.can_see_iff s o
  refine ⟨?_, ?_, ?_, rfl⟩
  · rw [h]
    simp only [Igel.RANGE_OF_VISION]
  · intro hd hside
    rw [← Bool.not_eq_true, h]
    rintro ⟨-, ⟨-, -, h2⟩ | ⟨hr, -, -⟩⟩
    · exact absurd h2 (not_lt.mpr hside)
    · rw [hd] at hr
      exact Direction.noConfusion hr
  · intro hd hside
    rw [← Bool.not_eq_true, h]
    rintro ⟨-, ⟨hl, -, -⟩ | ⟨-, h1, -⟩⟩
    · rw [hd] at hl
      exact Direction.noConfusion hl
    · exact absurd h1 (not_lt.mpr hside)

/-- Witness for C21: the sample igel faces left; it sees the bullet 100 units to its
left and does not see the bullet 100 units to its right. -/
theorem C21_can_see_iff_in_facing_range_witness :
    sample_igel.can_see fire_bullet_left.moving_object = true
      ∧ sample_igel.can_see fire_bullet_right.moving_object = false := by
  have h := C21_can_see_iff_in_facing_range sample_igel fire_bullet_right.moving_object
  have hl := C21_can_see_iff_in_facing_range sample_igel fire_bullet_left.moving_object
  constructor
  · rw [hl.1]
    simp only [sample_igel, fire_bullet_left, Rect.get_bottom, Rect.get_top, Rect.get_left,
      Rect.get_right, Igel.RANGE_OF_VISION]
    norm_num
  · apply h.2.1 rfl
    simp only [sample_igel, fire_bullet_right, Rect.get_left, Rect.get_right]
    norm_num

/-- C22: Igel::active_update turns the igel around, starting the recovery timer with
TURN_RECOVER_TIME = 0.5, and then runs BadGuy::active_update, if and only
if at least one bullet of type FIRE_BONUS among the sector's game objects
satisfies can_see and the recovery timer is not started; otherwise, so
while the recovery timer is started or when no visible bullet is a fire
bullet, it hands the unchanged igel to the default walking update. -/
theorem C22_active_update_flees_iff (env : IgelEnv) (s : Igel) (elapsed_time : ℚ) :
    (((∃ bullet, some bullet ∈ env.gameobjects ∧ bullet.type = BonusType.FIRE_BONUS
          ∧ s.can_see bullet.moving_object = true)
        ∧ s.turn_recover_timer.started env.game_time = false) →
      s.active_update env elapsed_time
        = env.BadGuy_active_update (s.turn_around env) elapsed_time)
      ∧ (¬ ((∃ bullet, some bullet ∈ env.gameobjects ∧ bullet.type = BonusType.FIRE_BONUS
            ∧ s.can_see bullet.moving_object = true)
          ∧ s.turn_recover_timer.started env.game_time = false) →
        s.active_update env elapsed_time = env.WalkingBadguy_active_update s elapsed_time)
      ∧ (s.turn_recover_timer.started env.game_time = true →
        s.active_update env elapsed_time = env.WalkingBadguy_active_update s elapsed_time)
      ∧ ((∀ bullet, some bullet ∈ env.gameobjects → s.can_see bullet.moving_object = true →
            bullet.type ≠ BonusType.FIRE_BONUS) →
        s.active_update env elapsed_time = env.WalkingBadguy_active_update s elapsed_time)
      ∧ (s.turn_around env).turn_recover_timer = Timer.start (1 / 2) env.game_time
      ∧ (s.turn_around env).turn_recover_timer.started env.game_time = true
      ∧ (s.turn_around env).dir
          = (if s.dir = Direction.LEFT then Direction.RIGHT else Direction.LEFT)
      ∧ (s.turn_around env).bbox = s.bbox := by
  have hscan := Igel.active_update_scan_false_iff s env.gameobjects
  have hwalk : ¬ ((∃ bullet, some bullet ∈ env.gameobjects ∧ bullet.type = BonusType.FIRE_BONUS
            ∧ s.can_see bullet.moving_object = true)
          ∧ s.turn_recover_timer.started env.game_time = false) →
        s.active_update env elapsed_time = env.WalkingBadguy_active_update s elapsed_time := by
    intro h
    rw [← hscan] at h
    simp only [Igel.active_update, if_neg h]
  refine ⟨?_, hwalk, ?_, ?_, ?_, ?_, rfl, rfl⟩
  · intro h
    rw [← hscan] at h
    simp only [Igel.active_update, if_pos h]
  · intro h
    apply hwalk
    rintro ⟨-, h2⟩
    rw [h] at h2
    exact Bool.noConfusion h2
  · intro h
    apply hwalk
    rintro ⟨⟨b, hb, hf, hs⟩, -⟩
    exact h b hb hs hf
  · simp only [Igel.turn_around, Igel.TURN_RECOVER_TIME]
    norm_num
  · simp [Igel.turn_around, Igel.TURN_RECOVER_TIME, Timer.started, Timer.start,
      Timer.get_timeleft]
    norm_num

/-- Witness for C22: with an ice bullet and a fire bullet in sight and the timer not
started, the sample igel turns to the right and starts its timer; one tick
later, with the timer started, the same bullets do not turn it again. -/
theorem C22_active_update_flees_iff_witness :
    sample_igel.active_update
        (sample_igel_env [none, some ice_bullet_left, some fire_bullet_left]) 0
      = ⟨sample_igel.bbox, Direction.RIGHT, Timer.start (1 / 2) 0⟩
      ∧ Igel.active_update
        (sample_igel_env [none, some ice_bullet_left, some fire_bullet_left])
        (⟨sample_igel.bbox, Direction.RIGHT, Timer.start (1 / 2) 0⟩ : Igel) 0
      = ⟨sample_igel.bbox, Direction.RIGHT, Timer.start (1 / 2) 0⟩ := by
  have hsee : sample_igel.can_see fire_bullet_left.moving_object = true := by
    rw [Igel.can_see_iff]
    simp only [sample_igel, fire_bullet_left, Rect.get_bottom, Rect.get_top, Rect.get_left,
      Rect.get_right]
    norm_num
  have h1 := (C22_active_update_flees_iff
    (sample_igel_env [none, some ice_bullet_left, some fire_bullet_left]) sample_igel 0).1
    ⟨⟨fire_bullet_left, List.mem_cons_of_mem _ (List.mem_cons_of_mem _ (List.mem_cons_self _ _)),
      rfl, hsee⟩, by
      simp [sample_igel, sample_igel_env, Timer.started, Timer.stop, Timer.start]⟩
  have h2 := (C22_active_update_flees_iff
    (sample_igel_env [none, some ice_bullet_left, some fire_bullet_left])
    (⟨sample_igel.bbox, Direction.RIGHT, Timer.start (1 / 2) 0⟩ : Igel) 0).2.2.1
    (by simp [sample_igel_env, Timer.started, Timer.start, Timer.get_timeleft])
  constructor
  · rw [h1]
    simp only [sample_igel_env, Igel.turn_around, Igel.WalkingBadguy_turn_around,
      Igel.TURN_RECOVER_TIME, sample_igel]
    norm_num
  · rw [h2]
    rfl

/-- C23: for every state with dying = true whose dying timer has elapsed, update sets
dead = true and returns: apart from the swimming/no_water bookkeeping done
before the check and the cleared dying timer, the state is the one before
the call, so position, bounding box, velocity, acceleration, the movement
vector, the grabbed object and the mode flags are unchanged; and no other
operation sets dead to true: update does so only in this branch, init
clears it and every other operation leaves it as it is. -/
theorem C23_update_dead_branch_is_frame (env : Env) (s : Player) (elapsed_time : ℚ)
    (hdying : s.dying = true) (htimer : (s.dying_timer.check env.game_time).1 = true) :
    Player.update env s elapsed_time
        = { s with
            swimming := if s.no_water = true then false else s.swimming
            no_water := true
            dying_timer := (s.dying_timer.check env.game_time).2
            dead := true }
      ∧ (Player.update env s elapsed_time).dead = true
      ∧ (Player.update env s elapsed_time).bbox = s.bbox
      ∧ (Player.update env s elapsed_time).physic = s.physic
      ∧ (Player.update env s elapsed_time).movement = s.movement
      ∧ (Player.update env s elapsed_time).grabbed_object = s.grabbed_object
      ∧ (Player.update env s elapsed_time).dying = true
      ∧ (∀ (e : Env) (t : Player) (dt : ℚ), (Player.update e t dt).dead = true →
          t.dead = true ∨ (t.dying = true ∧ (t.dying_timer.check e.game_time).1 = true))
      ∧ (∀ t : Player, (Player.init t).dead = false)
      ∧ (∀ (e : Env) (t : Player) (c : Bool), (Player.kill e t c).dead = t.dead)
      ∧ (∀ (e : Env) (t : Player), (Player.handle_input e t).dead = t.dead)
      ∧ (∀ (e : Env) (t : Player) (hit : CollisionHit),
          (Player.collision_solid e t hit).dead = t.dead)
      ∧ (∀ (e : Env) (t : Player) (a : TileAttributes),
          (Player.collision_tile e t a).dead = t.dead)
      ∧ (∀ (e : Env) (t : Player) (o : OtherObject) (hit : CollisionHit),
          (Player.collision e t o hit).2.dead = t.dead)
      ∧ (∀ (e : Env) (t : Player) (b : BonusType) (a : Bool),
          (Player.set_bonus e t b a).2.dead = t.dead ∧ (Player.add_bonus e t b a).2.dead = t.dead)
      ∧ (∀ (e : Env) (t : Player) (b : Bool), (Player.set_ghost_mode e t b).dead = t.dead)
      ∧ (∀ (e : Env) (t : Player) (v : Vector), (Player.move e t v).dead = t.dead)
      ∧ (∀ (e : Env) (t : Player),
          (Player.do_duck e t).dead = t.dead ∧ (Player.do_standup e t).dead = t.dead
            ∧ (Player.do_backflip e t).dead = t.dead ∧ (Player.try_grab e t).dead = t.dead
            ∧ (Player.stop_climbing e t).dead = t.dead) := by
  have heq := Player.update_of_dying_timer_elapsed_eq env s elapsed_time hdying htimer
  refine ⟨heq, ?_, ?_, ?_, ?_, ?_, ?_, ?_, ?_, ?_, ?_, ?_, ?_, ?_, ?_, ?_, ?_, ?_⟩
  · rw [heq]
  · rw [heq]
  · rw [heq]
  · rw [heq]
  · rw [heq]
  · rw [heq]
    exact hdying
  · exact fun e t dt => (Player.update_dead_iff e t dt).mp
  · exact fun t => (Player.init_life t).1
  · exact fun e t c => (Player.kill_life e t c).1
  · exact fun e t => (Player.handle_input_life e t).1
  · exact fun e t hit => (Player.collision_solid_life e t hit).1
  · exact fun e t a => (Player.collision_tile_life e t a).1
  · exact fun e t o hit => (Player.collision_life e t o hit).1
  · exact fun e t b a => ⟨(Player.set_bonus_life e t b a).1, (Player.add_bonus_life e t b a).1⟩
  · exact fun e t b => (Player.set_ghost_mode_life e t b).1
  · exact fun e t v => (Player.move_life e t v).1
  · exact fun e t => ⟨(Player.do_duck_frame e t).2.2.1, (Player.do_standup_life e t).1,
      (Player.do_backflip_frame e t).2.1, (Player.try_grab_life e t).1,
      (Player.stop_climbing_life e t).2.2.1⟩

/-- Witness for C23: the sample player, dying since time 0, is updated at time 3: it
is dead, and its box and velocity are those before the call. -/
theorem C23_update_dead_branch_is_frame_witness :
    (Player.update late_env dying_player 1).dead = true
      ∧ (Player.update late_env dying_player 1).bbox = dying_player.bbox
      ∧ (Player.update late_env dying_player 1).physic = dying_player.physic := by
  have h := C23_update_dead_branch_is_frame late_env dying_player 1 rfl
    (by
      have hg : late_env.game_time = 3 := rfl
      rw [hg]
      simp [dying_player, Timer.check, Timer.start])
  exact ⟨h.2.1, h.2.2.1, h.2.2.2.1⟩

/-- C24 (amended): after every update step that passes the dying check, with the
ground flag and the position taken at the fall-mode statement: if the
player is grounded, fall_mode = ON_GROUND and last_ground_y equals the
current y position; if not grounded, fall_mode is FALLING when
pos.y > last_ground_y, and otherwise JUMPING only when fall_mode was
ON_GROUND before the step, else it is unchanged; last_ground_y is
unchanged when not grounded. -/
theorem C24_update_fall_mode (env : Env) (s : Player) (elapsed_time : ℚ)
    (hcheck : ¬ (s.dying = true ∧ (s.dying_timer.check env.game_time).1 = true)) :
    ((Player.update_before_fall_mode env (Player.update_no_water s)).on_ground = true →
        (Player.update env s elapsed_time).fall_mode = FallMode.ON_GROUND
          ∧ (Player.update env s elapsed_time).last_ground_y
            = (Player.update_before_fall_mode env (Player.update_no_water s)).bbox.p1.y)
      ∧ ((Player.update_before_fall_mode env (Player.update_no_water s)).on_ground = false →
        (Player.update_before_fall_mode env (Player.update_no_water s)).bbox.p1.y
          > s.last_ground_y →
        (Player.update env s elapsed_time).fall_mode = FallMode.FALLING)
      ∧ ((Player.update_before_fall_mode env (Player.update_no_water s)).on_ground = false →
        (Player.update_before_fall_mode env (Player.update_no_water s)).bbox.p1.y
          ≤ s.last_ground_y →
        (Player.update env s elapsed_time).fall_mode
          = (if s.fall_mode = FallMode.ON_GROUND then FallMode.JUMPING else s.fall_mode))
      ∧ ((Player.update_before_fall_mode env (Player.update_no_water s)).on_ground = false →
        (Player.update env s elapsed_time).last_ground_y = s.last_ground_y) := by
  have hf := Player.update_fall_mode_final env s elapsed_time hcheck
  have hs := Player.update_fall_mode_spec
    (Player.update_before_fall_mode env (Player.update_no_water s))
  have ht := Player.update_before_fall_mode_trend env (Player.update_no_water s)
  have h0 := Player.update_before_fall_mode_trend env s
  have hfm : (Player.update_before_fall_mode env (Player.update_no_water s)).fall_mode
      = s.fall_mode := by rw [ht.1, h0.2.2.1]
  have hlg : (Player.update_before_fall_mode env (Player.update_no_water s)).last_ground_y
      = s.last_ground_y := by rw [ht.2.1, h0.2.2.2.1]
  rw [hfm, hlg] at hs
  rw [hf.1, hf.2]
  refine ⟨hs.1, fun h1 h2 => (hs.2.1 h1 h2).1, fun h1 h2 => (hs.2.2 h1 h2).1, ?_⟩
  intro h1
  by_cases h2 : (Player.update_before_fall_mode env (Player.update_no_water s)).bbox.p1.y
      > s.last_ground_y
  · exact (hs.2.1 h1 h2).2
  · exact (hs.2.2 h1 (not_lt.mp h2)).2

/-- Witness for C24: the sample player with deactivated controls, standing on the
ground, is in fall mode ON_GROUND after an update. -/
theorem C24_update_fall_mode_witness :
    (Player.update (sample_env true) { sample_player with deactivated := true } 0).fall_mode
      = FallMode.ON_GROUND := by
  have h := C24_update_fall_mode (sample_env true) { sample_player with deactivated := true } 0
    (by simp [sample_player])
  have hm := Player.update_before_fall_mode_of_deactivated (sample_env true)
    { sample_player with deactivated := true } rfl
  exact (h.1 (by rw [hm.1]; rfl)).1

/-- C24 (counterexample to the claim as stated): a player in the air whose fall mode is
FALLING and whose height 0 is not below the last ground height 100 passes
the dying check, is not grounded and has pos.y <= last_ground_y, but after
the update its fall mode is still FALLING, not JUMPING. -/
theorem C24_counterexample :
    rebounding_player.dying = false
      ∧ rebounding_player.fall_mode = FallMode.FALLING
      ∧ (Player.update_before_fall_mode (sample_env true)
          (Player.update_no_water rebounding_player)).on_ground = false
      ∧ (Player.update_before_fall_mode (sample_env true)
          (Player.update_no_water rebounding_player)).bbox.p1.y ≤ rebounding_player.last_ground_y
      ∧ (Player.update (sample_env true) rebounding_player 0).fall_mode = FallMode.FALLING
      ∧ (Player.update (sample_env true) rebounding_player 0).fall_mode ≠ FallMode.JUMPING := by
  have hm := Player.update_before_fall_mode_of_deactivated (sample_env true)
    rebounding_player rfl
  have hf := Player.update_fall_mode_final (sample_env true) rebounding_player 0
    (by simp [rebounding_player, sample_player])
  have hs := Player.update_fall_mode_spec
    (Player.update_before_fall_mode (sample_env true) (Player.update_no_water rebounding_player))
  have ht := Player.update_before_fall_mode_trend (sample_env true)
    (Player.update_no_water rebounding_player)
  have h0 := Player.update_before_fall_mode_trend (sample_env true) rebounding_player
  have hg : (Player.update_before_fall_mode (sample_env true)
      (Player.update_no_water rebounding_player)).on_ground = false := by
    rw [hm.1]; rfl
  have hy : (Player.update_before_fall_mode (sample_env true)
      (Player.update_no_water rebounding_player)).bbox.p1.y
        ≤ rebounding_player.last_ground_y := by
    rw [hm.2]
    simp [rebounding_player, sample_player]
  have hy2 : (Player.update_before_fall_mode (sample_env true)
      (Player.update_no_water rebounding_player)).bbox.p1.y
        ≤ (Player.update_before_fall_mode (sample_env true)
      (Player.update_no_water rebounding_player)).last_ground_y := by
    rw [ht.2.1, h0.2.2.2.1]
    exact hy
  have hfall : (Player.update (sample_env true) rebounding_player 0).fall_mode
      = FallMode.FALLING := by
    rw [hf.1, (hs.2.2 hg hy2).1, ht.1, h0.2.2.1]
    rfl
  refine ⟨rfl, rfl, hg, hy, hfall, ?_⟩
  rw [hfall]
  exact fun h => FallMode.noConfusion h

/-- C25 (amended): the slope statement of update forces the vertical velocity to 250
exactly when the player is grounded, the y component of the stored floor
normal is non-zero and the horizontal velocity agrees with the slope lean
(floor_normal.x * vx >= 0), and then changes nothing else; when the player
is airborne, or the y component of the floor normal is zero, this
statement changes nothing.  The statement runs in update after the input
and width statements. -/
theorem C25_update_slope_velocity (env : Env) (s : Player) :
    (s.on_ground = true ∧ s.floor_normal.y ≠ 0 ∧ s.floor_normal.x * s.physic.vx ≥ 0 →
        Player.update_slope s = { s with physic := s.physic.set_velocity_y 250 }
          ∧ (Player.update_slope s).physic.vy = 250)
      ∧ (¬ (s.on_ground = true ∧ s.floor_normal.y ≠ 0 ∧ s.floor_normal.x * s.physic.vx ≥ 0) →
        Player.update_slope s = s)
      ∧ (s.on_ground = false → Player.update_slope s = s)
      ∧ (s.floor_normal.y = 0 → Player.update_slope s = s)
      ∧ Player.update_motion env s
        = Player.update_landed env (Player.update_fall_mode (Player.update_backflip env
            (Player.update_slope (Player.update_width (Player.update_input env s))))) := by
  refine ⟨?_, ?_, ?_, ?_, rfl⟩
  · intro h
    constructor
    · simp only [Player.update_slope, if_pos h]
    · simp only [Player.update_slope, if_pos h]
      rfl
  · intro h
    simp only [Player.update_slope, if_neg h]
  · intro h
    simp [Player.update_slope, h]
  · intro h
    simp [Player.update_slope, h]

/-- Witness for C25: the sample player walking left down a slope that leans left gets
the vertical velocity 250; in the air it keeps its vertical velocity. -/
theorem C25_update_slope_velocity_witness :
    (Player.update_slope slope_player).physic.vy = 250
      ∧ Player.update_slope { slope_player with on_ground_flag := false }
        = { slope_player with on_ground_flag := false } := by
  have h := (C25_update_slope_velocity (sample_env true) slope_player).1
    ⟨rfl, by simp [slope_player], by simp [slope_player]⟩
  exact ⟨h.2, (C25_update_slope_velocity (sample_env true)
    { slope_player with on_ground_flag := false }).2.2.1 rfl⟩

/-- C25 (counterexample to the claim as stated): on level ground with the exactly
vertical normal (0, -1), whose x component is zero, the grounded sample
player standing still gets the vertical velocity 250; and on a floor whose
stored normal (1, 0) has a non-zero x component, the grounded sample player
moving right, in agreement with the lean, keeps its vertical velocity 0. -/
theorem C25_counterexample :
    flat_floor_player.on_ground = true
      ∧ flat_floor_player.floor_normal.x = 0
      ∧ flat_floor_player.physic.vy = 0
      ∧ (Player.update_slope flat_floor_player).physic.vy = 250
      ∧ side_normal_player.on_ground = true
      ∧ side_normal_player.floor_normal.x ≠ 0
      ∧ side_normal_player.floor_normal.x * side_normal_player.physic.vx ≥ 0
      ∧ (Player.update_slope side_normal_player).physic.vy = 0 := by
  refine ⟨rfl, rfl, rfl, ?_, rfl, ?_, ?_, ?_⟩
  · simp [Player.update_slope, flat_floor_player, sample_player, Player.on_ground,
      Physic.set_velocity_y]
  · simp [side_normal_player]
  · simp [side_normal_player]
  · simp [Player.update_slope, side_normal_player, sample_player, Player.on_ground]

/-- C26: for every state with exactly one of LEFT/RIGHT in effect (dirsign = -1 or
+1), after handle_horizontal_input the velocity component in the held
direction is capped: vx * dirsign <= MAX_WALK_XM (230) when ACTION is held
or an object is grabbed, and vx * dirsign <= MAX_RUN_XM (320) otherwise;
and when the speed limit is positive, additionally
vx * dirsign <= speedlimit. -/
theorem C26_horizontal_speed_caps (env : Env) (s : Player)
    (hdir : Player.horizontal_dirsign env s = 1 ∨ Player.horizontal_dirsign env s = -1) :
    (env.hold Control.ACTION = true ∨ s.grabbed_object ≠ none →
        (Player.handle_horizontal_input env s).physic.vx * Player.horizontal_dirsign env s
          ≤ 230)
      ∧ (env.hold Control.ACTION = false ∧ s.grabbed_object = none →
        (Player.handle_horizontal_input env s).physic.vx * Player.horizontal_dirsign env s
          ≤ 320)
      ∧ (s.speedlimit > 0 →
        (Player.handle_horizontal_input env s).physic.vx * Player.horizontal_dirsign env s
          ≤ s.speedlimit)
      ∧ MAX_WALK_XM = 230 ∧ MAX_RUN_XM = 320 := by
  have hne : Player.horizontal_dirsign env s ≠ 0 := by
    rcases hdir with h | h <;> rw [h] <;> norm_num
  have hvx := Player.handle_horizontal_input_of_dirsign_ne_zero env s hne
  have hlim := Player.horizontal_limit_cap (env.hold Control.ACTION || s.grabbed_object.isSome)
    s.physic.vx (Player.horizontal_dirsign env s) hdir
  refine ⟨?_, ?_, ?_, rfl, rfl⟩
  · intro hw
    have hwalk : (env.hold Control.ACTION || s.grabbed_object.isSome) = true := by
      rcases hw with hw | hw
      · simp [hw]
      · cases hg : s.grabbed_object with
        | none => exact absurd hg hw
        | some g => simp
    rw [hwalk, if_pos rfl] at hlim
    rw [hvx, hwalk]
    exact (Player.horizontal_snap_cap s.speedlimit _ 230 _ hdir (by norm_num)
      (by simpa [MAX_WALK_XM] using hlim)).1
  · rintro ⟨ha, hg⟩
    have hrun : (env.hold Control.ACTION || s.grabbed_object.isSome) = false := by
      simp [ha, hg]
    rw [hrun, if_neg Bool.false_ne_true] at hlim
    rw [hvx, hrun]
    exact (Player.horizontal_snap_cap s.speedlimit _ 320 _ hdir (by norm_num)
      (by simpa [MAX_RUN_XM] using hlim)).1
  · intro hsl
    rw [hvx]
    have hcap : (Player.horizontal_limit (env.hold Control.ACTION || s.grabbed_object.isSome)
        s.physic.vx (Player.horizontal_dirsign env s)).1 * Player.horizontal_dirsign env s
        ≤ 320 := by
      refine le_trans hlim ?_
      split_ifs <;> norm_num [MAX_WALK_XM, MAX_RUN_XM]
    exact (Player.horizontal_snap_cap s.speedlimit _ 320 _ hdir (by norm_num) hcap).2 hsl

/-- Witness for C26: the sample player moving right at speed 500 with RIGHT held is
slowed to 320, and to 230 when ACTION is held as well. -/
theorem C26_horizontal_speed_caps_witness :
    (Player.handle_horizontal_input right_held_env speeding_player).physic.vx * 1 ≤ 320
      ∧ (Player.handle_horizontal_input right_action_held_env speeding_player).physic.vx * 1
          ≤ 230 := by
  have hd1 : Player.horizontal_dirsign right_held_env speeding_player = 1 := by
    simp [Player.horizontal_dirsign, right_held_env, speeding_player, sample_player]
  have hd2 : Player.horizontal_dirsign right_action_held_env speeding_player = 1 := by
    simp [Player.horizontal_dirsign, right_action_held_env, speeding_player, sample_player]
  have h1 := (C26_horizontal_speed_caps right_held_env speeding_player (Or.inl hd1)).2.1
    ⟨by simp [right_held_env], rfl⟩
  have h2 := (C26_horizontal_speed_caps right_action_held_env speeding_player (Or.inl hd2)).1
    (Or.inl (by simp [right_action_held_env]))
  rw [hd1] at h1
  rw [hd2] at h2
  exact ⟨h1, h2⟩

/-- C27: for every ducked, grounded state with facing direction d (LEFT or RIGHT),
do_backflip starts a backflip whose stored direction is +1 for LEFT and -1
for RIGHT and keeps the facing direction; every update step taken from a
state that backflips with this stored direction and faces d leaves the
facing direction equal to d and, while backflipping is still true, keeps
the stored direction; and the backflip statement of such a step, reached
after the input statements when the dying check is passed, sets the
horizontal velocity to 100 times the stored direction (+100 when d = LEFT,
-100 when d = RIGHT) while the backflip timer is started, whatever
velocity the input handling produced. -/
theorem C27_backflip_pins_direction_and_speed (env : Env) (s : Player) (d : Direction)
    (hd : d = Direction.LEFT ∨ d = Direction.RIGHT)
    (hduck : s.duck = true) (hground : s.on_ground = true) (hdir : s.dir = d) :
    (Player.do_backflip env s).backflipping = true
      ∧ (Player.do_backflip env s).dir = d
      ∧ (Player.do_backflip env s).backflip_direction = (if d = Direction.LEFT then 1 else -1)
      ∧ (Player.do_backflip env s).backflip_timer = Timer.start 0.15 env.game_time
      ∧ (∀ (e : Env) (t : Player) (elapsed_time : ℚ),
          t.backflipping = true →
          t.backflip_direction = (if d = Direction.LEFT then 1 else -1) →
          t.dir = d →
          (Player.update e t elapsed_time).dir = d
            ∧ ((Player.update e t elapsed_time).backflipping = true →
                (Player.update e t elapsed_time).backflip_direction
                  = (if d = Direction.LEFT then 1 else -1))
            ∧ (¬ (t.dying = true ∧ (t.dying_timer.check e.game_time).1 = true) →
                Player.update e t elapsed_time
                    = Player.update_finish e (Player.update_landed e (Player.update_fall_mode
                        (Player.update_backflip e (Player.update_slope (Player.update_width
                          (Player.update_input e (Player.update_no_water t))))))) elapsed_time
                  ∧ ((Player.update_slope (Player.update_width (Player.update_input e
                        (Player.update_no_water t)))).backflip_timer.started e.game_time = true →
                      (Player.update_backflip e (Player.update_slope (Player.update_width
                        (Player.update_input e (Player.update_no_water t))))).physic.vx
                        = (if d = Direction.LEFT then 100 else -100)))) := by
  have hp := Player.do_backflip_pose env s
  have hbf := hp.2.2.2.1 ⟨hduck, hground⟩
  refine ⟨hbf.1, by rw [hp.1, hdir], ?_, ?_, ?_⟩
  · rw [hbf.2, hdir]
  · simp [Player.do_backflip, hduck, hground]
  · intro e t dt hb hbd htd
    have hu := Player.update_flip e t dt d hd hb hbd htd
    refine ⟨hu.1, hu.2, ?_⟩
    intro hcheck
    have h0 := Player.update_no_water_life t
    have hw := Player.update_before_fall_mode_trend e t
    have hc2 : ¬ ((Player.update_no_water t).dying = true
        ∧ ((Player.update_no_water t).dying_timer.check e.game_time).1 = true) := by
      rw [h0.2.1, h0.2.2]
      exact hcheck
    constructor
    · simp only [Player.update, if_neg hc2, Player.update_motion, Player.update_before_fall_mode]
    · intro hstarted
      have hin := Player.update_input_flip e (Player.update_no_water t)
        (if d = Direction.LEFT then 1 else -1)
        (by rw [hw.2.2.2.2.1, hb]) (by rw [hw.2.2.2.2.2.1, hbd])
        (by rw [hw.2.2.2.2.2.2, htd])
      have hsw := Player.update_slope_width_flip
        (Player.update_input e (Player.update_no_water t))
      have hpin := Player.update_backflip_spec e
        (Player.update_slope (Player.update_width
          (Player.update_input e (Player.update_no_water t))))
        (by rw [hsw.1, hin.1])
      rw [hpin.2.2.2.1 hstarted, hsw.2.1, hin.2]
      rcases hd with hd | hd <;> subst hd <;> simp

/-- Witness for C27: the big sample player, ducked on the ground and facing right,
starts a backflip with stored direction -1; the update step 0.1 later,
within the backflip timer, leaves it facing right. -/
theorem C27_backflip_pins_direction_and_speed_witness :
    (Player.do_backflip (sample_env true) ducked_player).backflipping = true
      ∧ (Player.do_backflip (sample_env true) ducked_player).backflip_direction = -1
      ∧ (Player.update flip_env (Player.do_backflip (sample_env true) ducked_player) 0.1).dir
        = Direction.RIGHT := by
  have h := C27_backflip_pins_direction_and_speed (sample_env true) ducked_player
    Direction.RIGHT (Or.inr rfl) rfl rfl rfl
  refine ⟨h.1, ?_, ?_⟩
  · rw [h.2.2.1]
    rfl
  · exact (h.2.2.2.2 flip_env _ 0.1 h.1 h.2.2.1 h.2.1).1

/-- C28: early_jump_apex multiplies gravity by JUMP_EARLY_APEX_FACTOR (3) at most
once (a second call changes nothing), and do_jump_apex after it restores
exactly the state, and so the gravity value, held before early_jump_apex
and clears the flag; do_jump_apex when the flag is not set changes nothing.
Within handle_vertical_input the raise happens exactly when JUMP is not
held, jumping is true, not backflipping and vy < 0, and the restore
happens exactly when the flag is set and vy >= 0 after the jump-key
statements. -/
theorem C28_early_jump_apex_raise_and_restore (env : Env) (s : Player)
    (hflag : s.jump_early_apex = false) :
    JUMP_EARLY_APEX_FACTOR = 3
      ∧ (Player.early_jump_apex s).physic.gravity = s.physic.gravity * 3
      ∧ (Player.early_jump_apex s).jump_early_apex = true
      ∧ Player.early_jump_apex (Player.early_jump_apex s) = Player.early_jump_apex s
      ∧ Player.do_jump_apex (Player.early_jump_apex s) = s
      ∧ Player.do_jump_apex s = s
      ∧ ((Player.handle_vertical_input env s).jump_early_apex = true ↔
          (env.hold Control.JUMP = false ∧ s.backflipping = false ∧ s.jumping = true
            ∧ s.physic.vy < 0))
      ∧ ((Player.handle_vertical_input env s).jump_early_apex = true →
          (Player.handle_vertical_input env s).physic.gravity = s.physic.gravity * 3)
      ∧ ((Player.handle_vertical_input env s).jump_early_apex = false →
          (Player.handle_vertical_input env s).physic.gravity = s.physic.gravity)
      ∧ (∀ t : Player,
          (Player.handle_jump_key env t).jump_early_apex = true
            ∧ (Player.handle_jump_key env t).physic.vy ≥ 0 →
          (Player.handle_vertical_input env t).jump_early_apex = false
            ∧ (Player.handle_vertical_input env t).physic.gravity
              = (Player.handle_jump_key env t).physic.gravity / 3)
      ∧ (∀ t : Player,
          ¬ ((Player.handle_jump_key env t).jump_early_apex = true
            ∧ (Player.handle_jump_key env t).physic.vy ≥ 0) →
          (Player.handle_vertical_input env t).jump_early_apex
              = (Player.handle_jump_key env t).jump_early_apex
            ∧ (Player.handle_vertical_input env t).physic.gravity
              = (Player.handle_jump_key env t).physic.gravity) := by
  have hs := Player.early_jump_apex_spec s
  have hr := Player.handle_jump_key_raise env s hflag
  have hv := Player.handle_vertical_input_restore env s
  have he := hs.2.1 hflag
  have he2 := Player.early_jump_apex_spec (Player.early_jump_apex s)
  have hf : (Player.early_jump_apex s).jump_early_apex = true := by rw [he]
  refine ⟨rfl, by rw [he]; rfl, hf, he2.1 hf, ?_, hs.2.2.1 hflag, ?_, ?_, ?_, ?_, ?_⟩
  · rw [he2.2.2.2 hf, he]
    cases s
    simp only [Physic.set_gravity] at hflag ⊢
    subst hflag
    simp
  · rw [hv.1, ← hr.1]
    constructor
    · intro h
      by_contra hn
      split_ifs at h with hc
      exact hn h
    · intro h
      have hvy := (hr.2.1 h).2.1
      have hneg := (hr.1.mp h).2.2.2
      rw [if_neg (by rintro ⟨-, h2⟩; rw [hvy] at h2; exact absurd hneg (not_lt.mpr h2))]
      exact h
  · rw [hv.1, hv.2]
    intro h
    split_ifs at h ⊢ with hc
    exact (hr.2.1 h).1
  · rw [hv.1, hv.2]
    intro h
    by_cases hm : (Player.handle_jump_key env s).jump_early_apex = true
    · have hvy := (hr.2.1 hm).2.1
      have hneg := (hr.1.mp hm).2.2.2
      rw [if_neg (by rintro ⟨-, h2⟩; rw [hvy] at h2; exact absurd hneg (not_lt.mpr h2))] at h
      rw [hm] at h
      exact Bool.noConfusion h
    · rw [if_neg (fun hc => hm hc.1)]
      exact hr.2.2 (by simpa using hm)
  · intro t ht
    have hvt := Player.handle_vertical_input_restore env t
    rw [hvt.1, hvt.2, if_pos ht, if_pos ht]
    exact ⟨rfl, rfl⟩
  · intro t ht
    have hvt := Player.handle_vertical_input_restore env t
    rw [hvt.1, hvt.2, if_neg ht, if_neg ht]
    exact ⟨rfl, rfl⟩

/-- Witness for C28: the sample player rising in a jump with no key held gets the
early apex: the flag is set and gravity goes from 1000 to 3000. -/
theorem C28_early_jump_apex_raise_and_restore_witness :
    (Player.handle_vertical_input (sample_env true) rising_player).jump_early_apex = true
      ∧ (Player.handle_vertical_input (sample_env true) rising_player).physic.gravity = 3000
      ∧ Player.do_jump_apex (Player.early_jump_apex rising_player) = rising_player := by
  have h := C28_early_jump_apex_raise_and_restore (sample_env true) rising_player rfl
  have hraise : (Player.handle_vertical_input (sample_env true) rising_player).jump_early_apex
      = true := by
    rw [h.2.2.2.2.2.2.1]
    refine ⟨rfl, rfl, rfl, ?_⟩
    simp [rising_player]
  refine ⟨hraise, ?_, h.2.2.2.2.1⟩
  rw [h.2.2.2.2.2.2.2.1 hraise]
  simp [rising_player]
  norm_num

/-- C29: for every climbing state, stop_climbing leaves climbing null, gravity
enabled and acceleration (0, 0); the velocity afterwards is (0, 0) when
neither JUMP nor UP is held, and (0, -300) with jumping = true and
can_jump = false when JUMP or UP is held; when the player is not climbing,
stop_climbing changes nothing. -/
theorem C29_stop_climbing_restores_gravity (env : Env) (s : Player) :
    (s.climbing ≠ none →
        (Player.stop_climbing env s).climbing = none
          ∧ (Player.stop_climbing env s).physic.gravity_enabled = true
          ∧ (Player.stop_climbing env s).physic.ax = 0
          ∧ (Player.stop_climbing env s).physic.ay = 0
          ∧ (Player.stop_climbing env s).physic.vx = 0
          ∧ (env.hold Control.JUMP = false ∧ env.hold Control.UP = false →
              (Player.stop_climbing env s).physic.vy = 0)
          ∧ (env.hold Control.JUMP = true ∨ env.hold Control.UP = true →
              (Player.stop_climbing env s).physic.vy = -300
                ∧ (Player.stop_climbing env s).jumping = true
                ∧ (Player.stop_climbing env s).can_jump = false))
      ∧ (s.climbing = none → Player.stop_climbing env s = s) := by
  constructor
  · intro hc
    have h := Player.stop_climbing_of_climbing env s hc
    exact ⟨h.1, h.2.1, h.2.2.1, h.2.2.2.1, h.2.2.2.2.1,
      fun hk => (h.2.2.2.2.2.1 hk).1, h.2.2.2.2.2.2⟩
  · intro hc
    simp [Player.stop_climbing, hc]

/-- Witness for C29: the sample player on a climbable lets go with no key held and
comes to rest with gravity on; with UP held it leaves with the small jump. -/
theorem C29_stop_climbing_restores_gravity_witness :
    (Player.stop_climbing (sample_env true) climbing_player).climbing = none
      ∧ (Player.stop_climbing (sample_env true) climbing_player).physic.gravity_enabled = true
      ∧ (Player.stop_climbing (sample_env true) climbing_player).physic.vy = 0
      ∧ (Player.stop_climbing up_held_env climbing_player).physic.vy = -300
      ∧ (Player.stop_climbing up_held_env climbing_player).can_jump = false
      ∧ Player.stop_climbing (sample_env true) sample_player = sample_player := by
  have h := (C29_stop_climbing_restores_gravity (sample_env true) climbing_player).1
    (by simp [climbing_player])
  have hu := (C29_stop_climbing_restores_gravity up_held_env climbing_player).1
    (by simp [climbing_player])
  have hn := (C29_stop_climbing_restores_gravity (sample_env true) sample_player).2 rfl
  exact ⟨h.1, h.2.1, h.2.2.2.2.2.1 ⟨rfl, rfl⟩, (hu.2.2.2.2.2.2 (Or.inr rfl)).1,
    (hu.2.2.2.2.2.2 (Or.inr rfl)).2.2, hn⟩

/-- C30 (the code evaluated at the failing input): big Tux after init() and a landing
stands in a box of height 62.8 with its top edge at -32; after do_duck()
and do_standup() with free space above, duck is false but the box is 63.8
high with its top edge at -33, the height do_standup() passes to
adjust_height. -/
theorem C30_duck_standup_grows_the_box :
    landed_player.bbox = ⟨⟨0, -32⟩, ⟨31.8, 30.8⟩⟩
      ∧ landed_player.bbox.get_height = 62.8
      ∧ (Player.do_standup (sample_env true)
          (Player.do_duck (sample_env true) landed_player)).duck = false
      ∧ (Player.do_standup (sample_env true)
          (Player.do_duck (sample_env true) landed_player)).bbox = ⟨⟨0, -33⟩, ⟨31.8, 30.8⟩⟩
      ∧ (Player.do_standup (sample_env true)
          (Player.do_duck (sample_env true) landed_player)).bbox.get_height = 63.8
      ∧ (Player.do_standup (sample_env true)
          (Player.do_duck (sample_env true) landed_player)).bbox ≠ landed_player.bbox := by
  have hl := Player.landed_player_spec
  have h := Player.do_standup_do_duck (sample_env true) landed_player hl.1 hl.2.1 hl.2.2.1
    hl.2.2.2.1 hl.2.2.2.2.1 hl.2.2.2.2.2.1 (fun _ => rfl)
  have hbox : (Player.do_standup (sample_env true)
      (Player.do_duck (sample_env true) landed_player)).bbox = ⟨⟨0, -33⟩, ⟨31.8, 30.8⟩⟩ := by
    rw [h.1, hl.2.2.2.2.2.2.2]
    norm_num
  refine ⟨hl.2.2.2.2.2.2.2, ?_, h.2.1, hbox, ?_, ?_⟩
  · rw [hl.2.2.2.2.2.2.2]
    simp [Rect.get_height]
    norm_num
  · rw [hbox]
    simp [Rect.get_height]
    norm_num
  · rw [hbox, hl.2.2.2.2.2.2.2]
    intro heq
    have := congrArg (fun r : Rect => r.p1.y) heq
    norm_num at this

/-- C31 (the code evaluated at the failing input): the small sample player (bonus
NO_BONUS, box 31.8 x 30.8 with its top edge at 0, not growing) with free
space above: set_bonus(NO_BONUS, true) returns true, but the box has become
62.8 high with its top edge at -32 and growing is set; with animate = false
the box grows in the same way. -/
theorem C31_set_bonus_no_bonus_grows_small_player :
    sample_player.player_status.bonus = BonusType.NO_BONUS
      ∧ sample_player.bbox = ⟨⟨0, 0⟩, ⟨31.8, 30.8⟩⟩
      ∧ sample_player.growing = false
      ∧ (sample_player.set_bonus (sample_env true) BonusType.NO_BONUS true).1 = true
      ∧ (sample_player.set_bonus (sample_env true) BonusType.NO_BONUS true).2.bbox
        = ⟨⟨0, -32⟩, ⟨31.8, 30.8⟩⟩
      ∧ (sample_player.set_bonus (sample_env true) BonusType.NO_BONUS true).2.bbox.get_height
        = 62.8
      ∧ (sample_player.set_bonus (sample_env true) BonusType.NO_BONUS true).2.growing = true
      ∧ (sample_player.set_bonus (sample_env true) BonusType.NO_BONUS false).2.bbox
        = ⟨⟨0, -32⟩, ⟨31.8, 30.8⟩⟩ := by
  have ha : (sample_player.adjust_height (sample_env true) 62.8).1 = true := by
    rw [Player.adjust_height_true_iff]
    exact Or.inr rfl
  have hbox := Player.adjust_height_true_bbox (sample_env true) sample_player 62.8 ha
  have hb1 := Player.set_bonus_of_small_bbox (sample_env true) sample_player
    BonusType.NO_BONUS true rfl rfl ha
  have hb2 := Player.set_bonus_of_small_bbox (sample_env true) sample_player
    BonusType.NO_BONUS false rfl rfl ha
  have hg := Player.set_bonus_of_small_growing (sample_env true) sample_player
    BonusType.NO_BONUS true rfl rfl ha
  have hbb : (sample_player.adjust_height (sample_env true) 62.8).2.bbox
      = ⟨⟨0, -32⟩, ⟨31.8, 30.8⟩⟩ := by
    rw [hbox]
    simp [sample_player]
    norm_num
  refine ⟨rfl, rfl, rfl, hg.1, by rw [hb1, hbb], ?_, by rw [hg.2]; rfl, by rw [hb2, hbb]⟩
  rw [hb1, hbb]
  simp [Rect.get_height]
  norm_num

/-- C32: in every state reachable from construction through any sequence of draw
calls, idle_stage < IDLE_STAGE_COUNT (5), so every index into IDLE_TIME and
IDLE_STAGES used by draw is in bounds and the call succeeds; a draw call
leaves the idle cursor where it is, or advances it, wrapping from stage 4
to stage 1, or re-enters stage 0, which it does only when the sprite's
current action is neither a stand nor an idle action. -/
theorem C32_idle_stage_in_bounds (s : Player) (h : Drawn s) :
    s.idle_stage < IDLE_STAGE_COUNT
      ∧ IDLE_STAGE_COUNT = 5
      ∧ IDLE_TIME.length = 5
      ∧ IDLE_STAGES.length = 5
      ∧ (∀ env : Env, ∃ t, Player.draw env s = some t ∧ idle_stage_step s t
          ∧ t.idle_stage < IDLE_STAGE_COUNT)
      ∧ (∀ (env : Env) (t : Player), Player.draw env s = some t → s.idle_stage = 4 →
          t.idle_stage = 4 ∨ t.idle_stage = 0 ∨ t.idle_stage = 1)
      ∧ (∀ (env : Env) (t : Player), Player.draw env s = some t → t.idle_stage = 0 →
          s.idle_stage = 0 ∨ (s.action_contains "-stand-" = false
            ∧ s.action_contains "-idle-" = false)) := by
  have hlt : s.idle_stage < IDLE_STAGE_COUNT := by
    induction h with
    | construct env ps raw =>
      rw [Player.construct, Player.init_idle_stage]
      show (0 : Nat) < 5
      norm_num
    | draw env s t _ hd ih =>
      obtain ⟨u, hu, -, hlt⟩ := Player.draw_spec env s ih
      rw [hd] at hu
      rw [Option.some.inj hu]
      exact hlt
  refine ⟨hlt, rfl, rfl, rfl, fun env => Player.draw_spec env s hlt, ?_, ?_⟩
  · intro env t hd h4
    obtain ⟨u, hu, hstep, -⟩ := Player.draw_spec env s hlt
    rw [hd] at hu
    rw [← Option.some.inj hu] at hstep
    rcases hstep with hs | hs | hs
    · exact Or.inl (by rw [hs, h4])
    · exact Or.inr (Or.inl hs.1)
    · right; right
      rw [hs, h4]
      rfl
  · intro env t hd h0
    obtain ⟨u, hu, hstep, -⟩ := Player.draw_spec env s hlt
    rw [hd] at hu
    rw [← Option.some.inj hu] at hstep
    rcases hstep with hs | hs | hs
    · exact Or.inl (by rw [← hs, h0])
    · exact Or.inr hs.2
    · exfalso
      rw [h0] at hs
      split_ifs at hs

/-- Witness for C32: the player as constructed is in idle stage 0, below 5, and its
first draw call succeeds; the sample player in stage 4 with an elapsed idle
timer and a stand action wraps to stage 1. -/
theorem C32_idle_stage_in_bounds_witness :
    (Player.construct (sample_env true) sample_player.player_status sample_player).idle_stage
        < IDLE_STAGE_COUNT
      ∧ (∃ t, Player.draw (sample_env true)
          (Player.construct (sample_env true) sample_player.player_status sample_player)
          = some t)
      ∧ (∃ t, Player.draw late_env last_idle_stage_player = some t ∧ t.idle_stage = 1) := by
  have h := C32_idle_stage_in_bounds
    (Player.construct (sample_env true) sample_player.player_status sample_player)
    (Drawn.construct (sample_env true) sample_player.player_status sample_player)
  refine ⟨h.1, ?_, ?_⟩
  · obtain ⟨t, ht, -⟩ := h.2.2.2.2.1 (sample_env true)
    exact ⟨t, ht⟩
  · have hstand : last_idle_stage_player.action_contains "-stand-" = true := by
      simp only [Player.action_contains, last_idle_stage_player, sample_player]
      decide
    have hcheck : (last_idle_stage_player.idle_timer.check late_env.game_time).1 = true := by
      have hg : late_env.game_time = 3 := rfl
      rw [hg]
      simp [last_idle_stage_player, Timer.check, Timer.start]
      norm_num
    obtain ⟨t, ht, h1, -⟩ := Player.draw_idle_advance_spec late_env
      { last_idle_stage_player with
        idle_timer := (last_idle_stage_player.idle_timer.check late_env.game_time).2 }
      (by decide)
    refine ⟨t, ?_, by rw [h1]; rfl⟩
    have hidle : Player.draw_idle late_env last_idle_stage_player = some t := by
      simp only [Player.draw_idle, hstand, Bool.true_eq_false, false_and, if_false, hcheck,
        if_true]
      exact ht
    rw [← hidle]
    exact Player.draw_of_standing late_env last_idle_stage_player rfl rfl rfl rfl rfl rfl
      (by simp [last_idle_stage_player, sample_player, Timer.started])
      (by simp [last_idle_stage_player, sample_player, Timer.started])
      rfl rfl rfl (by simp [last_idle_stage_player, sample_player])

end SuperTux
